import Mathlib

set_option linter.unreachableTactic false
set_option linter.unnecessarySeqFocus false
set_option linter.unusedTactic false
set_option linter.flexible false

/-!
# Verification of the farmOS MCP tool layer

This file is a shallow embedding, in Lean 4, of the farmOS MCP server
(`farmos_client.py`, `server.py` and the modules under `tools/`), together
with proofs about its normalization, fan-out, transport-retry and
registration behaviour.

Modelling conventions:

* Python/JSON values are modelled by the inductive `PyVal`.  Python `dict`s
  are insertion-ordered association lists with unique keys, which matches
  how every dict in this code base is built.
* Python exceptions are modelled by `PyExc`; fallible Python expressions
  become `Except PyExc _` values, and `try/except` becomes matching on the
  `Except`.
* Python floats are modelled as exact rationals (`Rat`).  The code never
  relies on binary rounding: the only float operations used are
  `float(str)`, `int(x)` (truncation toward zero) and one exact-looking
  division, so the rational model is faithful for every claim below.
  IEEE special values (`inf`/`nan`) and underscore digit separators,
  which Python's `float()` would accept, are not modelled.
* Rationals are only ever constructed via `mkRat` and destructed via
  `Rat.num`/`Rat.den`, so that all definitions evaluate inside the kernel.
* The HTTP backend is an oracle (`Backend`): a deterministic function from
  requests to transport results, plus a deterministic token endpoint.  The
  client's mutable token cache and the list of issued requests are
  explicit state (`St`), threaded by the `ES` monad.
-/

namespace FarmOS

/-- Python/JSON values as manipulated by the tools.  Dicts are
insertion-ordered association lists (Python 3.7+ dict semantics). -/
inductive PyVal where
  | none
  | bool (b : Bool)
  | int (n : Int)
  | float (q : Rat)
  | str (s : String)
  | list (xs : List PyVal)
  | dict (kvs : List (String × PyVal))

/-- Association list used for Python dicts with string keys. -/
abbrev PyDict := List (String × PyVal)

/-- Python exceptions relevant to this code base.  `httpStatusError`
models `httpx.HTTPStatusError` raised by `raise_for_status` and carries
the status code and (JSON-decoded) body; `transportError` models
connection-level `httpx` errors. -/
inductive PyExc where
  | attributeError (msg : String)
  | typeError (msg : String)
  | valueError (msg : String)
  | keyError (key : String)
  | zeroDivisionError
  | httpStatusError (status : Nat) (body : PyVal)
  | transportError (msg : String)
  | runtimeError (msg : String)

/-- Decimal digits of a natural number (fuel-based so it reduces in the
kernel); models Python's rendering of a nonnegative integer. -/
def natDigits : Nat → Nat → List Char
  | 0, _ => []
  | fuel + 1, n =>
    if n < 10 then [Char.ofNat (48 + n)]
    else natDigits fuel (n / 10) ++ [Char.ofNat (48 + n % 10)]

/-- Decimal rendering of a natural number. -/
def natStr (n : Nat) : String := String.mk (natDigits 40 n)

/-- Decimal rendering of an integer, models Python `str(int)`. -/
def intStr (n : Int) : String :=
  if n < 0 then "-" ++ natStr n.natAbs else natStr n.natAbs

/-- Message of an exception, models Python `str(e)`.  The HTTP status
message is a simplified stand-in for httpx's text. -/
def msgOf : PyExc → String
  | .attributeError m => m
  | .typeError m => m
  | .valueError m => m
  | .keyError k => "'" ++ k ++ "'"
  | .zeroDivisionError => "division by zero"
  | .httpStatusError s _ => "HTTP status error " ++ natStr s
  | .transportError m => m
  | .runtimeError m => m

/-- Python truthiness. -/
def truthy : PyVal → Bool
  | .none => false
  | .bool b => b
  | .int n => n != 0
  | .float q => q.num != 0
  | .str s => s != ""
  | .list xs => !xs.isEmpty
  | .dict kvs => !kvs.isEmpty

/-- Python `x is None`. -/
def isNone : PyVal → Bool
  | .none => true
  | _ => false

/-- Python `d.get(k, default)`; raises `AttributeError` when the receiver
is not a dict (no `.get` attribute). -/
def pyGetD (v : PyVal) (k : String) (d : PyVal) : Except PyExc PyVal :=
  match v with
  | .dict kvs => .ok ((kvs.lookup k).getD d)
  | _ => .error (.attributeError ("object has no attribute 'get' (key " ++ k ++ ")"))

/-- Python `d.get(k)` (default `None`). -/
def pyGet (v : PyVal) (k : String) : Except PyExc PyVal := pyGetD v k .none

/-- Python `d[k]` on dicts: `KeyError` on a missing key, `TypeError` when
the receiver is not subscriptable by a string. -/
def pySub (v : PyVal) (k : String) : Except PyExc PyVal :=
  match v with
  | .dict kvs =>
    match kvs.lookup k with
    | some x => .ok x
    | Option.none => .error (.keyError k)
  | _ => .error (.typeError ("value is not subscriptable by string key " ++ k))

/-- Python `k in d` for dicts. -/
def pyHasKey (v : PyVal) (k : String) : Bool :=
  match v with
  | .dict kvs => (kvs.lookup k).isSome
  | _ => false

/-- Python runtime type name of a value, as it appears in
`AttributeError` messages. -/
def pyTypeName : PyVal → String
  | .none => "NoneType"
  | .bool _ => "bool"
  | .int _ => "int"
  | .float _ => "float"
  | .str _ => "str"
  | .list _ => "list"
  | .dict _ => "dict"

/-- Python iteration `for x in v`: lists yield elements, strings yield
one-character strings, dicts yield their keys; other values raise
`TypeError`. -/
def pyIter : PyVal → Except PyExc (List PyVal)
  | .list xs => .ok xs
  | .str s => .ok (s.data.map (fun c => .str (String.mk [c])))
  | .dict kvs => .ok (kvs.map (fun p => PyVal.str p.1))
  | _ => .error (.typeError "object is not iterable")

/-- Whether a character is an ASCII decimal digit. -/
def isDigitC (c : Char) : Bool := decide ('0' ≤ c) && decide (c ≤ '9')

/-- Numeric value of an ASCII digit. -/
def digitVal (c : Char) : Nat := c.toNat - 48

/-- Natural number of a digit string read left to right. -/
def digitsVal (cs : List Char) : Nat := cs.foldl (fun a c => a * 10 + digitVal c) 0

/-- Python whitespace stripping applied on both ends (`str.strip()`). -/
def pyStrip (s : String) : String :=
  String.mk (((s.data.dropWhile Char.isWhitespace).reverse.dropWhile Char.isWhitespace).reverse)

/-- Python `str.lower()` (ASCII case folding; the configuration values this
code compares are ASCII). -/
def pyLower (s : String) : String := String.mk (s.data.map Char.toLower)

/-- Exponent application: mantissa `m` scaled by `10 ^ e` as an exact
rational, built through `mkRat` only. -/
def scaleByPow10 (m : Int) (e : Int) : Rat :=
  if 0 ≤ e then mkRat (m * ((10 : Int) ^ e.toNat)) 1
  else mkRat m ((10 : Nat) ^ (-e).toNat)

/-- Parser for the decimal part of Python `float(str)`: optional sign,
digits with an optional fractional part, optional exponent.  `inf`, `nan`
and underscore separators are deliberately not modelled. -/
def floatChars (cs : List Char) : Option Rat :=
  let cs := (cs.dropWhile Char.isWhitespace).reverse.dropWhile Char.isWhitespace |>.reverse
  let (sign, cs) : Int × List Char :=
    match cs with
    | '+' :: rest => (1, rest)
    | '-' :: rest => (-1, rest)
    | rest => (1, rest)
  let intPart := cs.takeWhile isDigitC
  let cs := cs.dropWhile isDigitC
  let (fracPart, cs) : List Char × List Char :=
    match cs with
    | '.' :: rest => (rest.takeWhile isDigitC, rest.dropWhile isDigitC)
    | rest => ([], rest)
  if intPart.isEmpty && fracPart.isEmpty then Option.none
  else
    let mant : Int := sign * (digitsVal (intPart ++ fracPart) : Int)
    let fracLen : Int := fracPart.length
    match cs with
    | [] => some (scaleByPow10 mant (-fracLen))
    | e :: rest =>
      if e = 'e' || e = 'E' then
        let (esign, rest) : Int × List Char :=
          match rest with
          | '+' :: r => (1, r)
          | '-' :: r => (-1, r)
          | r => (1, r)
        let eDigits := rest.takeWhile isDigitC
        let rest := rest.dropWhile isDigitC
        if eDigits.isEmpty || !rest.isEmpty then Option.none
        else some (scaleByPow10 mant (esign * (digitsVal eDigits : Int) - fracLen))
      else Option.none

/-- Python `float(str)` on a string. -/
def pyFloatOfStr (s : String) : Option Rat := floatChars s.data

/-- Python `float(x)`: accepts floats, ints, bools and parseable strings;
`TypeError` otherwise (including `None`). -/
def pyFloat : PyVal → Except PyExc Rat
  | .float q => .ok q
  | .int n => .ok (mkRat n 1)
  | .bool b => .ok (mkRat (if b then 1 else 0) 1)
  | .str s =>
    match pyFloatOfStr s with
    | some q => .ok q
    | Option.none => .error (.valueError ("could not convert string to float: '" ++ s ++ "'"))
  | _ => .error (.typeError "float() argument must be a string or a real number")

/-- Parser for Python `int(str)`: optional whitespace, optional sign,
decimal digits only. -/
def intChars (cs : List Char) : Option Int :=
  let cs := (cs.dropWhile Char.isWhitespace).reverse.dropWhile Char.isWhitespace |>.reverse
  let (sign, cs) : Int × List Char :=
    match cs with
    | '+' :: rest => (1, rest)
    | '-' :: rest => (-1, rest)
    | rest => (1, rest)
  if cs.isEmpty || !(cs.all isDigitC) then Option.none
  else some (sign * (digitsVal cs : Int))

/-- Python `int(x)`: ints pass through, floats truncate toward zero, bools
become 0/1, strings must be decimal integers; `TypeError` otherwise. -/
def pyInt : PyVal → Except PyExc Int
  | .int n => .ok n
  | .bool b => .ok (if b then 1 else 0)
  | .float q => .ok (q.num.tdiv q.den)
  | .str s =>
    match intChars s.data with
    | some n => .ok n
    | Option.none =>
      .error (.valueError ("invalid literal for int() with base 10: '" ++ s ++ "'"))
  | _ => .error (.typeError "int() argument must be a string or a number")

/-- Exceptions caught by the decimal branch of `_parse_qty_value`
(`except (ValueError, TypeError)`). -/
def caughtByDecimalBranch : PyExc → Bool
  | .valueError _ => true
  | .typeError _ => true
  | _ => false

/-- Exceptions caught by the fraction branch of `_parse_qty_value`
(`except (ValueError, ZeroDivisionError)`). -/
def caughtByFractionBranch : PyExc → Bool
  | .valueError _ => true
  | .zeroDivisionError => true
  | _ => false

/-- Python integer true division `a / b` as an exact rational;
`ZeroDivisionError` on a zero denominator. -/
def pyDivInt (a b : Int) : Except PyExc Rat :=
  if b = 0 then .error .zeroDivisionError
  else .ok (mkRat (if b < 0 then -a else a) b.natAbs)

/-- Embedding of `_parse_qty_value` (`tools/quantities.py` lines 9-22 and
the identical copy in `tools/logs.py` lines 63-77): falsy values yield
`None`; a non-`None` `decimal` field is fed to `float()` with
`ValueError`/`TypeError` swallowed; else a non-`None` `numerator` with a
truthy `denominator` is divided via `int()` conversions with
`ValueError`/`ZeroDivisionError` swallowed; else `None`.  Note that
`.get` on a truthy non-dict raises `AttributeError`, and `int()` of a
non-convertible type raises `TypeError`; neither is caught here. -/
def parseQtyValue (value : PyVal) : Except PyExc (Option Rat) :=
  if truthy value = false then .ok Option.none
  else
    match pyGet value "decimal" with
    | .error e => .error e
    | .ok dec =>
      let decimalBranch : Except PyExc (Option Rat) :=
        if isNone dec then .ok Option.none
        else
          match pySub value "decimal" with
          | .error e => .error e
          | .ok dv =>
            match pyFloat dv with
            | .ok q => .ok (some q)
            | .error e => if caughtByDecimalBranch e then .ok Option.none else .error e
      match decimalBranch with
      | .error e => .error e
      | .ok (some q) => .ok (some q)
      | .ok Option.none =>
        match pyGet value "numerator" with
        | .error e => .error e
        | .ok num =>
          match pyGet value "denominator" with
          | .error e => .error e
          | .ok den =>
            if isNone num = false && truthy den then
              let fracBranch : Except PyExc (Option Rat) :=
                match pySub value "numerator" with
                | .error e => .error e
                | .ok nv =>
                  match pyInt nv with
                  | .error e => .error e
                  | .ok ni =>
                    match pySub value "denominator" with
                    | .error e => .error e
                    | .ok dv2 =>
                      match pyInt dv2 with
                      | .error e => .error e
                      | .ok di =>
                        match pyDivInt ni di with
                        | .error e => .error e
                        | .ok q => .ok (some q)
              match fracBranch with
              | .ok r => .ok r
              | .error e =>
                if caughtByFractionBranch e then .ok Option.none else .error e
            else .ok Option.none

/-!
## Calendar and timestamp model

Embeds `_ts_to_iso` (`tools/logs.py` 27-33, `tools/assets.py` 38-44),
`_iso_to_ts` (`tools/logs.py` 298-302, `tools/assets.py` 47-50) and the
inline `datetime.fromisoformat(...).timestamp()` used by `create_log`.
Python's proleptic-Gregorian calendar (years 1..9999) is modelled with an
epoch-day count from 0001-01-01; `datetime.timestamp()` of an aware value
is epoch seconds of the instant, and of a naive value interprets the civil
time in the process-local timezone, passed here as an explicit offset. -/

/-- Gregorian leap-year rule. -/
def isLeap (y : Nat) : Bool := (y % 4 == 0 && y % 100 != 0) || y % 400 == 0

/-- Length of a year in days. -/
def yearLen (y : Nat) : Nat := if isLeap y then 366 else 365

/-- Days in month `m` (1-12) of a (non-)leap year; 0 for out-of-range. -/
def monthLen (leap : Bool) (m : Nat) : Nat :=
  match m with
  | 1 => 31
  | 2 => if leap then 29 else 28
  | 3 => 31
  | 4 => 30
  | 5 => 31
  | 6 => 30
  | 7 => 31
  | 8 => 31
  | 9 => 30
  | 10 => 31
  | 11 => 30
  | 12 => 31
  | _ => 0

/-- Days strictly before month `m` within a year. -/
def daysBeforeMonth (leap : Bool) (m : Nat) : Nat :=
  let base :=
    match m with
    | 1 => 0
    | 2 => 31
    | 3 => 59
    | 4 => 90
    | 5 => 120
    | 6 => 151
    | 7 => 181
    | 8 => 212
    | 9 => 243
    | 10 => 273
    | 11 => 304
    | 12 => 334
    | _ => 0
  base + (if 3 ≤ m && leap then 1 else 0)

/-- Days from 0001-01-01 to the start of year `y` (closed form). -/
def daysBeforeYear (y : Nat) : Nat :=
  365 * (y - 1) + (y - 1) / 4 + (y - 1) / 400 - (y - 1) / 100

/-- Day count of a civil date, measured from 0001-01-01. -/
def toRD (y m d : Nat) : Nat :=
  daysBeforeYear y + daysBeforeMonth (isLeap y) m + (d - 1)

/-- Day number of 1970-01-01 from 0001-01-01. -/
def epochRD : Nat := 719162

/-- A structurally valid civil date in Python's datetime range. -/
def ValidDate (y m d : Nat) : Prop :=
  1 ≤ y ∧ y ≤ 9999 ∧ 1 ≤ m ∧ m ≤ 12 ∧ 1 ≤ d ∧ d ≤ monthLen (isLeap y) m

instance (y m d : Nat) : Decidable (ValidDate y m d) := by
  unfold ValidDate
  infer_instance

/-- Splits a day-of-year into (month, day), walking the months; fuel-based
structural recursion so it evaluates in the kernel. -/
def mdoyGo (leap : Bool) : Nat → Nat → Nat → Nat × Nat
  | 0, m, doy => (m, doy + 1)
  | fuel + 1, m, doy =>
    if doy < monthLen leap m then (m, doy + 1)
    else mdoyGo leap fuel (m + 1) (doy - monthLen leap m)

/-- Month and day of a 0-based day-of-year. -/
def monthDayOfDoy (leap : Bool) (doy : Nat) : Nat × Nat := mdoyGo leap 12 1 doy

/-- Walks years from year 1 to resolve a day count into a civil date. -/
def goYear : Nat → Nat → Nat → Nat × Nat × Nat
  | 0, y, doy => (y, 1, doy + 1)
  | fuel + 1, y, doy =>
    if doy < yearLen y then
      (y, (monthDayOfDoy (isLeap y) doy).1, (monthDayOfDoy (isLeap y) doy).2)
    else goYear fuel (y + 1) (doy - yearLen y)

/-- Civil date of a day count from 0001-01-01: 400-year eras are peeled
arithmetically (146097 days each), the remainder by walking years. -/
def fromRD (n : Nat) : Nat × Nat × Nat :=
  goYear 500 (400 * (n / 146097) + 1) (n % 146097)

/-- Two-digit zero-padded decimal rendering. -/
def pad2 (n : Nat) : List Char :=
  [Char.ofNat (48 + n / 10 % 10), Char.ofNat (48 + n % 10)]

/-- Four-digit zero-padded decimal rendering. -/
def pad4 (n : Nat) : List Char :=
  [Char.ofNat (48 + n / 1000 % 10), Char.ofNat (48 + n / 100 % 10),
   Char.ofNat (48 + n / 10 % 10), Char.ofNat (48 + n % 10)]

/-- ISO rendering of a date, `YYYY-MM-DD`. -/
def renderDate (y m d : Nat) : String :=
  String.mk (pad4 y ++ ['-'] ++ pad2 m ++ ['-'] ++ pad2 d)

/-- ISO rendering of a UTC time-of-day suffix, `THH:MM:SSZ`. -/
def renderTimeZ (secs : Nat) : String :=
  String.mk ('T' :: (pad2 (secs / 3600) ++ ':' :: (pad2 (secs / 60 % 60) ++ ':' :: (pad2 (secs % 60) ++ ['Z']))))

/-- Time of day with an optional UTC offset; `offset = none` is a naive
datetime. -/
structure CivilTime where
  secs : Nat
  offset : Option Int

/-- Parsed ISO-8601 input: a date plus optional time. `time = none` means
a bare date string. -/
structure CivilDT where
  y : Nat
  m : Nat
  d : Nat
  time : Option CivilTime

/-- Parses a `±HH:MM` UTC offset tail, or an empty tail (naive). -/
def parseOffset : List Char → Option (Option Int)
  | [] => some Option.none
  | ['+', h1, h2, ':', m1, m2] =>
    if [h1, h2, m1, m2].all isDigitC then
      let hh := digitsVal [h1, h2]
      let mm := digitsVal [m1, m2]
      if hh < 24 && mm < 60 then some (some ((hh * 3600 + mm * 60 : Nat) : Int))
      else Option.none
    else Option.none
  | ['-', h1, h2, ':', m1, m2] =>
    if [h1, h2, m1, m2].all isDigitC then
      let hh := digitsVal [h1, h2]
      let mm := digitsVal [m1, m2]
      if hh < 24 && mm < 60 then some (some (-((hh * 3600 + mm * 60 : Nat) : Int)))
      else Option.none
    else Option.none
  | _ => Option.none

/-- Parser modelling `datetime.fromisoformat` on the formats this code
feeds it: `YYYY-MM-DD`, optionally followed by `THH:MM:SS` and an
optional `±HH:MM` offset.  Range checks mirror datetime's
(`ValueError` on violation).  Fractional seconds and other extended
formats accepted by Python 3.11+ are not modelled. -/
def parseIsoChars : List Char → Option CivilDT
  | y1 :: y2 :: y3 :: y4 :: '-' :: m1 :: m2 :: '-' :: d1 :: d2 :: rest =>
    if [y1, y2, y3, y4, m1, m2, d1, d2].all isDigitC then
      let y := digitsVal [y1, y2, y3, y4]
      let m := digitsVal [m1, m2]
      let d := digitsVal [d1, d2]
      if 1 ≤ y && 1 ≤ m && m ≤ 12 && 1 ≤ d && d ≤ monthLen (isLeap y) m then
        match rest with
        | [] => some ⟨y, m, d, Option.none⟩
        | 'T' :: h1 :: h2 :: ':' :: i1 :: i2 :: ':' :: s1 :: s2 :: rest2 =>
          if [h1, h2, i1, i2, s1, s2].all isDigitC then
            let hh := digitsVal [h1, h2]
            let mi := digitsVal [i1, i2]
            let ss := digitsVal [s1, s2]
            if hh < 24 && mi < 60 && ss < 60 then
              match parseOffset rest2 with
              | some off => some ⟨y, m, d, some ⟨hh * 3600 + mi * 60 + ss, off⟩⟩
              | Option.none => Option.none
            else Option.none
          else Option.none
        | _ => Option.none
      else Option.none
    else Option.none
  | _ => Option.none

/-- Epoch seconds of a parsed civil datetime; `loc` is the process-local
UTC offset, used for naive values exactly as `datetime.timestamp()`
does.  A bare date is naive midnight. -/
def tsOfCivil (loc : Int) (c : CivilDT) : Int :=
  let base : Int := 86400 * ((toRD c.y c.m c.d : Int) - (epochRD : Int))
  match c.time with
  | Option.none => base - loc
  | some t =>
    match t.offset with
    | Option.none => base + (t.secs : Int) - loc
    | some off => base + (t.secs : Int) - off

/-- Replaces every occurrence of `"Z"` with `"+00:00"`, modelling
`date_str.replace("Z", "+00:00")`. -/
def replaceZchars : List Char → List Char
  | [] => []
  | c :: rest =>
    if c = 'Z' then '+' :: '0' :: '0' :: ':' :: '0' :: '0' :: replaceZchars rest
    else c :: replaceZchars rest

/-- Embedding of `_iso_to_ts` (`tools/logs.py` 298-302): appends
`T00:00:00Z` when the string has no `T`, rewrites `Z` to `+00:00`, parses
and converts to epoch seconds (`int()` of an integral value). -/
def pyIsoToTs (loc : Int) (s : String) : Except PyExc Int :=
  let s2 := if s.data.any (fun c => c == 'T') then s else s ++ "T00:00:00Z"
  let s3 := String.mk (replaceZchars s2.data)
  match parseIsoChars s3.data with
  | some c => .ok (tsOfCivil loc c)
  | Option.none => .error (.valueError ("Invalid isoformat string: '" ++ s3 ++ "'"))

/-- Embedding of the inline `datetime.fromisoformat(timestamp.replace("Z",
"+00:00")).timestamp()` in `create_log` (no `T00:00:00Z` completion: a
bare date parses as a naive local midnight). -/
def pyFromIsoTs (loc : Int) (s : String) : Except PyExc Int :=
  let s3 := String.mk (replaceZchars s.data)
  match parseIsoChars s3.data with
  | some c => .ok (tsOfCivil loc c)
  | Option.none => .error (.valueError ("Invalid isoformat string: '" ++ s3 ++ "'"))

/-- Fractional decimal digits of `r / d` (fuel-bounded; Python float repr
agrees on every terminating value this code produces). -/
def fracChars : Nat → Nat → Nat → List Char
  | 0, _, _ => []
  | fuel + 1, r, d =>
    if r = 0 then []
    else Char.ofNat (48 + r * 10 / d) :: fracChars fuel (r * 10 % d) d

/-- Python `str(float)` / `repr(float)` on the exact rationals this code
manipulates: sign, integer part, `.`, fractional digits (`.0` when
integral). -/
def floatRepr (q : Rat) : String :=
  let sign := if q.num < 0 then "-" else ""
  let n := q.num.natAbs
  let ip := n / q.den
  let r0 := n % q.den
  let frac := if r0 = 0 then "0" else String.mk (fracChars 30 r0 q.den)
  sign ++ natStr ip ++ "." ++ frac

/-- Python `str(x)` on the values `_ts_to_iso` may fall back to
stringifying; container renderings are schematic (never exercised by the
claims). -/
def pyStrOf : PyVal → String
  | .none => "None"
  | .bool b => if b then "True" else "False"
  | .int n => intStr n
  | .float q => floatRepr q
  | .str s => s
  | .list _ => "[...]"
  | .dict _ => "{...}"

/-- Smallest epoch second representable by `datetime` (0001-01-01 UTC). -/
def tsMin : Int := -62135596800

/-- Largest epoch second representable by `datetime` (9999-12-31 23:59:59
UTC). -/
def tsMax : Int := 253402300799

/-- Embedding of `_ts_to_iso` (`tools/logs.py` 27-33): `None` passes
through; `int(ts)` failures (`ValueError`/`TypeError`) fall back to
`str(ts)`; otherwise the UTC civil time is rendered as
`YYYY-MM-DDTHH:MM:SS+00:00`.  Out-of-range epochs are treated as the
caught `ValueError` fallback. -/
def pyTsToIso (ts : PyVal) : PyVal :=
  if isNone ts then .none
  else
    match pyInt ts with
    | .error _ => .str (pyStrOf ts)
    | .ok n =>
      if tsMin ≤ n ∧ n ≤ tsMax then
        let days := n / 86400
        let secs := (n % 86400).toNat
        let rd := (days + (epochRD : Int)).toNat
        let c := fromRD rd
        .str (renderDate c.1 c.2.1 c.2.2 ++ "T" ++ String.mk (pad2 (secs / 3600)) ++ ":" ++
          String.mk (pad2 (secs / 60 % 60)) ++ ":" ++ String.mk (pad2 (secs % 60)) ++ "+00:00")
      else .str (pyStrOf ts)

/-- Epoch seconds of midnight UTC on a civil date. -/
def dateEpoch (y m d : Nat) : Int :=
  86400 * ((toRD y m d : Int) - (epochRD : Int))

/-!
## Transport model for `FarmOSClient._request` (C4)

`farmos_client.py` lines 80-91.  The oracle indexes each HTTP issuance
and each token fetch by its sequence number, so a 401 on the first
attempt and a success on the retry are expressible.  State counts the
issued requests and token fetches and holds the cached bearer token. -/

/-- An HTTP response: status code and JSON-decoded body. -/
structure HttpResp where
  status : Nat
  body : PyVal

/-- Result of one HTTP issuance: a transport-level error or a response. -/
inductive TRes where
  | err (msg : String)
  | resp (r : HttpResp)

/-- Oracle for one logical request retried over time: `resp n` is the
result of the n-th issuance, `tok n` the n-th token-endpoint exchange. -/
structure Transport where
  resp : Nat → TRes
  tok : Nat → Except String String

/-- Client-side state: cached token, issued-request count, token-fetch
count. -/
structure CSt where
  token : Option String
  nreq : Nat
  nfetch : Nat

/-- Models `_fetch_token`: one POST to the token endpoint; stores the
access token or raises (`resp.raise_for_status()` / missing key). -/
def fetchTok (tr : Transport) (st : CSt) : Except PyExc Unit × CSt :=
  match tr.tok st.nfetch with
  | .ok t => (.ok (), { st with token := some t, nfetch := st.nfetch + 1 })
  | .error m => (.error (.runtimeError m), { st with nfetch := st.nfetch + 1 })

/-- Models `_auth_headers`: fetches a token only when none is cached. -/
def authHdrs (tr : Transport) (st : CSt) : Except PyExc Unit × CSt :=
  match st.token with
  | some _ => (.ok (), st)
  | Option.none => fetchTok tr st

/-- One `self._http.request(...)` call. -/
def issueReq (tr : Transport) (st : CSt) : Except PyExc HttpResp × CSt :=
  match tr.resp st.nreq with
  | .err m => (.error (.transportError m), { st with nreq := st.nreq + 1 })
  | .resp r => (.ok r, { st with nreq := st.nreq + 1 })

/-- Models `resp.raise_for_status()`: any non-2xx raises
`httpx.HTTPStatusError` carrying status and body. -/
def raiseForStatus (r : HttpResp) : Except PyExc HttpResp :=
  if 200 ≤ r.status ∧ r.status < 300 then .ok r
  else .error (.httpStatusError r.status r.body)

/-- Embedding of `FarmOSClient._request` (`farmos_client.py` 80-91):
attach auth headers (fetching a token if none cached), issue the request;
on a 401 discard the token, re-authenticate, reissue once; finally
`raise_for_status` on whichever response is current. -/
def clientRequest (tr : Transport) (st : CSt) : Except PyExc HttpResp × CSt :=
  match authHdrs tr st with
  | (.error e, st1) => (.error e, st1)
  | (.ok _, st1) =>
    match issueReq tr st1 with
    | (.error e, st2) => (.error e, st2)
    | (.ok r1, st2) =>
      if r1.status = 401 then
        match authHdrs tr { st2 with token := Option.none } with
        | (.error e, st3) => (.error e, st3)
        | (.ok _, st3) =>
          match issueReq tr st3 with
          | (.error e, st4) => (.error e, st4)
          | (.ok r2, st4) => (raiseForStatus r2, st4)
      else (raiseForStatus r1, st2)

/-!
## Tool-level client model

For the tool-layer claims (C1-C3, C6, C7, C9) the backend is a
deterministic function of the request, and the trace of issued requests
is explicit state.  `clientPost`/`clientPatch` model the duplicate
`headers` keyword in `_request`'s forwarding: Python evaluates
`self._auth_headers()` (possibly fetching a token) and then raises
`TypeError` while binding the call's arguments, before the HTTP request
is issued. -/

/-- One entry in the trace of backend traffic: an API request with its
method, path (relative to `<base>/api/`) and query parameters, or one
token-endpoint exchange. -/
inductive ReqEntry where
  | api (method : String) (path : String) (params : PyDict)
  | token

/-- Deterministic backend oracle for tool runs: `api` answers an API
request, `tok` is the token-endpoint exchange, `now` is the current epoch
second (`datetime.now()`), `localOff` the process-local UTC offset used
by naive `datetime.timestamp()`. -/
structure Backend where
  api : String → String → PyDict → TRes
  tok : Except String String
  now : Int
  localOff : Int

/-- Tool-run state: the cached bearer token and the trace of issued
backend traffic. -/
structure St where
  token : Option String
  trace : List ReqEntry

/-- Tool-layer computation: state-threading with Python exceptions. -/
def ES (α : Type) : Type := St → Except PyExc α × St

/-- Lifts a value. -/
def ES.pure {α : Type} (a : α) : ES α := fun st => (.ok a, st)

/-- Sequencing with exception propagation (state survives the raise, as
side effects before a Python exception do). -/
def ES.bind {α β : Type} (x : ES α) (f : α → ES β) : ES β := fun st =>
  match x st with
  | (.ok a, st') => f a st'
  | (.error e, st') => (.error e, st')

instance : Monad ES where
  pure := ES.pure
  bind := ES.bind

/-- Raises an exception. -/
def throwE {α : Type} (e : PyExc) : ES α := fun st => (.error e, st)

/-- Lifts a pure fallible computation. -/
def liftE {α : Type} (x : Except PyExc α) : ES α := fun st => (x, st)

/-- Models `try: ... except Exception:` — reifies the outcome, keeping
state changes made before the raise. -/
def ES.attempt {α : Type} (x : ES α) : ES (Except PyExc α) := fun st =>
  match x st with
  | (.ok a, st') => (.ok (.ok a), st')
  | (.error e, st') => (.ok (.error e), st')

/-- Models `_auth_headers` at the tool layer: fetch a token when none is
cached (recording the token-endpoint POST in the trace). -/
def authES (be : Backend) : ES Unit := fun st =>
  match st.token with
  | some _ => (.ok (), st)
  | Option.none =>
    match be.tok with
    | .ok t => (.ok (), { token := some t, trace := st.trace ++ [.token] })
    | .error m => (.error (.runtimeError m), { st with trace := st.trace ++ [.token] })

/-- One `self._http.request` issuance at the tool layer, recorded in the
trace. -/
def issueES (be : Backend) (method path : String) (params : PyDict) : ES HttpResp := fun st =>
  let st' := { st with trace := st.trace ++ [ReqEntry.api method path params] }
  match be.api method path params with
  | .err m => (.error (.transportError m), st')
  | .resp r => (.ok r, st')

/-- Clears the cached token (`self._access_token = None`). -/
def clearTok : ES Unit := fun st => (.ok (), { st with token := Option.none })

/-- Embedding of `_request` for GET traffic at the tool layer (the
deterministic oracle answers the retry identically, which is all the
tool-level claims need). -/
def requestES (be : Backend) (method path : String) (params : PyDict) : ES HttpResp := do
  authES be
  let r ← issueES be method path params
  if r.status = 401 then
    clearTok
    authES be
    let r2 ← issueES be method path params
    liftE (raiseForStatus r2)
  else liftE (raiseForStatus r)

/-- Embedding of `FarmOSClient.get`: `_request("GET", url, params=...)`
followed by `.json()`. -/
def clientGet (be : Backend) (path : String) (params : PyDict) : ES PyVal := do
  let r ← requestES be "GET" path params
  ES.pure r.body

/-- Message of the `TypeError` raised when `post`/`patch` forward
`headers` in `**kwargs` while `_request` also passes `headers=` to
`self._http.request`. -/
def dupHeadersMsg : String :=
  "Client.request() got multiple values for keyword argument 'headers'"

/-- Embedding of `FarmOSClient.post` (`farmos_client.py` 97-100): the
call into `self._http.request` evaluates `self._auth_headers()` and then
raises `TypeError` for the duplicated `headers` keyword; no API request
is ever issued. -/
def clientPost (be : Backend) (_path : String) (_payload : PyVal) : ES PyVal := do
  authES be
  throwE (.typeError dupHeadersMsg)

/-- Embedding of `FarmOSClient.patch` (`farmos_client.py` 102-105); same
duplicate-`headers` failure as `post`. -/
def clientPatch (be : Backend) (_path : String) (_payload : PyVal) : ES PyVal := do
  authES be
  throwE (.typeError dupHeadersMsg)

/-- Pure outcome of a GET issued through `_request` against the
deterministic oracle (assuming a token is obtainable): transport errors
raise, a 401 retries once and fails again with 401, any other non-2xx
raises with status and body, 2xx returns the body. -/
def httpOutcome (be : Backend) (method path : String) (params : PyDict) : Except PyExc PyVal :=
  match be.api method path params with
  | .err m => .error (.transportError m)
  | .resp r =>
    if r.status = 401 then .error (.httpStatusError r.status r.body)
    else if 200 ≤ r.status ∧ r.status < 300 then .ok r.body
    else .error (.httpStatusError r.status r.body)

/-- API-trace entries produced by one GET through `_request` (the 401
branch re-authenticates and reissues). -/
def reqEntries (be : Backend) (method path : String) (params : PyDict) : List ReqEntry :=
  match be.api method path params with
  | .err _ => [.api method path params]
  | .resp r =>
    if r.status = 401 then [.api method path params, .token, .api method path params]
    else [.api method path params]

/-- Token-trace prefix of a client call from a given cached-token state. -/
def authTr (t : Option String) : List ReqEntry :=
  match t with
  | some _ => []
  | Option.none => [.token]

/-- Cached token after one GET through `_request`, when the token
endpoint yields `tok` (always present afterwards). -/
def tokAfter (be : Backend) (method path : String) (params : PyDict)
    (t0 : Option String) (tok : String) : String :=
  match be.api method path params with
  | .err _ => t0.getD tok
  | .resp r => if r.status = 401 then tok else t0.getD tok

/-!
## Normalisation helpers shared by the tool modules
-/

/-- Embedding of `_notes_text`: `None` passes through, dicts yield their
`value` entry, anything else is stringified. -/
def notesText (field : PyVal) : PyVal :=
  match field with
  | .none => .none
  | .dict kvs => (kvs.lookup "value").getD .none
  | v => .str (pyStrOf v)

/-- Characters after the first `"--"`, if any. -/
def splitDashAux : List Char → Option (List Char)
  | [] => Option.none
  | '-' :: '-' :: rest => some rest
  | _ :: rest => splitDashAux rest

/-- Python `s.split("--", 1)[-1]`: everything after the first `"--"`, or
the whole string when absent. -/
def splitBundle (s : String) : String :=
  match splitDashAux s.data with
  | some r => String.mk r
  | Option.none => s

/-- `v.split("--", 1)[-1]` on a value that must be a string
(`AttributeError` otherwise). -/
def bundleOf (v : PyVal) : Except PyExc String :=
  match v with
  | .str s => .ok (splitBundle s)
  | _ => .error (.attributeError "object has no attribute 'split'")

/-- `items` expression of `_refs`: a list stays, a truthy non-list is
wrapped, a falsy value gives the empty list. -/
def refsItems (relData : PyVal) : List PyVal :=
  match relData with
  | .list xs => xs
  | v => if truthy v then [v] else []

/-- Comprehension body of `_refs`: keeps dicts with a truthy `id`,
producing `{"id": r["id"], "type": r["type"].split("--", 1)[-1]}`
(`KeyError` on a missing `type`). -/
def refsList : List PyVal → Except PyExc (List PyVal)
  | [] => .ok []
  | r :: rs =>
    match r with
    | .dict kvs =>
      if truthy ((kvs.lookup "id").getD .none) then
        match kvs.lookup "id" with
        | some idv =>
          match kvs.lookup "type" with
          | some tv =>
            match bundleOf tv with
            | .ok b =>
              match refsList rs with
              | .ok rest => .ok (PyVal.dict [("id", idv), ("type", .str b)] :: rest)
              | .error e => .error e
            | .error e => .error e
          | Option.none => .error (.keyError "type")
        | Option.none => .error (.keyError "id")
      else refsList rs
    | _ => refsList rs

/-- Embedding of `_refs` (`tools/logs.py` 44-51, `tools/assets.py`
53-59). -/
def refsOf (relData : PyVal) : Except PyExc (List PyVal) := refsList (refsItems relData)

/-- Replace-or-append assignment `d[k] = v` on an association list. -/
def dictSet (kvs : PyDict) (k : String) (v : PyVal) : PyDict :=
  match kvs with
  | [] => [(k, v)]
  | (k', v') :: rest => if k' = k then (k, v) :: rest else (k', v') :: dictSet rest k v

/-- Item assignment on a `PyVal` that must be a dict. -/
def dictSetVal (v : PyVal) (k : String) (x : PyVal) : Except PyExc PyVal :=
  match v with
  | .dict kvs => .ok (.dict (dictSet kvs k x))
  | _ => .error (.typeError "object does not support item assignment")

/-- One step of `_resolve_names`: when the side-loaded map holds the
ref's id, copy the target's `attributes.name` onto the ref.  Non-string
ids miss the lookup (backend ids are strings). -/
def resolveOne (inc : PyDict) (ref : PyVal) : Except PyExc PyVal :=
  match ref with
  | .dict kvs =>
    let idv := (kvs.lookup "id").getD .none
    let incv :=
      match idv with
      | .str s => (inc.lookup s).getD .none
      | _ => .none
    if truthy incv then
      match pyGetD incv "attributes" (.dict []) with
      | .error e => .error e
      | .ok attrs =>
        match pyGet attrs "name" with
        | .error e => .error e
        | .ok namev => .ok (.dict (dictSet kvs "name" namev))
    else .ok ref
  | _ => .ok ref

/-- Embedding of `_resolve_names` (mutates each ref in order). -/
def resolveNames (refs : List PyVal) (inc : PyDict) : Except PyExc (List PyVal) :=
  match refs with
  | [] => .ok []
  | r :: rs =>
    match resolveOne inc r with
    | .error e => .error e
    | .ok r' =>
      match resolveNames rs inc with
      | .error e => .error e
      | .ok rest => .ok (r' :: rest)

/-- Builds `{r["id"]: r for r in ...}`; later duplicates overwrite
earlier ones.  Non-string ids are skipped (a string-keyed model of the
Python dict). -/
def buildIncList (acc : PyDict) : List PyVal → Except PyExc PyDict
  | [] => .ok acc
  | r :: rs =>
    match pySub r "id" with
    | .error e => .error e
    | .ok idv =>
      match idv with
      | .str s => buildIncList (dictSet acc s r) rs
      | _ => buildIncList acc rs

/-- Embedding of `included = {r["id"]: r for r in result.get("included",
[])}`. -/
def buildIncluded (result : PyVal) : Except PyExc PyDict :=
  match pyGetD result "included" (.list []) with
  | .error e => .error e
  | .ok incs =>
    match pyIter incs with
    | .error e => .error e
    | .ok rs => buildIncList [] rs

/-- Renders an optional rational as a JSON number or null. -/
def qtyValVal (v : Option Rat) : PyVal :=
  match v with
  | some q => .float q
  | Option.none => .none

/-- Strict list map in the exception monad (a Python list comprehension
whose body may raise). -/
def mapExc (f : PyVal → Except PyExc PyVal) : List PyVal → Except PyExc (List PyVal)
  | [] => .ok []
  | x :: xs =>
    match f x with
    | .error e => .error e
    | .ok v =>
      match mapExc f xs with
      | .error e => .error e
      | .ok vs => .ok (v :: vs)

/-- Models `list.extend(generator)` under an enclosing `except` that
swallows the failure: elements produced before the raise stay
appended. -/
def extendUpToErr (f : PyVal → Except PyExc PyVal) : List PyVal → List PyVal
  | [] => []
  | r :: rs =>
    match f r with
    | .ok v => v :: extendUpToErr f rs
    | .error _ => []

/-- Python `min(limit, 100)` on ints. -/
def pyMinI (a b : Int) : Int := if a ≤ b then a else b

/-- Python slice `xs[:n]`, including the negative-index case. -/
def pySliceTo (xs : List PyVal) (n : Int) : List PyVal :=
  if 0 ≤ n then xs.take n.toNat
  else xs.take ((xs.length : Int) + n).toNat

/-- Stable insertion placing `x` after every element `y` with `le y x`. -/
def insertLe {α : Type} (le : α → α → Bool) (x : α) : List α → List α
  | [] => [x]
  | y :: ys => if le y x then y :: insertLe le x ys else x :: y :: ys

/-- Stable sort (insertion sort).  Python's `list.sort` is stable, and a
stable sort under a total preorder is a unique function, so this is the
same function `list.sort(key=...)` computes. -/
def stableSortBy {α : Type} (le : α → α → Bool) (l : List α) : List α :=
  l.foldl (fun acc x => insertLe le x acc) []

/-- Sort key of the merged `get_logs`: `x.get("timestamp") or ""`.  The
normalizer always stores a string or `None` there; other values would
make Python's comparison raise and are modelled as `""`. -/
def logSortKey (v : PyVal) : String :=
  match v with
  | .dict kvs =>
    match (kvs.lookup "timestamp").getD .none with
    | .str s => s
    | _ => ""
  | _ => ""

/-- Sort key of the merged `get_assets`/`get_plans`:
`(x.get("name") or "").lower()`.  `x.get` raises on a non-dict element,
and `.lower()` raises `AttributeError` when `x.get("name") or ""` yields
a truthy non-string name. -/
def assetSortKeyE (x : PyVal) : Except PyExc String :=
  match pyGet x "name" with
  | .error e => .error e
  | .ok v =>
    match (if truthy v then v else .str "") with
    | .str s => .ok (pyLower s)
    | w => .error (.attributeError
        ("'" ++ pyTypeName w ++ "' object has no attribute 'lower'"))

/-- Decoration pass of `list.sort(key=...)`: CPython computes the key of
every element in list order before comparing, and the first raising key
aborts the sort, propagating its exception. -/
def assetKeyed : List PyVal → Except PyExc (List (String × PyVal))
  | [] => .ok []
  | x :: xs =>
    match assetSortKeyE x with
    | .error e => .error e
    | .ok k =>
      match assetKeyed xs with
      | .error e => .error e
      | .ok rest => .ok ((k, x) :: rest)

/-- Comparison of decorated elements by their precomputed string key. -/
def keyLe (p q : String × PyVal) : Bool := decide (p.1 ≤ q.1)

/-- Descending string order used by `sort(key=..., reverse=True)`. -/
def descLe (key : PyVal → String) (a b : PyVal) : Bool := decide (key b ≤ key a)

/-!
## Entity normalizers

One per family, translated from `tools/logs.py`, `tools/assets.py`,
`tools/plans.py`, `tools/terms.py`, `tools/users.py`,
`tools/quantities.py`.  The optional `included` side-loading map is
passed as a `PyDict`; Python's `included or {}` makes `None` and `{}`
behave identically, and the empty list models both. -/

/-- `_refs(rels.get(k, {}).get("data"))`. -/
def relRefs (rels : PyVal) (k : String) : Except PyExc (List PyVal) := do
  let r ← pyGetD rels k (.dict [])
  let d ← pyGet r "data"
  refsOf d

/-- Embedding of `_normalize_quantity` from `tools/logs.py` (80-96):
resolves the unit name through the side-loaded map. -/
def normalizeQuantityL (resource : PyVal) (included : PyDict) : Except PyExc PyVal := do
  let attrs ← pyGetD resource "attributes" (.dict [])
  let rels ← pyGetD resource "relationships" (.dict [])
  let unitRefs ← relRefs rels "units"
  let unitName ←
    match unitRefs with
    | [] => Except.ok PyVal.none
    | u0 :: _ =>
      if included.isEmpty then Except.ok PyVal.none
      else
        let idv := match u0 with | .dict kvs => (kvs.lookup "id").getD .none | _ => PyVal.none
        let incv := match idv with | .str s => (included.lookup s).getD .none | _ => PyVal.none
        if truthy incv then do
          let a ← pyGetD incv "attributes" (.dict [])
          pyGet a "name"
        else Except.ok PyVal.none
  let idv ← pyGet resource "id"
  let measure ← pyGet attrs "measure"
  let rawVal ← pyGet attrs "value"
  let value ← parseQtyValue rawVal
  let label ← pyGet attrs "label"
  let invadj ← pyGet attrs "inventory_adjustment"
  Except.ok (.dict [("id", idv), ("measure", measure), ("value", qtyValVal value),
    ("label", label), ("unit", unitName), ("inventory_adjustment", invadj)])

/-- Quantity sub-list of `_normalize_log`: side-loaded quantities are
normalized, unresolved ones collapse to `{"id": ...}`. -/
def qtyList (inc : PyDict) : List PyVal → Except PyExc (List PyVal)
  | [] => .ok []
  | qref :: rest => do
    let idv := match qref with | .dict kvs => (kvs.lookup "id").getD .none | _ => PyVal.none
    let qinc := match idv with | .str s => (inc.lookup s).getD .none | _ => PyVal.none
    let entry ←
      if truthy qinc then normalizeQuantityL qinc inc
      else Except.ok (.dict [("id", idv)])
    let tail ← qtyList inc rest
    Except.ok (entry :: tail)

/-- Embedding of `_normalize_log` (`tools/logs.py` 99-156). -/
def normalizeLog (resource : PyVal) (included : PyDict) : Except PyExc PyVal := do
  let attrs ← pyGetD resource "attributes" (.dict [])
  let rels ← pyGetD resource "relationships" (.dict [])
  let assets ← relRefs rels "asset"
  let locations ← relRefs rels "location"
  let equipment0 ← relRefs rels "equipment"
  let owners ← relRefs rels "owner"
  let categories ← relRefs rels "category"
  let qtyRefs ← relRefs rels "quantity"
  let resolved ←
    if included.isEmpty then Except.ok (assets, locations, equipment0, owners, categories)
    else do
      let a ← resolveNames assets included
      let l ← resolveNames locations included
      let e ← resolveNames equipment0 included
      let o ← resolveNames owners included
      let c ← resolveNames categories included
      Except.ok (a, l, e, o, c)
  let quantities ← qtyList included qtyRefs
  let idv ← pyGet resource "id"
  let typev ← pyGetD resource "type" (.str "")
  let bundle ← bundleOf typev
  let namev ← pyGet attrs "name"
  let statusv ← pyGet attrs "status"
  let tsv ← pyGet attrs "timestamp"
  let notesv ← pyGet attrs "notes"
  let flagsv ← pyGetD attrs "flags" (.list [])
  let mov ← pyGetD attrs "is_movement" (.bool false)
  let grp ← pyGetD attrs "is_group_assignment" (.bool false)
  let base : PyDict := [("id", idv), ("type", .str bundle), ("name", namev),
    ("status", statusv), ("timestamp", pyTsToIso tsv), ("notes", notesText notesv),
    ("flags", flagsv), ("is_movement", mov), ("is_group_assignment", grp),
    ("assets", .list resolved.1), ("locations", .list resolved.2.1),
    ("equipment", .list resolved.2.2.1), ("owners", .list resolved.2.2.2.1),
    ("categories", .list resolved.2.2.2.2), ("quantities", .list quantities)]
  let lot ← pyGet attrs "lot_number"
  let base := if isNone lot then base else base ++ [("lot_number", lot)]
  let src ← pyGet attrs "source"
  let base := if isNone src then base else base ++ [("source", src)]
  let mth ← pyGet attrs "method"
  let base := if isNone mth then base else base ++ [("method", mth)]
  let pd ← pyGet attrs "purchase_date"
  let base := if isNone pd then base else base ++ [("purchase_date", pyTsToIso pd)]
  let dv ← pyGet attrs "data"
  let base := if isNone dv then base else base ++ [("data", dv)]
  Except.ok (.dict base)

/-- Embedding of `_normalize_asset` (`tools/assets.py` 71-151), including
the per-bundle type-specific fields. -/
def normalizeAsset (resource : PyVal) (included : PyDict) : Except PyExc PyVal := do
  let attrs ← pyGetD resource "attributes" (.dict [])
  let rels ← pyGetD resource "relationships" (.dict [])
  let typev ← pyGetD resource "type" (.str "")
  let assetType ← bundleOf typev
  let parents ← relRefs rels "parent"
  let owners ← relRefs rels "owner"
  let resolved ←
    if included.isEmpty then Except.ok (parents, owners)
    else do
      let p ← resolveNames parents included
      let o ← resolveNames owners included
      Except.ok (p, o)
  let idv ← pyGet resource "id"
  let namev ← pyGet attrs "name"
  let statusv ← pyGet attrs "status"
  let notesv ← pyGet attrs "notes"
  let base : PyDict := [("id", idv), ("type", .str assetType), ("name", namev),
    ("status", statusv), ("notes", notesText notesv),
    ("parents", .list resolved.1), ("owners", .list resolved.2)]
  let inv ← pyGet attrs "inventory"
  let base := if truthy inv then base ++ [("inventory", inv)] else base
  if assetType = "animal" then do
    let sex ← pyGet attrs "sex"
    let base := if isNone sex then base else base ++ [("sex", sex)]
    let nick ← pyGet attrs "nicknames"
    let base := if isNone nick then base else base ++ [("nicknames", nick)]
    let ster ← pyGet attrs "is_sterile"
    let base := if isNone ster then base else base ++ [("is_sterile", ster)]
    let bd ← pyGet attrs "birthdate"
    let base := if isNone bd then base else base ++ [("birthdate", pyTsToIso bd)]
    let atr ← relRefs rels "animal_type"
    let atr ← if included.isEmpty then Except.ok atr else resolveNames atr included
    let base := if atr.isEmpty then base else base ++ [("animal_type", .list atr)]
    Except.ok (.dict base)
  else if assetType = "plant" then do
    let ptr ← relRefs rels "plant_type"
    let str0 ← relRefs rels "season"
    let ptr ← if included.isEmpty then Except.ok ptr else resolveNames ptr included
    let str0 ← if included.isEmpty then Except.ok str0 else resolveNames str0 included
    let base := if ptr.isEmpty then base else base ++ [("plant_type", .list ptr)]
    let base := if str0.isEmpty then base else base ++ [("season", .list str0)]
    Except.ok (.dict base)
  else if assetType = "equipment" then do
    let man ← pyGet attrs "manufacturer"
    let base := if isNone man then base else base ++ [("manufacturer", man)]
    let mdl ← pyGet attrs "model"
    let base := if isNone mdl then base else base ++ [("model", mdl)]
    let ser ← pyGet attrs "serial_number"
    let base := if isNone ser then base else base ++ [("serial_number", ser)]
    let etr ← relRefs rels "equipment_type"
    let etr ← if included.isEmpty then Except.ok etr else resolveNames etr included
    let base := if etr.isEmpty then base else base ++ [("equipment_type", .list etr)]
    Except.ok (.dict base)
  else if assetType = "land" then do
    let lt ← pyGet attrs "land_type"
    let base := if isNone lt then base else base ++ [("land_type", lt)]
    Except.ok (.dict base)
  else if assetType = "structure" then do
    let st0 ← pyGet attrs "structure_type"
    let base := if isNone st0 then base else base ++ [("structure_type", st0)]
    Except.ok (.dict base)
  else if assetType = "material" then do
    let mtr ← relRefs rels "material_type"
    let mtr ← if included.isEmpty then Except.ok mtr else resolveNames mtr included
    let base := if mtr.isEmpty then base else base ++ [("material_type", .list mtr)]
    Except.ok (.dict base)
  else Except.ok (.dict base)

/-- Owner comprehension of `_normalize_plan`: keeps dicts, no truthiness
check on `id` (`r["id"]` raises on a dict without one). -/
def plansOwnersList : List PyVal → Except PyExc (List PyVal)
  | [] => .ok []
  | r :: rs =>
    match r with
    | .dict kvs =>
      match kvs.lookup "id" with
      | some idv =>
        match kvs.lookup "type" with
        | some tv =>
          match bundleOf tv with
          | .ok b =>
            match plansOwnersList rs with
            | .ok rest => .ok (PyVal.dict [("id", idv), ("type", .str b)] :: rest)
            | .error e => .error e
          | .error e => .error e
        | Option.none => .error (.keyError "type")
      | Option.none => .error (.keyError "id")
    | _ => plansOwnersList rs

/-- Embedding of `_normalize_plan` (`tools/plans.py` 12-30). -/
def normalizePlan (resource : PyVal) : Except PyExc PyVal := do
  let attrs ← pyGetD resource "attributes" (.dict [])
  let rels ← pyGetD resource "relationships" (.dict [])
  let relOwner ← pyGetD rels "owner" (.dict [])
  let ownerData ← pyGet relOwner "data"
  let items ← if truthy ownerData then pyIter ownerData else Except.ok []
  let owners ← plansOwnersList items
  let idv ← pyGet resource "id"
  let typev ← pyGetD resource "type" (.str "")
  let bundle ← bundleOf typev
  let namev ← pyGet attrs "name"
  let statusv ← pyGet attrs "status"
  let notesv ← pyGet attrs "notes"
  let notesOut := match notesv with | .dict kvs => (kvs.lookup "value").getD .none | v => v
  let flagsv ← pyGetD attrs "flags" (.list [])
  Except.ok (.dict [("id", idv), ("type", .str bundle), ("name", namev),
    ("status", statusv), ("notes", notesOut), ("flags", flagsv), ("owners", .list owners)])

/-- Embedding of `_normalize_term` (`tools/terms.py` 22-29). -/
def normalizeTerm (resource : PyVal) : Except PyExc PyVal := do
  let attrs ← pyGetD resource "attributes" (.dict [])
  let idv ← pyGet resource "id"
  let typev ← pyGetD resource "type" (.str "")
  let voc ← bundleOf typev
  let namev ← pyGet attrs "name"
  let descv ← pyGet attrs "description"
  let descOut := match descv with | .dict kvs => (kvs.lookup "value").getD .none | v => v
  Except.ok (.dict [("id", idv), ("vocabulary", .str voc), ("name", namev),
    ("description", descOut)])

/-- Embedding of `_normalize_user` (`tools/users.py` 7-13). -/
def normalizeUser (resource : PyVal) : Except PyExc PyVal := do
  let attrs ← pyGetD resource "attributes" (.dict [])
  let idv ← pyGet resource "id"
  let n1 ← pyGet attrs "name"
  let n2 ← pyGet attrs "display_name"
  let namev := if truthy n1 then n1 else n2
  let roles ← pyGetD attrs "roles" (.list [])
  Except.ok (.dict [("id", idv), ("name", namev), ("roles", roles)])

/-- Embedding of `_normalize_quantity` from `tools/quantities.py`
(25-57): single-valued unit/test-method refs and material-type ref
lists. -/
def normalizeQuantityQ (resource : PyVal) : Except PyExc PyVal := do
  let attrs ← pyGetD resource "attributes" (.dict [])
  let rels ← pyGetD resource "relationships" (.dict [])
  let relUnits ← pyGetD rels "units" (.dict [])
  let unitData ← pyGet relUnits "data"
  let unit ←
    match unitData with
    | .dict kvs =>
      if truthy ((kvs.lookup "id").getD .none) then do
        match kvs.lookup "id", kvs.lookup "type" with
        | some idv, some tv => do
          let b ← bundleOf tv
          Except.ok (PyVal.dict [("id", idv), ("type", .str b)])
        | some _, Option.none => Except.error (.keyError "type")
        | Option.none, _ => Except.error (.keyError "id")
      else Except.ok PyVal.none
    | _ => Except.ok PyVal.none
  let idv ← pyGet resource "id"
  let typev ← pyGetD resource "type" (.str "")
  let bundle ← bundleOf typev
  let measure ← pyGet attrs "measure"
  let rawVal ← pyGet attrs "value"
  let value ← parseQtyValue rawVal
  let label ← pyGet attrs "label"
  let invadj ← pyGet attrs "inventory_adjustment"
  let base : PyDict := [("id", idv), ("type", .str bundle), ("measure", measure),
    ("value", qtyValVal value), ("label", label), ("unit", unit),
    ("inventory_adjustment", invadj)]
  let relMat ← pyGetD rels "material_type" (.dict [])
  let matData ← pyGet relMat "data"
  let base ←
    if truthy matData then do
      let items := match matData with | .list xs => xs | v => [v]
      let refs ← refsList items
      Except.ok (if refs.isEmpty then base else base ++ [("material_type", .list refs)])
    else Except.ok base
  let relTm ← pyGetD rels "test_method" (.dict [])
  let tmData ← pyGet relTm "data"
  let base ←
    match tmData with
    | .dict kvs =>
      if truthy ((kvs.lookup "id").getD .none) then
        match kvs.lookup "id", kvs.lookup "type" with
        | some idv2, some tv2 => do
          let b2 ← bundleOf tv2
          Except.ok (base ++ [("test_method", PyVal.dict [("id", idv2), ("type", .str b2)])])
        | some _, Option.none => Except.error (.keyError "type")
        | Option.none, _ => Except.error (.keyError "id")
      else Except.ok base
    | _ => Except.ok base
  Except.ok (.dict base)

/-!
## Read tools

Each Python tool `def` becomes a body (`ES PyVal`, the code inside the
`try`) wrapped by `wrapTool`, which models the uniform
`except Exception as e: return json.dumps({"error": str(e)})` handler.
Tools return the `PyVal` whose `json.dumps` rendering the Python
function returns. -/

/-- Standard log bundle types (`tools/logs.py` 8-20). -/
def LOG_TYPES : List String :=
  ["activity", "harvest", "input", "lab_test", "maintenance", "medical",
   "observation", "purchase", "sale", "seeding", "transplanting"]

/-- Standard asset bundle types (`tools/assets.py` 8-20). -/
def ASSET_TYPES : List String :=
  ["animal", "compost", "equipment", "group", "land", "material", "plant",
   "product", "sensor", "structure", "water"]

/-- Known plan bundle types (`tools/plans.py` 9): farmOS core has none
built in, so the list is empty. -/
def PLAN_TYPES : List String := []

/-- Quantity bundle types (`tools/quantities.py` 6). -/
def QUANTITY_TYPES : List String := ["standard", "material", "test"]

/-- Standard taxonomy vocabularies (`tools/terms.py` 7-19). -/
def VOCABULARIES : List String :=
  ["animal_type", "crop_family", "equipment_type", "lab", "log_category",
   "material_type", "plant_type", "product_type", "season", "test_method", "unit"]

/-- Include string used when fetching a single asset (`tools/assets.py`
23). -/
def ASSET_INCLUDE : String :=
  "parent,owner,animal_type,plant_type,season,equipment_type,material_type"

/-- Progressive include levels for log lookups (`tools/logs.py`
307-312). -/
def LOG_INCLUDE_LEVELS : List String :=
  ["asset,location,equipment,owner,category,quantity,quantity.units",
   "asset,location,owner,category,quantity,quantity.units",
   "asset,location,owner,category,quantity",
   "quantity"]

/-- The uniform tool boundary: a body's exception becomes
`{"error": str(e)}`. -/
def wrapTool (body : ES PyVal) : St → PyVal × St := fun st =>
  match body st with
  | (.ok v, st') => (v, st')
  | (.error e, st') => (.dict [("error", .str (msgOf e))], st')

/-- Embedding of `_build_date_params` (`tools/logs.py` 159-169). -/
def buildDateParams (params : PyDict) (dateFrom dateTo : Option String) : PyDict :=
  let params :=
    match dateFrom with
    | some df =>
      let dt := if df.data.any (fun c => c == 'T') then df else df ++ "T00:00:00Z"
      params ++ [("filter[date_from][condition][path]", .str "timestamp"),
                 ("filter[date_from][condition][value]", .str dt),
                 ("filter[date_from][condition][operator]", .str ">=")]
    | Option.none => params
  match dateTo with
  | some dtc =>
    let dt := if dtc.data.any (fun c => c == 'T') then dtc else dtc ++ "T23:59:59Z"
    params ++ [("filter[date_to][condition][path]", .str "timestamp"),
               ("filter[date_to][condition][value]", .str dt),
               ("filter[date_to][condition][operator]", .str "<=")]
  | Option.none => params

/-- The fetch half of one per-type list attempt: GET, take `data`,
iterate.  Shared body of the merged loops' `try` blocks. -/
def listFetch (be : Backend) (path : String) (params : PyDict) : ES (List PyVal) := do
  let result ← clientGet be path params
  let d ← liftE (pyGetD result "data" (.list []))
  let rs ← liftE (pyIter d)
  ES.pure rs

/-- Simple concatenation of list-valued results in order. -/
def concatMap {α β : Type} (f : α → List β) : List α → List β
  | [] => []
  | x :: xs => f x ++ concatMap f xs

/-- Arguments of `get_logs` with the source's defaults. -/
structure GetLogsArgs where
  log_type : Option String := Option.none
  status : Option String := Option.none
  date_from : Option String := Option.none
  date_to : Option String := Option.none
  asset_id : Option String := Option.none
  limit : Int := 20
  offset : Int := 0

/-- Per-type step of the merged `get_logs` loop: one GET inside `try`,
extending the accumulator with normalized records; any failure skips the
type, keeping records appended before a mid-generator raise. -/
def getLogsMergedLoop (be : Backend) (params : PyDict) : List String → ES (List PyVal)
  | [] => ES.pure []
  | t :: ts => do
    let contrib ← ES.attempt (listFetch be ("log/" ++ t) params)
    let pref :=
      match contrib with
      | .error _ => []
      | .ok rs => extendUpToErr (fun r => normalizeLog r []) rs
    let rest ← getLogsMergedLoop be params ts
    ES.pure (pref ++ rest)

/-- Filter/sort query parameters shared by both `get_logs` modes. -/
def logListParams (a : GetLogsArgs) : PyDict :=
  let params0 : PyDict := [("sort", .str "-timestamp")]
  let params1 := match a.status with
    | some s => params0 ++ [("filter[status]", .str s)]
    | Option.none => params0
  let params2 := match a.asset_id with
    | some i => params1 ++ [("filter[asset.id]", .str i)]
    | Option.none => params1
  buildDateParams params2 a.date_from a.date_to

/-- Body of `get_logs` (`tools/logs.py` 176-234): explicit sub-type
queries one bundle with pagination; otherwise all known bundles are
queried, merged, sorted newest-first and trimmed to `limit`. -/
def getLogsBody (be : Backend) (a : GetLogsArgs) : ES PyVal := do
  let params3 := logListParams a
  match a.log_type with
  | some t => do
    let params := params3 ++ [("page[limit]", .int (pyMinI a.limit 100)),
                              ("page[offset]", .int a.offset)]
    let result ← clientGet be ("log/" ++ t) params
    let d ← liftE (pyGetD result "data" (.list []))
    let rs ← liftE (pyIter d)
    let logs ← liftE (mapExc (fun r => normalizeLog r []) rs)
    let meta ← liftE (pyGetD result "meta" (.dict []))
    let total ← liftE (pyGetD meta "count" (.int logs.length))
    ES.pure (.dict [("total", total), ("returned", .int logs.length), ("logs", .list logs)])
  | Option.none => do
    let params := params3 ++ [("page[limit]", .int (pyMinI a.limit 100))]
    let all0 ← getLogsMergedLoop be params LOG_TYPES
    let sorted := stableSortBy (descLe logSortKey) all0
    let trimmed := pySliceTo sorted a.limit
    ES.pure (.dict [("returned", .int trimmed.length), ("logs", .list trimmed)])

/-- The tool `get_logs`. -/
def get_logs (be : Backend) (a : GetLogsArgs) : St → PyVal × St :=
  wrapTool (getLogsBody be a)

/-- Python `repr` of an optional include string. -/
def reprOptStr : Option String → String
  | some s => "'" ++ s ++ "'"
  | Option.none => "None"

/-- The `str | None` value stored under `_include_used`. -/
def optStrVal : Option String → PyVal
  | some s => .str s
  | Option.none => PyVal.none

/-- One include-level attempt of `get_log`: fetch, then build the
side-loading map when an include string was sent. -/
def getLogAttempt (be : Backend) (id t : String) (incStr : Option String) :
    ES (PyVal × PyDict) := do
  let params : PyDict := match incStr with
    | some s => [("include", .str s)]
    | Option.none => []
  let result ← clientGet be ("log/" ++ t ++ "/" ++ id) params
  let included ← match incStr with
    | some _ => liftE (buildIncluded result)
    | Option.none => ES.pure []
  ES.pure (result, included)

/-- The include fallback of `get_log`: try each level, collecting
per-attempt error strings; stop at the first success. -/
def getLogIncludeLoop (be : Backend) (id t : String) :
    List (Option String) → List String → ES (Option (PyVal × PyDict × Option String) × List String)
  | [], incErrs => ES.pure (Option.none, incErrs)
  | i :: is, incErrs => do
    let r ← ES.attempt (getLogAttempt be id t i)
    match r with
    | .ok (result, included) => ES.pure (some (result, included, i), incErrs)
    | .error e =>
      getLogIncludeLoop be id t is
        (incErrs ++ [t ++ "(include=" ++ reprOptStr i ++ "): " ++ msgOf e])

/-- The sub-type probe loop of `get_log`: first type with truthy data is
normalized (annotated with include warnings when levels were dropped);
exhaustion yields the not-found error with collected details. -/
def getLogTypeLoop (be : Backend) (id : String) : List String → List String → ES PyVal
  | [], errors =>
    ES.pure (.dict [("error", .str ("Log " ++ id ++ " not found")),
                    ("details", .list (errors.map PyVal.str))])
  | t :: ts, errors => do
    let r ← getLogIncludeLoop be id t (LOG_INCLUDE_LEVELS.map some ++ [Option.none]) []
    let errors2 := errors ++ r.2
    match r.1 with
    | Option.none => getLogTypeLoop be id ts errors2
    | some (result, included, incUsed) => do
      let data ← liftE (pyGet result "data")
      if truthy data = false then getLogTypeLoop be id ts errors2
      else do
        let normalized ← liftE (normalizeLog data included)
        if r.2.isEmpty then ES.pure normalized
        else do
          let n1 ← liftE (dictSetVal normalized "_include_warnings"
            (.list (r.2.map PyVal.str)))
          let n2 ← liftE (dictSetVal n1 "_include_used" (optStrVal incUsed))
          ES.pure n2

/-- Body of `get_log` (`tools/logs.py` 237-291). -/
def getLogBody (be : Backend) (id : String) (log_type : Option String) : ES PyVal := do
  let types := match log_type with
    | some t => [t]
    | Option.none => LOG_TYPES
  getLogTypeLoop be id types []

/-- The tool `get_log`. -/
def get_log (be : Backend) (id : String) (log_type : Option String) : St → PyVal × St :=
  wrapTool (getLogBody be id log_type)

/-- Arguments of `get_assets`. -/
structure GetAssetsArgs where
  asset_type : Option String := Option.none
  status : Option String := Option.none
  name : Option String := Option.none
  limit : Int := 20
  offset : Int := 0

/-- Per-type step of the merged `get_assets` loop. -/
def getAssetsMergedLoop (be : Backend) (params : PyDict) : List String → ES (List PyVal)
  | [] => ES.pure []
  | t :: ts => do
    let contrib ← ES.attempt (listFetch be ("asset/" ++ t) params)
    let pref :=
      match contrib with
      | .error _ => []
      | .ok rs => extendUpToErr (fun r => normalizeAsset r []) rs
    let rest ← getAssetsMergedLoop be params ts
    ES.pure (pref ++ rest)

/-- Filter/sort query parameters shared by both `get_assets` modes. -/
def assetListParams (a : GetAssetsArgs) : PyDict :=
  let params0 : PyDict := [("sort", .str "name")]
  let params1 := match a.status with
    | some s => params0 ++ [("filter[status]", .str s)]
    | Option.none => params0
  match a.name with
  | some n => params1 ++ [("filter[name]", .str n)]
  | Option.none => params1

/-- Body of `get_assets` (`tools/assets.py` 158-213). -/
def getAssetsBody (be : Backend) (a : GetAssetsArgs) : ES PyVal := do
  let params2 := assetListParams a
  match a.asset_type with
  | some t => do
    let params := params2 ++ [("page[limit]", .int (pyMinI a.limit 100)),
                              ("page[offset]", .int a.offset)]
    let result ← clientGet be ("asset/" ++ t) params
    let d ← liftE (pyGetD result "data" (.list []))
    let rs ← liftE (pyIter d)
    let assets ← liftE (mapExc (fun r => normalizeAsset r []) rs)
    let meta ← liftE (pyGetD result "meta" (.dict []))
    let total ← liftE (pyGetD meta "count" (.int assets.length))
    ES.pure (.dict [("total", total), ("returned", .int assets.length),
                    ("assets", .list assets)])
  | Option.none => do
    let params := params2 ++ [("page[limit]", .int (pyMinI a.limit 100))]
    let all0 ← getAssetsMergedLoop be params ASSET_TYPES
    let keyed ← liftE (assetKeyed all0)
    let sorted := (stableSortBy keyLe keyed).map Prod.snd
    let trimmed := pySliceTo sorted a.limit
    ES.pure (.dict [("returned", .int trimmed.length), ("assets", .list trimmed)])

/-- The tool `get_assets`. -/
def get_assets (be : Backend) (a : GetAssetsArgs) : St → PyVal × St :=
  wrapTool (getAssetsBody be a)

/-- One attempt of the `get_asset` include fallback. -/
def getAssetAttempt (be : Backend) (id t : String) (useInc : Bool) :
    ES (PyVal × PyDict) := do
  let params : PyDict := if useInc then [("include", .str ASSET_INCLUDE)] else []
  let result ← clientGet be ("asset/" ++ t ++ "/" ++ id) params
  let included ← if useInc then liftE (buildIncluded result) else ES.pure []
  ES.pure (result, included)

/-- The include fallback of `get_asset`: with includes, then without. -/
def getAssetIncludeLoop (be : Backend) (id t : String) :
    List Bool → List String → ES (Option (PyVal × PyDict) × List String)
  | [], errs => ES.pure (Option.none, errs)
  | u :: us, errs => do
    let r ← ES.attempt (getAssetAttempt be id t u)
    match r with
    | .ok pr => ES.pure (some pr, errs)
    | .error e =>
      getAssetIncludeLoop be id t us
        (errs ++ [t ++ (if u then "(+include)" else "") ++ ": " ++ msgOf e])

/-- The sub-type probe loop of `get_asset`. -/
def getAssetTypeLoop (be : Backend) (id : String) : List String → List String → ES PyVal
  | [], errors =>
    ES.pure (.dict [("error", .str ("Asset " ++ id ++ " not found")),
                    ("details", .list (errors.map PyVal.str))])
  | t :: ts, errors => do
    let r ← getAssetIncludeLoop be id t [true, false] []
    let errors2 := errors ++ r.2
    match r.1 with
    | Option.none => getAssetTypeLoop be id ts errors2
    | some (result, included) => do
      let data ← liftE (pyGet result "data")
      if truthy data = false then getAssetTypeLoop be id ts errors2
      else do
        let n ← liftE (normalizeAsset data included)
        ES.pure n

/-- Body of `get_asset` (`tools/assets.py` 216-255). -/
def getAssetBody (be : Backend) (id : String) (asset_type : Option String) : ES PyVal := do
  let types := match asset_type with
    | some t => [t]
    | Option.none => ASSET_TYPES
  getAssetTypeLoop be id types []

/-- The tool `get_asset`. -/
def get_asset (be : Backend) (id : String) (asset_type : Option String) : St → PyVal × St :=
  wrapTool (getAssetBody be id asset_type)

/-- Arguments of `get_plans`. -/
structure GetPlansArgs where
  plan_type : Option String := Option.none
  status : Option String := Option.none
  limit : Int := 20
  offset : Int := 0

/-- Per-type step of the merged `get_plans` loop (dead code while
`PLAN_TYPES` is empty, embedded for fidelity). -/
def getPlansMergedLoop (be : Backend) (params : PyDict) : List String → ES (List PyVal)
  | [] => ES.pure []
  | t :: ts => do
    let contrib ← ES.attempt (listFetch be ("plan/" ++ t) params)
    let pref :=
      match contrib with
      | .error _ => []
      | .ok rs => extendUpToErr normalizePlan rs
    let rest ← getPlansMergedLoop be params ts
    ES.pure (pref ++ rest)

/-- Filter/sort query parameters shared by both `get_plans` modes. -/
def planListParams (a : GetPlansArgs) : PyDict :=
  let params0 : PyDict := [("sort", .str "name")]
  match a.status with
  | some s => params0 ++ [("filter[status]", .str s)]
  | Option.none => params0

/-- Body of `get_plans` (`tools/plans.py` 33-90): with no configured plan
types the merged mode returns an explanatory note. -/
def getPlansBody (be : Backend) (a : GetPlansArgs) : ES PyVal := do
  let params1 := planListParams a
  match a.plan_type with
  | some t => do
    let params := params1 ++ [("page[limit]", .int (pyMinI a.limit 100)),
                              ("page[offset]", .int a.offset)]
    let result ← clientGet be ("plan/" ++ t) params
    let d ← liftE (pyGetD result "data" (.list []))
    let rs ← liftE (pyIter d)
    let plans ← liftE (mapExc normalizePlan rs)
    let meta ← liftE (pyGetD result "meta" (.dict []))
    let total ← liftE (pyGetD meta "count" (.int plans.length))
    ES.pure (.dict [("total", total), ("returned", .int plans.length),
                    ("plans", .list plans)])
  | Option.none =>
    if PLAN_TYPES.isEmpty then
      ES.pure (.dict [("returned", .int 0), ("plans", .list []),
        ("note", .str "No plan types configured. Specify plan_type explicitly if you know the bundle name.")])
    else do
      let params := params1 ++ [("page[limit]", .int (pyMinI a.limit 100))]
      let all0 ← getPlansMergedLoop be params PLAN_TYPES
      let keyed ← liftE (assetKeyed all0)
      let sorted := (stableSortBy keyLe keyed).map Prod.snd
      let trimmed := pySliceTo sorted a.limit
      ES.pure (.dict [("returned", .int trimmed.length), ("plans", .list trimmed)])

/-- The tool `get_plans`. -/
def get_plans (be : Backend) (a : GetPlansArgs) : St → PyVal × St :=
  wrapTool (getPlansBody be a)

/-- The sub-type probe loop of `get_plan`: the whole per-type block
(fetch, data check, normalize) sits in one `try` whose failure skips the
type; no per-type detail is collected. -/
def getPlanTypeLoop (be : Backend) (id : String) : List String → ES PyVal
  | [] => ES.pure (.dict [("error", .str ("Plan " ++ id ++ " not found"))])
  | t :: ts => do
    let r ← ES.attempt (do
      let result ← clientGet be ("plan/" ++ t ++ "/" ++ id) []
      let data ← liftE (pyGet result "data")
      if truthy data then do
        let n ← liftE (normalizePlan data)
        ES.pure (some n)
      else ES.pure Option.none)
    match r with
    | .ok (some n) => ES.pure n
    | .ok Option.none => getPlanTypeLoop be id ts
    | .error _ => getPlanTypeLoop be id ts

/-- Body of `get_plan` (`tools/plans.py` 93-122): with no plan type given
and `PLAN_TYPES` empty, returns the configuration error without issuing
any request. -/
def getPlanBody (be : Backend) (id : String) (plan_type : Option String) : ES PyVal := do
  let types := match plan_type with
    | some t => [t]
    | Option.none => PLAN_TYPES
  if types.isEmpty then
    ES.pure (.dict [("error", .str "plan_type is required when no plan types are configured")])
  else getPlanTypeLoop be id types

/-- The tool `get_plan`. -/
def get_plan (be : Backend) (id : String) (plan_type : Option String) : St → PyVal × St :=
  wrapTool (getPlanBody be id plan_type)

/-- Arguments of `get_terms` (`vocabulary` is required). -/
structure GetTermsArgs where
  vocabulary : String
  name : Option String := Option.none
  limit : Int := 100
  offset : Int := 0

/-- Query parameters of `get_terms`. -/
def termParams (a : GetTermsArgs) : PyDict :=
  let params0 : PyDict := [("sort", .str "name"), ("page[limit]", .int (pyMinI a.limit 100)),
                           ("page[offset]", .int a.offset)]
  match a.name with
  | some n => params0 ++ [("filter[name]", .str n)]
  | Option.none => params0

/-- Body of `get_terms` (`tools/terms.py` 32-79). -/
def getTermsBody (be : Backend) (a : GetTermsArgs) : ES PyVal := do
  let params := termParams a
  let result ← clientGet be ("taxonomy_term/" ++ a.vocabulary) params
  let d ← liftE (pyGetD result "data" (.list []))
  let rs ← liftE (pyIter d)
  let terms ← liftE (mapExc normalizeTerm rs)
  let meta ← liftE (pyGetD result "meta" (.dict []))
  let total ← liftE (pyGetD meta "count" (.int terms.length))
  ES.pure (.dict [("total", total), ("returned", .int terms.length), ("terms", .list terms)])

/-- The tool `get_terms`. -/
def get_terms (be : Backend) (a : GetTermsArgs) : St → PyVal × St :=
  wrapTool (getTermsBody be a)

/-- Arguments of `get_users`. -/
structure GetUsersArgs where
  name : Option String := Option.none
  limit : Int := 50
  offset : Int := 0

/-- Query parameters of `get_users`. -/
def userParams (a : GetUsersArgs) : PyDict :=
  let params0 : PyDict := [("sort", .str "name"), ("page[limit]", .int (pyMinI a.limit 100)),
                           ("page[offset]", .int a.offset)]
  match a.name with
  | some n => params0 ++ [("filter[name]", .str n)]
  | Option.none => params0

/-- Body of `get_users` (`tools/users.py` 16-49). -/
def getUsersBody (be : Backend) (a : GetUsersArgs) : ES PyVal := do
  let params := userParams a
  let result ← clientGet be "user/user" params
  let d ← liftE (pyGetD result "data" (.list []))
  let rs ← liftE (pyIter d)
  let users ← liftE (mapExc normalizeUser rs)
  let meta ← liftE (pyGetD result "meta" (.dict []))
  let total ← liftE (pyGetD meta "count" (.int users.length))
  ES.pure (.dict [("total", total), ("returned", .int users.length), ("users", .list users)])

/-- The tool `get_users`. -/
def get_users (be : Backend) (a : GetUsersArgs) : St → PyVal × St :=
  wrapTool (getUsersBody be a)

/-- Whether a character list contains another as a contiguous run. -/
def startsWithChars : List Char → List Char → Bool
  | _, [] => true
  | [], _ :: _ => false
  | c :: cs, d :: ds => c == d && startsWithChars cs ds

/-- Substring search used by Python's `key in str`. -/
def hasSub : List Char → List Char → Bool
  | [], needle => needle.isEmpty
  | c :: cs, needle => startsWithChars (c :: cs) needle || hasSub cs needle

/-- Python `k in v`: dict keys, list membership of the string, substring
of a string; `TypeError` otherwise. -/
def pyContains (v : PyVal) (k : String) : Except PyExc Bool :=
  match v with
  | .dict kvs => .ok ((kvs.lookup k).isSome)
  | .list xs => .ok (xs.any (fun e => match e with | .str s => s = k | _ => false))
  | .str s => .ok (hasSub s.data k.data)
  | _ => .error (.typeError "argument of type is not iterable")

/-- The key-copy loop of `get_farm_info`. -/
def farmInfoKeys (meta : PyVal) : List String → PyDict → Except PyExc PyDict
  | [], acc => .ok acc
  | k :: ks, acc =>
    match pyContains meta k with
    | .error e => .error e
    | .ok true =>
      match pySub meta k with
      | .error e => .error e
      | .ok v => farmInfoKeys meta ks (acc ++ [(k, v)])
    | .ok false => farmInfoKeys meta ks acc

/-- Body of `get_farm_info` (`tools/farm.py` 6-35). -/
def getFarmInfoBody (be : Backend) : ES PyVal := do
  let result ← clientGet be "" []
  let meta ← liftE (pyGetD result "meta" (.dict []))
  let info ← liftE (farmInfoKeys meta
    ["farm_name", "farmos_version", "system_of_measurement", "user"] [])
  let info := if info.isEmpty then [("raw_meta", meta)] else info
  ES.pure (.dict info)

/-- The tool `get_farm_info`. -/
def get_farm_info (be : Backend) : St → PyVal × St :=
  wrapTool (getFarmInfoBody be)

/-- Arguments of `get_quantities`. -/
structure GetQuantitiesArgs where
  quantity_type : Option String := Option.none
  measure : Option String := Option.none
  limit : Int := 50
  offset : Int := 0

/-- Per-type step of the merged `get_quantities` loop. -/
def getQuantitiesMergedLoop (be : Backend) (params : PyDict) : List String → ES (List PyVal)
  | [] => ES.pure []
  | t :: ts => do
    let contrib ← ES.attempt (listFetch be ("quantity/" ++ t) params)
    let pref :=
      match contrib with
      | .error _ => []
      | .ok rs => extendUpToErr normalizeQuantityQ rs
    let rest ← getQuantitiesMergedLoop be params ts
    ES.pure (pref ++ rest)

/-- Filter query parameters shared by both `get_quantities` modes. -/
def quantityListParams (a : GetQuantitiesArgs) : PyDict :=
  let params0 : PyDict := []
  match a.measure with
  | some m => params0 ++ [("filter[measure]", .str m)]
  | Option.none => params0

/-- Body of `get_quantities` (`tools/quantities.py` 60-111): the merged
mode concatenates per-type successes and trims, with no sort. -/
def getQuantitiesBody (be : Backend) (a : GetQuantitiesArgs) : ES PyVal := do
  let params1 := quantityListParams a
  match a.quantity_type with
  | some t => do
    let params := params1 ++ [("page[limit]", .int (pyMinI a.limit 100)),
                              ("page[offset]", .int a.offset)]
    let result ← clientGet be ("quantity/" ++ t) params
    let d ← liftE (pyGetD result "data" (.list []))
    let rs ← liftE (pyIter d)
    let quantities ← liftE (mapExc normalizeQuantityQ rs)
    let meta ← liftE (pyGetD result "meta" (.dict []))
    let total ← liftE (pyGetD meta "count" (.int quantities.length))
    ES.pure (.dict [("total", total), ("returned", .int quantities.length),
                    ("quantities", .list quantities)])
  | Option.none => do
    let params := params1 ++ [("page[limit]", .int (pyMinI a.limit 100))]
    let all0 ← getQuantitiesMergedLoop be params QUANTITY_TYPES
    let trimmed := pySliceTo all0 a.limit
    ES.pure (.dict [("returned", .int trimmed.length), ("quantities", .list trimmed)])

/-- The tool `get_quantities`. -/
def get_quantities (be : Backend) (a : GetQuantitiesArgs) : St → PyVal × St :=
  wrapTool (getQuantitiesBody be a)

/-!
## Write tools

Registered only when the read-only gate is off (`server.py` 26-39).
Every write ends in `clientPost`/`clientPatch`, whose duplicate `headers`
keyword raises before issuing any request. -/

/-- Embedding of `_normalize_measure` (`tools/logs.py` 349-351). -/
def normalizeMeasure (s : String) : String :=
  String.mk (s.data.map (fun c =>
    let c := Char.toLower c
    if c == ' ' || c == '/' then '_' else c))

/-- `measure.lower()...` on a value that must be a string. -/
def measureNorm (v : PyVal) : Except PyExc String :=
  match v with
  | .str s => .ok (normalizeMeasure s)
  | _ => .error (.attributeError "object has no attribute 'lower'")

/-- Embedding of `_lookup_asset_type` (`tools/logs.py` 331-341): probes
each asset bundle and raises `ValueError` when none matches. -/
def lookupAssetTypeLoop (be : Backend) (aid : String) : List String → ES String
  | [] => throwE (.valueError ("Asset " ++ aid ++ " not found — cannot determine its type"))
  | t :: ts => do
    let r ← ES.attempt (do
      let result ← clientGet be ("asset/" ++ t ++ "/" ++ aid) []
      let d ← liftE (pyGet result "data")
      ES.pure (truthy d))
    match r with
    | .ok true => ES.pure t
    | _ => lookupAssetTypeLoop be aid ts

/-- `_lookup_asset_type` over the full bundle list. -/
def lookupAssetType (be : Backend) (aid : String) : ES String :=
  lookupAssetTypeLoop be aid ASSET_TYPES

/-- Embedding of `_build_asset_rels` (`tools/logs.py` 344-346). -/
def buildAssetRels (be : Backend) : List String → ES (List PyVal)
  | [] => ES.pure []
  | aid :: rest => do
    let t ← lookupAssetType be aid
    let tail ← buildAssetRels be rest
    ES.pure (PyVal.dict [("type", .str ("asset--" ++ t)), ("id", .str aid)] :: tail)

/-- Embedding of `_create_quantity` (`tools/logs.py` 354-395): builds the
quantity payload (value as `{"decimal": str(float(v))}`), POSTs it, and
falls back to one GET when the response omits the revision id.  Returns
`(uuid, revision_id)`. -/
def createQuantityFn (be : Backend) (qty : PyVal) : ES (PyVal × PyVal) := do
  let qtyType ← liftE (pyGetD qty "type" (.str "standard"))
  let measureRaw ← liftE (pySub qty "measure")
  let measure ← liftE (measureNorm measureRaw)
  let attrs0 : PyDict := [("measure", .str measure)]
  let vOpt ← liftE (pyGet qty "value")
  let attrs1 ←
    if isNone vOpt then ES.pure attrs0
    else do
      let q ← liftE (pyFloat vOpt)
      ES.pure (attrs0 ++ [("value", PyVal.dict [("decimal", .str (floatRepr q))])])
  let lab ← liftE (pyGet qty "label")
  let attrs2 := if truthy lab then attrs1 ++ [("label", lab)] else attrs1
  let invadj ← liftE (pyGet qty "inventory_adjustment")
  let attrs3 := if truthy invadj then attrs2 ++ [("inventory_adjustment", invadj)] else attrs2
  let uu ← liftE (pyGet qty "units_uuid")
  let payload0 : PyDict := [("type", .str ("quantity--" ++ pyStrOf qtyType)),
                            ("attributes", .dict attrs3)]
  let payload ←
    if truthy uu then do
      let uid ← liftE (pySub qty "units_uuid")
      ES.pure (payload0 ++ [("relationships", PyVal.dict [("units",
        PyVal.dict [("data", PyVal.dict [("type", .str "taxonomy_term--unit"), ("id", uid)])])])])
    else ES.pure payload0
  let result ← clientPost be ("quantity/" ++ pyStrOf qtyType) (.dict payload)
  let data ← liftE (pyGetD result "data" (.dict []))
  let uuid ← liftE (pyGet data "id")
  let meta ← liftE (pyGetD data "meta" (.dict []))
  let rev ← liftE (pyGet meta "drupal_internal__revision_id")
  if isNone rev && truthy uuid then do
    let fr ← ES.attempt (do
      let fetched ← clientGet be ("quantity/" ++ pyStrOf qtyType ++ "/" ++ pyStrOf uuid) []
      let fd ← liftE (pyGetD fetched "data" (.dict []))
      let fm ← liftE (pyGetD fd "meta" (.dict []))
      liftE (pyGet fm "drupal_internal__revision_id"))
    match fr with
    | .ok rev2 => ES.pure (uuid, rev2)
    | .error _ => ES.pure (uuid, rev)
  else ES.pure (uuid, rev)

/-- Embedding of `_build_qty_rels` (`tools/logs.py` 398-407). -/
def buildQtyRels (be : Backend) : List PyVal → ES (List PyVal)
  | [] => ES.pure []
  | qty :: rest => do
    let r ← createQuantityFn be qty
    let tbase ← liftE (pyGetD qty "type" (.str "standard"))
    let entry0 : PyDict := [("type", .str ("quantity--" ++ pyStrOf tbase)), ("id", r.1)]
    let entry := if isNone r.2 then entry0
      else entry0 ++ [("meta", PyVal.dict [("target_revision_id", r.2)])]
    let tail ← buildQtyRels be rest
    ES.pure (PyVal.dict entry :: tail)

/-- Embedding of `_fetch_log` (`tools/logs.py` 318-328): include-level
fallback GET of a freshly written log; the bare attempt re-raises. -/
def fetchLogLoop (be : Backend) (lt id : String) : List (Option String) → ES PyVal
  | [] => throwE (.runtimeError "fetch_log include levels exhausted")
  | i :: is => do
    let r ← ES.attempt (do
      let params : PyDict := match i with
        | some s => [("include", .str s)]
        | Option.none => []
      let result ← clientGet be ("log/" ++ lt ++ "/" ++ id) params
      let included ← match i with
        | some _ => liftE (buildIncluded result)
        | Option.none => ES.pure []
      let d ← liftE (pyGetD result "data" (.dict []))
      let n ← liftE (normalizeLog d included)
      ES.pure n)
    match r with
    | .ok n => ES.pure n
    | .error e =>
      match i with
      | Option.none => throwE e
      | some _ => fetchLogLoop be lt id is

/-- `_fetch_log` over the include levels. -/
def fetchLogFn (be : Backend) (lt id : String) : ES PyVal :=
  fetchLogLoop be lt id (LOG_INCLUDE_LEVELS.map some ++ [Option.none])

/-- Arguments of `create_log`. -/
structure CreateLogArgs where
  log_type : String
  name : String
  status : String := "pending"
  notes : Option String := Option.none
  timestamp : Option String := Option.none
  asset_ids : Option (List String) := Option.none
  location_ids : Option (List String) := Option.none
  owner_ids : Option (List String) := Option.none
  category_ids : Option (List String) := Option.none
  equipment_ids : Option (List String) := Option.none
  flags : Option (List String) := Option.none
  is_movement : Option Bool := Option.none
  is_group_assignment : Option Bool := Option.none
  quantities : Option (List PyVal) := Option.none
  data : Option String := Option.none
  lot_number : Option String := Option.none
  purchase_date : Option String := Option.none
  source : Option String := Option.none
  method : Option String := Option.none

/-- A truthy optional list (`if xs:` in Python): `[]` and `None` both
fail the test. -/
def truthyList {α : Type} (o : Option (List α)) : Option (List α) :=
  match o with
  | some l => if l.isEmpty then Option.none else some l
  | Option.none => Option.none

/-- Body of `create_log` (`tools/logs.py` 410-524). -/
def createLogBody (be : Backend) (a : CreateLogArgs) : ES PyVal := do
  let ts ← match a.timestamp with
    | some s => liftE (pyFromIsoTs be.localOff s)
    | Option.none => ES.pure be.now
  let attrs0 : PyDict := [("name", .str a.name), ("status", .str a.status),
                          ("timestamp", .int ts)]
  let attrs1 := match a.notes with
    | some n => attrs0 ++ [("notes", PyVal.dict [("value", .str n), ("format", .str "default")])]
    | Option.none => attrs0
  let attrs2 := match a.flags with
    | some fs => attrs1 ++ [("flags", PyVal.list (fs.map PyVal.str))]
    | Option.none => attrs1
  let attrs3 := match a.is_movement with
    | some b => attrs2 ++ [("is_movement", .bool b)]
    | Option.none => attrs2
  let attrs4 := match a.is_group_assignment with
    | some b => attrs3 ++ [("is_group_assignment", .bool b)]
    | Option.none => attrs3
  let attrs5 := match a.data with
    | some s => attrs4 ++ [("data", .str s)]
    | Option.none => attrs4
  let attrs6 := match a.lot_number with
    | some s => attrs5 ++ [("lot_number", .str s)]
    | Option.none => attrs5
  let attrs7 ← match a.purchase_date with
    | some s => do
      let pd ← liftE (pyIsoToTs be.localOff s)
      ES.pure (attrs6 ++ [("purchase_date", PyVal.int pd)])
    | Option.none => ES.pure attrs6
  let attrs8 := match a.source with
    | some s => attrs7 ++ [("source", .str s)]
    | Option.none => attrs7
  let attrs9 := match a.method with
    | some s => attrs8 ++ [("method", .str s)]
    | Option.none => attrs8
  let rels0 : PyDict := []
  let rels1 ← match truthyList a.asset_ids with
    | some ids => do
      let r ← buildAssetRels be ids
      ES.pure (rels0 ++ [("asset", PyVal.dict [("data", .list r)])])
    | Option.none => ES.pure rels0
  let rels2 ← match truthyList a.location_ids with
    | some ids => do
      let r ← buildAssetRels be ids
      ES.pure (rels1 ++ [("location", PyVal.dict [("data", .list r)])])
    | Option.none => ES.pure rels1
  let rels3 := match truthyList a.equipment_ids with
    | some ids => rels2 ++ [("equipment", PyVal.dict [("data", .list (ids.map (fun e =>
        PyVal.dict [("type", .str "asset--equipment"), ("id", .str e)])))])]
    | Option.none => rels2
  let rels4 := match truthyList a.owner_ids with
    | some ids => rels3 ++ [("owner", PyVal.dict [("data", .list (ids.map (fun u =>
        PyVal.dict [("type", .str "user--user"), ("id", .str u)])))])]
    | Option.none => rels3
  let rels5 := match truthyList a.category_ids with
    | some ids => rels4 ++ [("category", PyVal.dict [("data", .list (ids.map (fun c =>
        PyVal.dict [("type", .str "taxonomy_term--log_category"), ("id", .str c)])))])]
    | Option.none => rels4
  let rels6 ← match truthyList a.quantities with
    | some qs => do
      let r ← buildQtyRels be qs
      ES.pure (rels5 ++ [("quantity", PyVal.dict [("data", .list r)])])
    | Option.none => ES.pure rels5
  let payload0 : PyDict := [("type", .str ("log--" ++ a.log_type)), ("attributes", .dict attrs9)]
  let payload := if rels6.isEmpty then payload0 else payload0 ++ [("relationships", .dict rels6)]
  let result ← clientPost be ("log/" ++ a.log_type) (.dict payload)
  let data ← liftE (pyGetD result "data" (.dict []))
  let logId ← liftE (pyGet data "id")
  if truthy logId then fetchLogFn be a.log_type (pyStrOf logId)
  else do
    let n ← liftE (normalizeLog data [])
    ES.pure n

/-- The tool `create_log`. -/
def create_log (be : Backend) (a : CreateLogArgs) : St → PyVal × St :=
  wrapTool (createLogBody be a)

/-- Arguments of `update_log`. -/
structure UpdateLogArgs where
  id : String
  log_type : String
  name : Option String := Option.none
  status : Option String := Option.none
  notes : Option String := Option.none
  timestamp : Option String := Option.none
  asset_ids : Option (List String) := Option.none
  location_ids : Option (List String) := Option.none
  owner_ids : Option (List String) := Option.none
  category_ids : Option (List String) := Option.none
  equipment_ids : Option (List String) := Option.none
  flags : Option (List String) := Option.none
  is_movement : Option Bool := Option.none
  is_group_assignment : Option Bool := Option.none
  quantities : Option (List PyVal) := Option.none
  data : Option String := Option.none
  lot_number : Option String := Option.none
  purchase_date : Option String := Option.none
  source : Option String := Option.none
  method : Option String := Option.none

/-- Body of `update_log` (`tools/logs.py` 527-632): partial-patch
semantics (`is not None` conditionals, `[]` clears a relationship). -/
def updateLogBody (be : Backend) (a : UpdateLogArgs) : ES PyVal := do
  let attrs0 : PyDict := []
  let attrs1 := match a.name with
    | some s => attrs0 ++ [("name", .str s)]
    | Option.none => attrs0
  let attrs2 := match a.status with
    | some s => attrs1 ++ [("status", .str s)]
    | Option.none => attrs1
  let attrs3 := match a.notes with
    | some n => attrs2 ++ [("notes", PyVal.dict [("value", .str n), ("format", .str "default")])]
    | Option.none => attrs2
  let attrs4 ← match a.timestamp with
    | some s => do
      let ts ← liftE (pyIsoToTs be.localOff s)
      ES.pure (attrs3 ++ [("timestamp", PyVal.int ts)])
    | Option.none => ES.pure attrs3
  let attrs5 := match a.flags with
    | some fs => attrs4 ++ [("flags", PyVal.list (fs.map PyVal.str))]
    | Option.none => attrs4
  let attrs6 := match a.is_movement with
    | some b => attrs5 ++ [("is_movement", .bool b)]
    | Option.none => attrs5
  let attrs7 := match a.is_group_assignment with
    | some b => attrs6 ++ [("is_group_assignment", .bool b)]
    | Option.none => attrs6
  let attrs8 := match a.data with
    | some s => attrs7 ++ [("data", .str s)]
    | Option.none => attrs7
  let attrs9 := match a.lot_number with
    | some s => attrs8 ++ [("lot_number", .str s)]
    | Option.none => attrs8
  let attrs10 ← match a.purchase_date with
    | some s => do
      let pd ← liftE (pyIsoToTs be.localOff s)
      ES.pure (attrs9 ++ [("purchase_date", PyVal.int pd)])
    | Option.none => ES.pure attrs9
  let attrs11 := match a.source with
    | some s => attrs10 ++ [("source", .str s)]
    | Option.none => attrs10
  let attrs12 := match a.method with
    | some s => attrs11 ++ [("method", .str s)]
    | Option.none => attrs11
  let rels0 : PyDict := []
  let rels1 ← match a.asset_ids with
    | some ids => do
      let r ← buildAssetRels be ids
      ES.pure (rels0 ++ [("asset", PyVal.dict [("data", .list r)])])
    | Option.none => ES.pure rels0
  let rels2 ← match a.location_ids with
    | some ids => do
      let r ← buildAssetRels be ids
      ES.pure (rels1 ++ [("location", PyVal.dict [("data", .list r)])])
    | Option.none => ES.pure rels1
  let rels3 := match a.equipment_ids with
    | some ids => rels2 ++ [("equipment", PyVal.dict [("data", .list (ids.map (fun e =>
        PyVal.dict [("type", .str "asset--equipment"), ("id", .str e)])))])]
    | Option.none => rels2
  let rels4 := match a.owner_ids with
    | some ids => rels3 ++ [("owner", PyVal.dict [("data", .list (ids.map (fun u =>
        PyVal.dict [("type", .str "user--user"), ("id", .str u)])))])]
    | Option.none => rels3
  let rels5 := match a.category_ids with
    | some ids => rels4 ++ [("category", PyVal.dict [("data", .list (ids.map (fun c =>
        PyVal.dict [("type", .str "taxonomy_term--log_category"), ("id", .str c)])))])]
    | Option.none => rels4
  let rels6 ← match a.quantities with
    | some qs => do
      let r ← buildQtyRels be qs
      ES.pure (rels5 ++ [("quantity", PyVal.dict [("data", .list r)])])
    | Option.none => ES.pure rels5
  let payload0 : PyDict := [("type", .str ("log--" ++ a.log_type)), ("id", .str a.id),
                            ("attributes", .dict attrs12)]
  let payload := if rels6.isEmpty then payload0 else payload0 ++ [("relationships", .dict rels6)]
  let _ ← clientPatch be ("log/" ++ a.log_type ++ "/" ++ a.id) (.dict payload)
  fetchLogFn be a.log_type a.id

/-- The tool `update_log`. -/
def update_log (be : Backend) (a : UpdateLogArgs) : St → PyVal × St :=
  wrapTool (updateLogBody be a)

/-- Embedding of `_resolve_parent_rels` (`tools/assets.py` 262-273): for
each parent id, probe bundles until one holds it; unresolvable ids are
silently dropped. -/
def resolveParentOne (be : Backend) (pid : String) : List String → ES (Option PyVal)
  | [] => ES.pure Option.none
  | t :: ts => do
    let r ← ES.attempt (do
      let result ← clientGet be ("asset/" ++ t ++ "/" ++ pid) []
      let d ← liftE (pyGet result "data")
      ES.pure (truthy d))
    match r with
    | .ok true => ES.pure (some (.dict [("type", .str ("asset--" ++ t)), ("id", .str pid)]))
    | _ => resolveParentOne be pid ts

/-- `_resolve_parent_rels` over a parent-id list. -/
def resolveParentRels (be : Backend) : List String → ES (List PyVal)
  | [] => ES.pure []
  | pid :: rest => do
    let r ← resolveParentOne be pid ASSET_TYPES
    let tail ← resolveParentRels be rest
    ES.pure (match r with
      | some e => e :: tail
      | Option.none => tail)

/-- Arguments of `create_asset`. -/
structure CreateAssetArgs where
  asset_type : String
  name : String
  status : String := "active"
  notes : Option String := Option.none
  parent_ids : Option (List String) := Option.none
  sex : Option String := Option.none
  birthdate : Option String := Option.none
  is_sterile : Option Bool := Option.none
  animal_type_id : Option String := Option.none
  plant_type_ids : Option (List String) := Option.none
  season_ids : Option (List String) := Option.none
  manufacturer : Option String := Option.none
  model : Option String := Option.none
  serial_number : Option String := Option.none
  equipment_type_id : Option String := Option.none
  land_type : Option String := Option.none
  structure_type : Option String := Option.none
  material_type_ids : Option (List String) := Option.none

/-- Attribute dict shared by `create_asset`/`update_asset` conditionals
(the source repeats the same `is not None` ladder). -/
def assetAttrsTail (a : CreateAssetArgs) (be : Backend) (attrs : PyDict) :
    Except PyExc PyDict := do
  let attrs := match a.notes with
    | some n => attrs ++ [("notes", PyVal.dict [("value", .str n), ("format", .str "default")])]
    | Option.none => attrs
  let attrs := match a.sex with
    | some s => attrs ++ [("sex", .str s)]
    | Option.none => attrs
  let attrs ← match a.birthdate with
    | some s => do
      let bd ← pyIsoToTs be.localOff s
      Except.ok (attrs ++ [("birthdate", PyVal.int bd)])
    | Option.none => Except.ok attrs
  let attrs := match a.is_sterile with
    | some b => attrs ++ [("is_sterile", .bool b)]
    | Option.none => attrs
  let attrs := match a.manufacturer with
    | some s => attrs ++ [("manufacturer", .str s)]
    | Option.none => attrs
  let attrs := match a.model with
    | some s => attrs ++ [("model", .str s)]
    | Option.none => attrs
  let attrs := match a.serial_number with
    | some s => attrs ++ [("serial_number", .str s)]
    | Option.none => attrs
  let attrs := match a.land_type with
    | some s => attrs ++ [("land_type", .str s)]
    | Option.none => attrs
  let attrs := match a.structure_type with
    | some s => attrs ++ [("structure_type", .str s)]
    | Option.none => attrs
  Except.ok attrs

/-- Relationship dict shared by `create_asset`/`update_asset` for the
taxonomy-term references. -/
def assetTermRels (a : CreateAssetArgs) (rels : PyDict) : PyDict :=
  let rels := match a.animal_type_id with
    | some i => rels ++ [("animal_type", PyVal.dict [("data",
        PyVal.dict [("type", .str "taxonomy_term--animal_type"), ("id", .str i)])])]
    | Option.none => rels
  let rels := match a.plant_type_ids with
    | some ids => rels ++ [("plant_type", PyVal.dict [("data", .list (ids.map (fun i =>
        PyVal.dict [("type", .str "taxonomy_term--plant_type"), ("id", .str i)])))])]
    | Option.none => rels
  let rels := match a.season_ids with
    | some ids => rels ++ [("season", PyVal.dict [("data", .list (ids.map (fun i =>
        PyVal.dict [("type", .str "taxonomy_term--season"), ("id", .str i)])))])]
    | Option.none => rels
  let rels := match a.equipment_type_id with
    | some i => rels ++ [("equipment_type", PyVal.dict [("data",
        PyVal.dict [("type", .str "taxonomy_term--equipment_type"), ("id", .str i)])])]
    | Option.none => rels
  match a.material_type_ids with
  | some ids => rels ++ [("material_type", PyVal.dict [("data", .list (ids.map (fun i =>
      PyVal.dict [("type", .str "taxonomy_term--material_type"), ("id", .str i)])))])]
  | Option.none => rels

/-- Body of `create_asset` (`tools/assets.py` 276-379). -/
def createAssetBody (be : Backend) (a : CreateAssetArgs) : ES PyVal := do
  let attrs0 : PyDict := [("name", .str a.name), ("status", .str a.status)]
  let attrs ← liftE (assetAttrsTail a be attrs0)
  let rels0 : PyDict := []
  let rels1 ← match truthyList a.parent_ids with
    | some ids => do
      let pr ← resolveParentRels be ids
      ES.pure (if pr.isEmpty then rels0 else rels0 ++ [("parent", PyVal.dict [("data", .list pr)])])
    | Option.none => ES.pure rels0
  let rels := assetTermRels a rels1
  let payload0 : PyDict := [("type", .str ("asset--" ++ a.asset_type)),
                            ("attributes", .dict attrs)]
  let payload := if rels.isEmpty then payload0 else payload0 ++ [("relationships", .dict rels)]
  let result ← clientPost be ("asset/" ++ a.asset_type) (.dict payload)
  let data ← liftE (pyGetD result "data" (.dict []))
  let n ← liftE (normalizeAsset data [])
  ES.pure n

/-- The tool `create_asset`. -/
def create_asset (be : Backend) (a : CreateAssetArgs) : St → PyVal × St :=
  wrapTool (createAssetBody be a)

/-- Arguments of `update_asset` (the shared optional fields reuse
`CreateAssetArgs`; `name`/`status` become optional). -/
structure UpdateAssetArgs where
  id : String
  asset_type : String
  name : Option String := Option.none
  status : Option String := Option.none
  shared : CreateAssetArgs

/-- Body of `update_asset` (`tools/assets.py` 382-485): `parent_ids` set
and non-`None` replaces the parent list (possibly with `[]`). -/
def updateAssetBody (be : Backend) (a : UpdateAssetArgs) : ES PyVal := do
  let attrs0 : PyDict := []
  let attrs1 := match a.name with
    | some s => attrs0 ++ [("name", .str s)]
    | Option.none => attrs0
  let attrs2 := match a.status with
    | some s => attrs1 ++ [("status", .str s)]
    | Option.none => attrs1
  let attrs ← liftE (assetAttrsTail a.shared be attrs2)
  let rels0 : PyDict := []
  let rels1 ← match a.shared.parent_ids with
    | some ids => do
      let pr ← resolveParentRels be ids
      ES.pure (rels0 ++ [("parent", PyVal.dict [("data", .list pr)])])
    | Option.none => ES.pure rels0
  let rels := assetTermRels a.shared rels1
  let payload0 : PyDict := [("type", .str ("asset--" ++ a.asset_type)), ("id", .str a.id),
                            ("attributes", .dict attrs)]
  let payload := if rels.isEmpty then payload0 else payload0 ++ [("relationships", .dict rels)]
  let result ← clientPatch be ("asset/" ++ a.asset_type ++ "/" ++ a.id) (.dict payload)
  let data ← liftE (pyGetD result "data" (.dict []))
  let n ← liftE (normalizeAsset data [])
  ES.pure n

/-- The tool `update_asset`. -/
def update_asset (be : Backend) (a : UpdateAssetArgs) : St → PyVal × St :=
  wrapTool (updateAssetBody be a)

/-- Arguments of `create_term`. -/
structure CreateTermArgs where
  vocabulary : String
  name : String
  description : Option String := Option.none

/-- Body of `create_term` (`tools/terms.py` 86-118). -/
def createTermBody (be : Backend) (a : CreateTermArgs) : ES PyVal := do
  let attrs0 : PyDict := [("name", .str a.name)]
  let attrs := match a.description with
    | some s => attrs0 ++ [("description", PyVal.dict [("value", .str s), ("format", .str "default")])]
    | Option.none => attrs0
  let payload : PyDict := [("type", .str ("taxonomy_term--" ++ a.vocabulary)),
                           ("attributes", .dict attrs)]
  let result ← clientPost be ("taxonomy_term/" ++ a.vocabulary) (.dict payload)
  let data ← liftE (pyGetD result "data" (.dict []))
  let n ← liftE (normalizeTerm data)
  ES.pure n

/-- The tool `create_term`. -/
def create_term (be : Backend) (a : CreateTermArgs) : St → PyVal × St :=
  wrapTool (createTermBody be a)

/-- Arguments of `update_term`. -/
structure UpdateTermArgs where
  id : String
  vocabulary : String
  name : Option String := Option.none
  description : Option String := Option.none

/-- Body of `update_term` (`tools/terms.py` 121-154). -/
def updateTermBody (be : Backend) (a : UpdateTermArgs) : ES PyVal := do
  let attrs0 : PyDict := []
  let attrs1 := match a.name with
    | some s => attrs0 ++ [("name", .str s)]
    | Option.none => attrs0
  let attrs := match a.description with
    | some s => attrs1 ++ [("description", PyVal.dict [("value", .str s), ("format", .str "default")])]
    | Option.none => attrs1
  let payload : PyDict := [("type", .str ("taxonomy_term--" ++ a.vocabulary)),
                           ("id", .str a.id), ("attributes", .dict attrs)]
  let result ← clientPatch be ("taxonomy_term/" ++ a.vocabulary ++ "/" ++ a.id) (.dict payload)
  let data ← liftE (pyGetD result "data" (.dict []))
  let n ← liftE (normalizeTerm data)
  ES.pure n

/-- The tool `update_term`. -/
def update_term (be : Backend) (a : UpdateTermArgs) : St → PyVal × St :=
  wrapTool (updateTermBody be a)

/-- Arguments of `create_plan`. -/
structure CreatePlanArgs where
  plan_type : String
  name : String
  status : String := "planning"
  notes : Option String := Option.none
  owner_ids : Option (List String) := Option.none
  flags : Option (List String) := Option.none

/-- Body of `create_plan` (`tools/plans.py` 129-176). -/
def createPlanBody (be : Backend) (a : CreatePlanArgs) : ES PyVal := do
  let attrs0 : PyDict := [("name", .str a.name), ("status", .str a.status)]
  let attrs1 := match a.notes with
    | some n => attrs0 ++ [("notes", PyVal.dict [("value", .str n), ("format", .str "default")])]
    | Option.none => attrs0
  let attrs := match a.flags with
    | some fs => attrs1 ++ [("flags", PyVal.list (fs.map PyVal.str))]
    | Option.none => attrs1
  let payload0 : PyDict := [("type", .str ("plan--" ++ a.plan_type)), ("attributes", .dict attrs)]
  let payload := match truthyList a.owner_ids with
    | some ids => payload0 ++ [("relationships", PyVal.dict [("owner",
        PyVal.dict [("data", .list (ids.map (fun u =>
          PyVal.dict [("type", .str "user--user"), ("id", .str u)])))])])]
    | Option.none => payload0
  let result ← clientPost be ("plan/" ++ a.plan_type) (.dict payload)
  let data ← liftE (pyGetD result "data" (.dict []))
  let n ← liftE (normalizePlan data)
  ES.pure n

/-- The tool `create_plan`. -/
def create_plan (be : Backend) (a : CreatePlanArgs) : St → PyVal × St :=
  wrapTool (createPlanBody be a)

/-- Arguments of `update_plan`. -/
structure UpdatePlanArgs where
  id : String
  plan_type : String
  name : Option String := Option.none
  status : Option String := Option.none
  notes : Option String := Option.none
  owner_ids : Option (List String) := Option.none
  flags : Option (List String) := Option.none

/-- Body of `update_plan` (`tools/plans.py` 179-227). -/
def updatePlanBody (be : Backend) (a : UpdatePlanArgs) : ES PyVal := do
  let attrs0 : PyDict := []
  let attrs1 := match a.name with
    | some s => attrs0 ++ [("name", .str s)]
    | Option.none => attrs0
  let attrs2 := match a.status with
    | some s => attrs1 ++ [("status", .str s)]
    | Option.none => attrs1
  let attrs3 := match a.notes with
    | some n => attrs2 ++ [("notes", PyVal.dict [("value", .str n), ("format", .str "default")])]
    | Option.none => attrs2
  let attrs := match a.flags with
    | some fs => attrs3 ++ [("flags", PyVal.list (fs.map PyVal.str))]
    | Option.none => attrs3
  let payload0 : PyDict := [("type", .str ("plan--" ++ a.plan_type)), ("id", .str a.id),
                            ("attributes", .dict attrs)]
  let payload := match a.owner_ids with
    | some ids => payload0 ++ [("relationships", PyVal.dict [("owner",
        PyVal.dict [("data", .list (ids.map (fun u =>
          PyVal.dict [("type", .str "user--user"), ("id", .str u)])))])])]
    | Option.none => payload0
  let result ← clientPatch be ("plan/" ++ a.plan_type ++ "/" ++ a.id) (.dict payload)
  let data ← liftE (pyGetD result "data" (.dict []))
  let n ← liftE (normalizePlan data)
  ES.pure n

/-- The tool `update_plan`. -/
def update_plan (be : Backend) (a : UpdatePlanArgs) : St → PyVal × St :=
  wrapTool (updatePlanBody be a)

/-!
## Tool dispatch and registration (`server.py`)
-/

/-- One invocation of one tool with its arguments. -/
inductive ToolCall where
  | getLogs (a : GetLogsArgs)
  | getLog (id : String) (log_type : Option String)
  | getAssets (a : GetAssetsArgs)
  | getAsset (id : String) (asset_type : Option String)
  | getTerms (a : GetTermsArgs)
  | getPlans (a : GetPlansArgs)
  | getPlan (id : String) (plan_type : Option String)
  | getUsers (a : GetUsersArgs)
  | getFarmInfo
  | getQuantities (a : GetQuantitiesArgs)
  | createLog (a : CreateLogArgs)
  | updateLog (a : UpdateLogArgs)
  | createAsset (a : CreateAssetArgs)
  | updateAsset (a : UpdateAssetArgs)
  | createTerm (a : CreateTermArgs)
  | updateTerm (a : UpdateTermArgs)
  | createPlan (a : CreatePlanArgs)
  | updatePlan (a : UpdatePlanArgs)

/-- The `try`-block body of each tool. -/
def toolBody (be : Backend) : ToolCall → ES PyVal
  | .getLogs a => getLogsBody be a
  | .getLog id lt => getLogBody be id lt
  | .getAssets a => getAssetsBody be a
  | .getAsset id at0 => getAssetBody be id at0
  | .getTerms a => getTermsBody be a
  | .getPlans a => getPlansBody be a
  | .getPlan id pt => getPlanBody be id pt
  | .getUsers a => getUsersBody be a
  | .getFarmInfo => getFarmInfoBody be
  | .getQuantities a => getQuantitiesBody be a
  | .createLog a => createLogBody be a
  | .updateLog a => updateLogBody be a
  | .createAsset a => createAssetBody be a
  | .updateAsset a => updateAssetBody be a
  | .createTerm a => createTermBody be a
  | .updateTerm a => updateTermBody be a
  | .createPlan a => createPlanBody be a
  | .updatePlan a => updatePlanBody be a

/-- Runs a tool call through its registered entrypoint. -/
def runTool (be : Backend) : ToolCall → St → PyVal × St
  | .getLogs a => get_logs be a
  | .getLog id lt => get_log be id lt
  | .getAssets a => get_assets be a
  | .getAsset id at0 => get_asset be id at0
  | .getTerms a => get_terms be a
  | .getPlans a => get_plans be a
  | .getPlan id pt => get_plan be id pt
  | .getUsers a => get_users be a
  | .getFarmInfo => get_farm_info be
  | .getQuantities a => get_quantities be a
  | .createLog a => create_log be a
  | .updateLog a => update_log be a
  | .createAsset a => create_asset be a
  | .updateAsset a => update_asset be a
  | .createTerm a => create_term be a
  | .updateTerm a => update_term be a
  | .createPlan a => create_plan be a
  | .updatePlan a => update_plan be a

/-- Whether a call targets a write tool. -/
def isWriteCall : ToolCall → Bool
  | .createLog _ => true
  | .updateLog _ => true
  | .createAsset _ => true
  | .updateAsset _ => true
  | .createTerm _ => true
  | .updateTerm _ => true
  | .createPlan _ => true
  | .updatePlan _ => true
  | _ => false

/-- Embedding of `is_read_only` (`farmos_client.py` 137-138):
`os.environ.get("FARMOS_READ_ONLY", "true").strip().lower() != "false"`. -/
def is_read_only (env : Option String) : Bool :=
  pyLower (pyStrip (env.getD "true")) != "false"

/-- The ten read tools registered unconditionally (`server.py` 15-24). -/
def READ_TOOL_NAMES : List String :=
  ["get_logs", "get_log", "get_assets", "get_asset", "get_terms",
   "get_plans", "get_plan", "get_users", "get_farm_info", "get_quantities"]

/-- The eight write tools registered only when writes are enabled
(`server.py` 26-39). -/
def WRITE_TOOL_NAMES : List String :=
  ["create_log", "update_log", "create_asset", "update_asset",
   "create_term", "update_term", "create_plan", "update_plan"]

/-- Embedding of the registration block of `server.py`: read tools
always, write tools only when `is_read_only` is off. -/
def registeredTools (env : Option String) : List String :=
  READ_TOOL_NAMES ++ (if is_read_only env then [] else WRITE_TOOL_NAMES)

/-- Whether a trace entry is an API write (POST/PATCH). -/
def isWriteEntry : ReqEntry → Bool
  | .api m _ _ => m == "POST" || m == "PATCH"
  | .token => false

/-- A computation that only ever appends non-write entries to the
trace. -/
def noWrites {α : Type} (x : ES α) : Prop :=
  ∀ st e, e ∈ (x st).2.trace → e ∈ st.trace ∨ isWriteEntry e = false

/-- A computation that always raises. -/
def neverOk {α : Type} (x : ES α) : Prop :=
  ∀ st, ((x st).1.isOk : Bool) = false

/-!
## Pure recompositions of the fan-out loops

Each loop in the tools is re-expressed as a pure function of the oracle;
the run lemmas below prove the stateful loops equal to these.  They are
the vocabulary in which the fan-out claims (C2, C3, C9) are stated. -/

/-- Pure outcome of `listFetch` against the deterministic oracle. -/
def listFetchOutcome (be : Backend) (path : String) (params : PyDict) :
    Except PyExc (List PyVal) :=
  match httpOutcome be "GET" path params with
  | .error e => .error e
  | .ok body =>
    match pyGetD body "data" (.list []) with
    | .error e => .error e
    | .ok d => pyIter d

/-- Per-sub-type contribution of a merged list call: empty when the GET,
the `data` access or the iteration fails; otherwise the records that
normalize before the first failure (the swallowed partial extend). -/
def typeContrib (be : Backend) (norm : PyVal → Except PyExc PyVal)
    (path : String) (params : PyDict) : List PyVal :=
  match listFetchOutcome be path params with
  | .error _ => []
  | .ok rs => extendUpToErr norm rs

/-- Merged `get_logs` contribution of one log bundle. -/
def logTypeContrib (be : Backend) (params : PyDict) (t : String) : List PyVal :=
  typeContrib be (fun r => normalizeLog r []) ("log/" ++ t) params

/-- Merged `get_assets` contribution of one asset bundle. -/
def assetTypeContrib (be : Backend) (params : PyDict) (t : String) : List PyVal :=
  typeContrib be (fun r => normalizeAsset r []) ("asset/" ++ t) params

/-- Merged `get_quantities` contribution of one quantity bundle. -/
def quantityTypeContrib (be : Backend) (params : PyDict) (t : String) : List PyVal :=
  typeContrib be normalizeQuantityQ ("quantity/" ++ t) params

/-- Pure outcome of one `get_asset` attempt (`use_include` true or
false): the response body and, when includes were requested, the
side-loading map. -/
def assetAttemptOutcome (be : Backend) (id t : String) (useInc : Bool) :
    Except PyExc (PyVal × PyDict) :=
  let params : PyDict := if useInc then [("include", .str ASSET_INCLUDE)] else []
  match httpOutcome be "GET" ("asset/" ++ t ++ "/" ++ id) params with
  | .error e => .error e
  | .ok body =>
    if useInc then
      match buildIncluded body with
      | .error e => .error e
      | .ok inc => .ok (body, inc)
    else .ok (body, [])

/-- API entries issued by one `get_asset` attempt. -/
def assetAttemptEntries (be : Backend) (id t : String) (useInc : Bool) : List ReqEntry :=
  reqEntries be "GET" ("asset/" ++ t ++ "/" ++ id)
    (if useInc then [("include", .str ASSET_INCLUDE)] else [])

/-- Pure outcome of the two-attempt include fallback of `get_asset` for
one sub-type: the first success, plus the attempt error strings. -/
def assetProbe (be : Backend) (id t : String) : Option (PyVal × PyDict) × List String :=
  match assetAttemptOutcome be id t true with
  | .ok pr => (some pr, [])
  | .error e1 =>
    match assetAttemptOutcome be id t false with
    | .ok pr => (some pr, [t ++ "(+include)" ++ ": " ++ msgOf e1])
    | .error e2 =>
      (Option.none, [t ++ "(+include)" ++ ": " ++ msgOf e1, t ++ ": " ++ msgOf e2])

/-- API entries issued while probing one sub-type in `get_asset`. -/
def assetProbeEntries (be : Backend) (id t : String) : List ReqEntry :=
  match assetAttemptOutcome be id t true with
  | .ok _ => assetAttemptEntries be id t true
  | .error _ => assetAttemptEntries be id t true ++ assetAttemptEntries be id t false

/-- Pure outcome of one `get_log` attempt at an include level. -/
def logAttemptOutcome (be : Backend) (id t : String) (incStr : Option String) :
    Except PyExc (PyVal × PyDict) :=
  let params : PyDict := match incStr with
    | some s => [("include", .str s)]
    | Option.none => []
  match httpOutcome be "GET" ("log/" ++ t ++ "/" ++ id) params with
  | .error e => .error e
  | .ok body =>
    match incStr with
    | some _ =>
      match buildIncluded body with
      | .error e => .error e
      | .ok inc => .ok (body, inc)
    | Option.none => .ok (body, [])

/-- API entries issued by one `get_log` attempt. -/
def logAttemptEntries (be : Backend) (id t : String) (incStr : Option String) : List ReqEntry :=
  reqEntries be "GET" ("log/" ++ t ++ "/" ++ id)
    (match incStr with
     | some s => [("include", .str s)]
     | Option.none => [])

/-- Pure outcome of the progressive include fallback of `get_log` for one
sub-type over a list of levels. -/
def logProbe (be : Backend) (id t : String) :
    List (Option String) → (Option (PyVal × PyDict × Option String) × List String)
  | [] => (Option.none, [])
  | i :: is =>
    match logAttemptOutcome be id t i with
    | .ok (body, inc) => (some (body, inc, i), [])
    | .error e =>
      let r := logProbe be id t is
      (r.1, (t ++ "(include=" ++ reprOptStr i ++ "): " ++ msgOf e) :: r.2)

/-- API entries issued while probing one sub-type in `get_log`. -/
def logProbeEntries (be : Backend) (id t : String) :
    List (Option String) → List ReqEntry
  | [] => []
  | i :: is =>
    match logAttemptOutcome be id t i with
    | .ok _ => logAttemptEntries be id t i
    | .error _ => logAttemptEntries be id t i ++ logProbeEntries be id t is

/-- Full include-level list tried by `get_log`. -/
def logLevels : List (Option String) := LOG_INCLUDE_LEVELS.map some ++ [Option.none]

/-- Query parameters of the merged `get_logs` mode (no `page[offset]`). -/
def mergedLogParams (a : GetLogsArgs) : PyDict :=
  logListParams a ++ [("page[limit]", .int (pyMinI a.limit 100))]

/-- Query parameters of the merged `get_assets` mode. -/
def mergedAssetParams (a : GetAssetsArgs) : PyDict :=
  assetListParams a ++ [("page[limit]", .int (pyMinI a.limit 100))]

/-- Query parameters of the merged `get_quantities` mode. -/
def mergedQuantityParams (a : GetQuantitiesArgs) : PyDict :=
  quantityListParams a ++ [("page[limit]", .int (pyMinI a.limit 100))]

/-- The merged `get_logs` result list: concatenation of the per-type
contributions, sorted by timestamp descending (stably), trimmed to
`limit`. -/
def mergedLogs (be : Backend) (a : GetLogsArgs) : List PyVal :=
  pySliceTo (stableSortBy (descLe logSortKey)
    (concatMap (fun ty => logTypeContrib be (mergedLogParams a) ty) LOG_TYPES)) a.limit

/-- The merged `get_assets` result list, or the exception of the first
asset whose sort key raises: the per-type contributions are concatenated,
decorated with the `(x.get("name") or "").lower()` keys, sorted stably by
key ascending and trimmed to `limit`. -/
def mergedAssetsE (be : Backend) (a : GetAssetsArgs) : Except PyExc (List PyVal) :=
  match assetKeyed (concatMap (fun ty => assetTypeContrib be (mergedAssetParams a) ty)
      ASSET_TYPES) with
  | .error e => .error e
  | .ok kl => .ok (pySliceTo ((stableSortBy keyLe kl).map Prod.snd) a.limit)

/-- The value a merged `get_assets` call hands back through the tool
boundary: the sorted merged dict, or the error dict of the sort-key
exception. -/
def mergedAssetsOut (be : Backend) (a : GetAssetsArgs) : PyVal :=
  match mergedAssetsE be a with
  | .ok l => .dict [("returned", .int l.length), ("assets", .list l)]
  | .error e => .dict [("error", .str (msgOf e))]

/-- The merged `get_quantities` result list: concatenation in type
order, trimmed to `limit` (this family applies no sort). -/
def mergedQuantities (be : Backend) (a : GetQuantitiesArgs) : List PyVal :=
  pySliceTo (concatMap (fun ty => quantityTypeContrib be (mergedQuantityParams a) ty)
    QUANTITY_TYPES) a.limit

/-- Query parameters of the explicit-sub-type `get_logs` mode (with
`page[offset]`). -/
def explicitLogParams (a : GetLogsArgs) : PyDict :=
  logListParams a ++ [("page[limit]", .int (pyMinI a.limit 100)), ("page[offset]", .int a.offset)]

/-- Query parameters of the explicit-sub-type `get_assets` mode. -/
def explicitAssetParams (a : GetAssetsArgs) : PyDict :=
  assetListParams a ++ [("page[limit]", .int (pyMinI a.limit 100)), ("page[offset]", .int a.offset)]

/-- Query parameters of the explicit-sub-type `get_plans` mode. -/
def explicitPlanParams (a : GetPlansArgs) : PyDict :=
  planListParams a ++ [("page[limit]", .int (pyMinI a.limit 100)), ("page[offset]", .int a.offset)]

/-- Query parameters of the explicit-sub-type `get_quantities` mode. -/
def explicitQuantityParams (a : GetQuantitiesArgs) : PyDict :=
  quantityListParams a ++ [("page[limit]", .int (pyMinI a.limit 100)), ("page[offset]", .int a.offset)]

/-- Whether a trace entry carries a `page[offset]` query parameter. -/
def hasOffsetParam (e : ReqEntry) : Bool :=
  match e with
  | .api _ _ ps => (ps.lookup "page[offset]").isSome
  | .token => false

/-!
## Theorems
-/

set_option maxHeartbeats 3000000 in
lemma daysBeforeYear_succ (y : Nat) (hy : 1 ≤ y) :
    daysBeforeYear (y + 1) = daysBeforeYear y + yearLen y := by
  unfold daysBeforeYear yearLen isLeap
  split
  case isTrue h =>
    simp only [Bool.or_eq_true, Bool.and_eq_true, beq_iff_eq, bne_iff_ne, ne_eq] at h
    omega
  case isFalse h =>
    simp only [Bool.or_eq_true, Bool.and_eq_true, beq_iff_eq, bne_iff_ne, ne_eq] at h
    omega

lemma daysBeforeYear_le (a b : Nat) (ha : 1 ≤ a) (hab : a ≤ b) :
    daysBeforeYear a ≤ daysBeforeYear b := by
  induction b, hab using Nat.le_induction with
  | base => exact le_refl _
  | succ n hn ih =>
    have := daysBeforeYear_succ n (le_trans ha hn)
    omega

lemma yearLen_ge (y : Nat) : 365 ≤ yearLen y := by
  unfold yearLen
  split <;> omega

lemma daysBeforeYear_era (k : Nat) : daysBeforeYear (400 * k + 1) = 146097 * k := by
  unfold daysBeforeYear
  omega

lemma mdoy_correct (leap : Bool) : ∀ m < 13, ∀ d < 32,
    ((1 ≤ m ∧ 1 ≤ d ∧ d ≤ monthLen leap m) →
      monthDayOfDoy leap (daysBeforeMonth leap m + (d - 1)) = (m, d)) := by
  cases leap <;> decide

lemma doy_lt (leap : Bool) : ∀ m < 13, ∀ d < 32,
    ((1 ≤ m ∧ d ≤ monthLen leap m) →
      daysBeforeMonth leap m + (d - 1) < (if leap then 366 else 365)) := by
  cases leap <;> decide

lemma monthLen_le31 (leap : Bool) : ∀ m < 13, monthLen leap m ≤ 31 := by
  cases leap <;> decide

lemma goYear_hits : ∀ (k fuel y doy : Nat), 1 ≤ y → k < fuel → doy < yearLen (y + k) →
    goYear fuel y (daysBeforeYear (y + k) - daysBeforeYear y + doy) =
      (y + k, (monthDayOfDoy (isLeap (y + k)) doy).1, (monthDayOfDoy (isLeap (y + k)) doy).2) := by
  intro k
  induction k with
  | zero =>
    intro fuel y doy hy hf hd
    match fuel, hf with
    | f + 1, _ =>
      simp only [Nat.add_zero] at hd ⊢
      simp only [goYear, Nat.sub_self, Nat.zero_add, if_pos hd]
  | succ k ih =>
    intro fuel y doy hy hf hd
    match fuel, hf with
    | f + 1, hf =>
      have hyk : y + 1 + k = y + (k + 1) := by omega
      have hstep : daysBeforeYear (y + 1) = daysBeforeYear y + yearLen y :=
        daysBeforeYear_succ y hy
      have hmono : daysBeforeYear (y + 1) ≤ daysBeforeYear (y + (k + 1)) :=
        daysBeforeYear_le _ _ (by omega) (by omega)
      have hEq : daysBeforeYear (y + 1 + k) = daysBeforeYear (y + (k + 1)) := by rw [hyk]
      have hne : ¬ (daysBeforeYear (y + (k + 1)) - daysBeforeYear y + doy < yearLen y) := by
        omega
      have harg : daysBeforeYear (y + (k + 1)) - daysBeforeYear y + doy - yearLen y
          = daysBeforeYear (y + 1 + k) - daysBeforeYear (y + 1) + doy := by
        omega
      have hd' : doy < yearLen (y + 1 + k) := by rw [hyk]; exact hd
      have hih := ih f (y + 1) doy (by omega) (by omega) hd'
      simp only [goYear, if_neg hne]
      rw [harg, ← hyk]
      exact hih

lemma fromRD_toRD (y m d : Nat) (h : ValidDate y m d) : fromRD (toRD y m d) = (y, m, d) := by
  obtain ⟨h1, h2, h3, h4, h5, h6⟩ := h
  have hml : monthLen (isLeap y) m ≤ 31 := monthLen_le31 (isLeap y) m (by omega)
  have hdoy : daysBeforeMonth (isLeap y) m + (d - 1) < yearLen y := by
    have := doy_lt (isLeap y) m (by omega) d (by omega) ⟨h3, h6⟩
    unfold yearLen
    exact this
  have hylen : yearLen y ≤ 366 := by unfold yearLen; split <;> omega
  have hEra0 : daysBeforeYear (400 * ((y - 1) / 400) + 1) = 146097 * ((y - 1) / 400) :=
    daysBeforeYear_era ((y - 1) / 400)
  have hEra1 : daysBeforeYear (400 * ((y - 1) / 400 + 1) + 1) = 146097 * ((y - 1) / 400 + 1) :=
    daysBeforeYear_era ((y - 1) / 400 + 1)
  have hy0le : 400 * ((y - 1) / 400) + 1 ≤ y := by omega
  have hmono0 : daysBeforeYear (400 * ((y - 1) / 400) + 1) ≤ daysBeforeYear y :=
    daysBeforeYear_le _ _ (by omega) hy0le
  have hsucc : daysBeforeYear (y + 1) = daysBeforeYear y + yearLen y :=
    daysBeforeYear_succ y h1
  have hup : daysBeforeYear (y + 1) ≤ daysBeforeYear (400 * ((y - 1) / 400 + 1) + 1) :=
    daysBeforeYear_le _ _ (by omega) (by omega)
  have hdiv : (daysBeforeYear y + daysBeforeMonth (isLeap y) m + (d - 1)) / 146097
      = (y - 1) / 400 := by omega
  have hmod : (daysBeforeYear y + daysBeforeMonth (isLeap y) m + (d - 1)) % 146097
      = daysBeforeYear y - daysBeforeYear (400 * ((y - 1) / 400) + 1)
        + (daysBeforeMonth (isLeap y) m + (d - 1)) := by omega
  have hy0k : 400 * ((y - 1) / 400) + 1 + (y - (400 * ((y - 1) / 400) + 1)) = y := by omega
  have key := goYear_hits (y - (400 * ((y - 1) / 400) + 1)) 500
    (400 * ((y - 1) / 400) + 1) (daysBeforeMonth (isLeap y) m + (d - 1))
    (by omega) (by omega) (by rw [hy0k]; exact hdoy)
  rw [hy0k] at key
  have hmd := mdoy_correct (isLeap y) m (by omega) d (by omega) ⟨h3, h5, h6⟩
  unfold fromRD toRD
  rw [hdiv, hmod, key, hmd]

lemma ediv_split (k s : Int) (h0 : 0 ≤ s) (h1 : s < 86400) :
    (86400 * k + s) / 86400 = k ∧ (86400 * k + s) % 86400 = s := by
  omega

lemma bind_def {α β : Type} (x : ES α) (f : α → ES β) : (x >>= f) = ES.bind x f := rfl

lemma pure_def {α : Type} (a : α) : (pure a : ES α) = ES.pure a := rfl

lemma clientGet_run (be : Backend) (p : String) (ps : PyDict) (t : String)
    (h : be.tok = .ok t) (st : St) :
    clientGet be p ps st =
      (httpOutcome be "GET" p ps,
       ⟨some (tokAfter be "GET" p ps st.token t),
        st.trace ++ authTr st.token ++ reqEntries be "GET" p ps⟩) := by
  have hbig : ∀ (r : HttpResp), be.api "GET" p ps = TRes.resp r →
      clientGet be p ps st =
      (httpOutcome be "GET" p ps,
       ⟨some (tokAfter be "GET" p ps st.token t),
        st.trace ++ authTr st.token ++ reqEntries be "GET" p ps⟩) := by
    intro r hapi
    by_cases h401 : r.status = 401
    · cases hst : st.token <;>
        simp [clientGet, requestES, bind_def, ES.bind, authES, issueES, clearTok, liftE,
          raiseForStatus, httpOutcome, reqEntries, tokAfter, authTr, ES.pure, hst, hapi, h, h401,
          List.append_assoc]
    · by_cases h2xx : 200 ≤ r.status ∧ r.status < 300 <;>
      cases hst : st.token <;>
        simp [clientGet, requestES, bind_def, ES.bind, authES, issueES, clearTok, liftE,
          raiseForStatus, httpOutcome, reqEntries, tokAfter, authTr, ES.pure, hst, hapi, h,
          h401, h2xx]
  cases hapi : be.api "GET" p ps with
  | err m =>
    cases hst : st.token <;>
      simp [clientGet, requestES, bind_def, ES.bind, authES, issueES, clearTok, liftE,
        raiseForStatus, httpOutcome, reqEntries, tokAfter, authTr, ES.pure, hst, hapi, h]
  | resp r => exact hbig r hapi

lemma listFetch_attempt_run (be : Backend) (p : String) (ps : PyDict) (t : String)
    (h : be.tok = .ok t) (st : St) (tk : String) (hst : st.token = some tk) :
    ES.attempt (listFetch be p ps) st =
      (.ok (listFetchOutcome be p ps),
       ⟨some (tokAfter be "GET" p ps st.token t), st.trace ++ reqEntries be "GET" p ps⟩) := by
  unfold ES.attempt listFetch
  simp only [bind_def, ES.bind]
  rw [clientGet_run be p ps t h st]
  cases hout : httpOutcome be "GET" p ps with
  | error e => simp [listFetchOutcome, hout, hst, authTr]
  | ok body =>
    cases hd : pyGetD body "data" (.list []) with
    | error e => simp [listFetchOutcome, hout, hd, hst, authTr, liftE]
    | ok d =>
      cases hi : pyIter d with
      | error e => simp [listFetchOutcome, hout, hd, hi, hst, authTr, liftE]
      | ok rs => simp [listFetchOutcome, hout, hd, hi, hst, authTr, liftE, ES.pure]

lemma getLogsMergedLoop_run (be : Backend) (t : String) (h : be.tok = .ok t)
    (params : PyDict) :
    ∀ (ts : List String) (st : St) (tk : String), st.token = some tk →
    ∃ tk', getLogsMergedLoop be params ts st =
      (.ok (concatMap (fun ty => logTypeContrib be params ty) ts),
       ⟨some tk',
        st.trace ++ concatMap (fun ty => reqEntries be "GET" ("log/" ++ ty) params) ts⟩) := by
  intro ts
  induction ts with
  | nil =>
    intro st tk hst
    refine ⟨tk, ?_⟩
    cases st with
    | mk tok tr =>
      simp only [St.token] at hst
      simp [getLogsMergedLoop, ES.pure, concatMap, hst]
  | cons ty rest ih =>
    intro st tk hst
    have hfetch := listFetch_attempt_run be ("log/" ++ ty) params t h st tk hst
    have hmid : (⟨some (tokAfter be "GET" ("log/" ++ ty) params st.token t),
        st.trace ++ reqEntries be "GET" ("log/" ++ ty) params⟩ : St).token
        = some (tokAfter be "GET" ("log/" ++ ty) params st.token t) := rfl
    obtain ⟨tk', hrest⟩ := ih ⟨some (tokAfter be "GET" ("log/" ++ ty) params st.token t),
        st.trace ++ reqEntries be "GET" ("log/" ++ ty) params⟩
      (tokAfter be "GET" ("log/" ++ ty) params st.token t) hmid
    refine ⟨tk', ?_⟩
    simp only [getLogsMergedLoop, bind_def, ES.bind]
    rw [hfetch]
    cases hout : listFetchOutcome be ("log/" ++ ty) params with
    | error e =>
      simp only [hout] at hfetch ⊢
      rw [hrest]
      simp [concatMap, logTypeContrib, typeContrib, hout, ES.pure, List.append_assoc]
    | ok rs =>
      simp only [hout] at hfetch ⊢
      rw [hrest]
      simp [concatMap, logTypeContrib, typeContrib, hout, ES.pure, List.append_assoc]

lemma getAssetsMergedLoop_run (be : Backend) (t : String) (h : be.tok = .ok t)
    (params : PyDict) :
    ∀ (ts : List String) (st : St) (tk : String), st.token = some tk →
    ∃ tk', getAssetsMergedLoop be params ts st =
      (.ok (concatMap (fun ty => assetTypeContrib be params ty) ts),
       ⟨some tk',
        st.trace ++ concatMap (fun ty => reqEntries be "GET" ("asset/" ++ ty) params) ts⟩) := by
  intro ts
  induction ts with
  | nil =>
    intro st tk hst
    refine ⟨tk, ?_⟩
    cases st with
    | mk tok tr =>
      simp only [St.token] at hst
      simp [getAssetsMergedLoop, ES.pure, concatMap, hst]
  | cons ty rest ih =>
    intro st tk hst
    have hfetch := listFetch_attempt_run be ("asset/" ++ ty) params t h st tk hst
    obtain ⟨tk', hrest⟩ := ih ⟨some (tokAfter be "GET" ("asset/" ++ ty) params st.token t),
        st.trace ++ reqEntries be "GET" ("asset/" ++ ty) params⟩
      (tokAfter be "GET" ("asset/" ++ ty) params st.token t) rfl
    refine ⟨tk', ?_⟩
    simp only [getAssetsMergedLoop, bind_def, ES.bind]
    rw [hfetch]
    cases hout : listFetchOutcome be ("asset/" ++ ty) params with
    | error e =>
      simp only [hout] at hfetch ⊢
      rw [hrest]
      simp [concatMap, assetTypeContrib, typeContrib, hout, ES.pure, List.append_assoc]
    | ok rs =>
      simp only [hout] at hfetch ⊢
      rw [hrest]
      simp [concatMap, assetTypeContrib, typeContrib, hout, ES.pure, List.append_assoc]

lemma getQuantitiesMergedLoop_run (be : Backend) (t : String) (h : be.tok = .ok t)
    (params : PyDict) :
    ∀ (ts : List String) (st : St) (tk : String), st.token = some tk →
    ∃ tk', getQuantitiesMergedLoop be params ts st =
      (.ok (concatMap (fun ty => quantityTypeContrib be params ty) ts),
       ⟨some tk',
        st.trace ++ concatMap (fun ty => reqEntries be "GET" ("quantity/" ++ ty) params) ts⟩) := by
  intro ts
  induction ts with
  | nil =>
    intro st tk hst
    refine ⟨tk, ?_⟩
    cases st with
    | mk tok tr =>
      simp only [St.token] at hst
      simp [getQuantitiesMergedLoop, ES.pure, concatMap, hst]
  | cons ty rest ih =>
    intro st tk hst
    have hfetch := listFetch_attempt_run be ("quantity/" ++ ty) params t h st tk hst
    obtain ⟨tk', hrest⟩ := ih ⟨some (tokAfter be "GET" ("quantity/" ++ ty) params st.token t),
        st.trace ++ reqEntries be "GET" ("quantity/" ++ ty) params⟩
      (tokAfter be "GET" ("quantity/" ++ ty) params st.token t) rfl
    refine ⟨tk', ?_⟩
    simp only [getQuantitiesMergedLoop, bind_def, ES.bind]
    rw [hfetch]
    cases hout : listFetchOutcome be ("quantity/" ++ ty) params with
    | error e =>
      simp only [hout] at hfetch ⊢
      rw [hrest]
      simp [concatMap, quantityTypeContrib, typeContrib, hout, ES.pure, List.append_assoc]
    | ok rs =>
      simp only [hout] at hfetch ⊢
      rw [hrest]
      simp [concatMap, quantityTypeContrib, typeContrib, hout, ES.pure, List.append_assoc]

lemma extendUpToErr_allOk (f : PyVal → Except PyExc PyVal) :
    ∀ (rs ns : List PyVal), mapExc f rs = .ok ns → extendUpToErr f rs = ns := by
  intro rs
  induction rs with
  | nil =>
    intro ns h
    simp [mapExc] at h
    simp [extendUpToErr, h]
  | cons r rest ih =>
    intro ns h
    unfold mapExc at h
    cases hf : f r with
    | error e => rw [hf] at h; exact absurd h (by simp)
    | ok v =>
      rw [hf] at h
      cases hm : mapExc f rest with
      | error e => rw [hm] at h; exact absurd h (by simp)
      | ok vs =>
        rw [hm] at h
        simp at h
        subst h
        simp [extendUpToErr, hf, ih vs hm]

lemma typeContrib_fail (be : Backend) (norm : PyVal → Except PyExc PyVal)
    (path : String) (params : PyDict) (e : PyExc)
    (h : listFetchOutcome be path params = .error e) :
    typeContrib be norm path params = [] := by
  simp [typeContrib, h]

lemma typeContrib_ok (be : Backend) (norm : PyVal → Except PyExc PyVal)
    (path : String) (params : PyDict) (rs ns : List PyVal)
    (hfetch : listFetchOutcome be path params = .ok rs)
    (hnorm : mapExc norm rs = .ok ns) :
    typeContrib be norm path params = ns := by
  simp [typeContrib, hfetch, extendUpToErr_allOk norm rs ns hnorm]


lemma get_logs_merged_run (be : Backend) (t : String) (h : be.tok = .ok t)
    (a : GetLogsArgs) (hnone : a.log_type = Option.none)
    (st : St) (tk : String) (hst : st.token = some tk) :
    ∃ tk', get_logs be a st =
      (.dict [("returned", .int (mergedLogs be a).length), ("logs", .list (mergedLogs be a))],
       ⟨some tk',
        st.trace ++ concatMap (fun ty => reqEntries be "GET" ("log/" ++ ty) (mergedLogParams a))
          LOG_TYPES⟩) := by
  obtain ⟨tk', hloop⟩ := getLogsMergedLoop_run be t h (mergedLogParams a) LOG_TYPES st tk hst
  refine ⟨tk', ?_⟩
  unfold get_logs wrapTool getLogsBody
  simp only [hnone, bind_def, ES.bind]
  simp only [mergedLogParams] at hloop
  rw [hloop]
  simp [ES.pure, mergedLogs, mergedLogParams]

lemma get_assets_merged_run (be : Backend) (t : String) (h : be.tok = .ok t)
    (a : GetAssetsArgs) (hnone : a.asset_type = Option.none)
    (st : St) (tk : String) (hst : st.token = some tk) :
    ∃ tk', get_assets be a st =
      (mergedAssetsOut be a,
       ⟨some tk',
        st.trace ++ concatMap (fun ty => reqEntries be "GET" ("asset/" ++ ty) (mergedAssetParams a))
          ASSET_TYPES⟩) := by
  obtain ⟨tk', hloop⟩ := getAssetsMergedLoop_run be t h (mergedAssetParams a) ASSET_TYPES st tk hst
  refine ⟨tk', ?_⟩
  unfold get_assets wrapTool getAssetsBody
  simp only [hnone, bind_def, ES.bind]
  simp only [mergedAssetParams] at hloop
  rw [hloop]
  cases hk : assetKeyed (concatMap (fun ty => assetTypeContrib be
      (assetListParams a ++ [("page[limit]", PyVal.int (pyMinI a.limit 100))]) ty)
      ASSET_TYPES) with
  | error e =>
    simp [liftE, ES.pure, ES.bind, mergedAssetsOut, mergedAssetsE, mergedAssetParams, hk]
  | ok kl =>
    simp [liftE, ES.pure, ES.bind, mergedAssetsOut, mergedAssetsE, mergedAssetParams, hk]

lemma get_quantities_merged_run (be : Backend) (t : String) (h : be.tok = .ok t)
    (a : GetQuantitiesArgs) (hnone : a.quantity_type = Option.none)
    (st : St) (tk : String) (hst : st.token = some tk) :
    ∃ tk', get_quantities be a st =
      (.dict [("returned", .int (mergedQuantities be a).length),
              ("quantities", .list (mergedQuantities be a))],
       ⟨some tk',
        st.trace ++ concatMap (fun ty => reqEntries be "GET" ("quantity/" ++ ty)
          (mergedQuantityParams a)) QUANTITY_TYPES⟩) := by
  obtain ⟨tk', hloop⟩ :=
    getQuantitiesMergedLoop_run be t h (mergedQuantityParams a) QUANTITY_TYPES st tk hst
  refine ⟨tk', ?_⟩
  unfold get_quantities wrapTool getQuantitiesBody
  simp only [hnone, bind_def, ES.bind]
  simp only [mergedQuantityParams] at hloop
  rw [hloop]
  simp [ES.pure, mergedQuantities, mergedQuantityParams]

lemma get_plans_merged_run (be : Backend) (a : GetPlansArgs)
    (hnone : a.plan_type = Option.none) (st : St) :
    get_plans be a st =
      (.dict [("returned", .int 0), ("plans", .list []),
        ("note", .str "No plan types configured. Specify plan_type explicitly if you know the bundle name.")],
       st) := by
  unfold get_plans wrapTool getPlansBody
  simp [hnone, bind_def, ES.bind, ES.pure, PLAN_TYPES]

lemma mem_insertLe {α : Type} (le : α → α → Bool) (x : α) :
    ∀ (l : List α) (z : α), z ∈ insertLe le x l → z = x ∨ z ∈ l := by
  intro l
  induction l with
  | nil => intro z hz; simp [insertLe] at hz; exact Or.inl hz
  | cons y ys ih =>
    intro z hz
    unfold insertLe at hz
    by_cases hle : le y x
    · rw [if_pos hle] at hz
      rcases List.mem_cons.mp hz with h | h
      · exact Or.inr (by simp [h])
      · rcases ih z h with h2 | h2
        · exact Or.inl h2
        · exact Or.inr (by simp [h2])
    · rw [if_neg hle] at hz
      rcases List.mem_cons.mp hz with h | h
      · exact Or.inl h
      · exact Or.inr h

lemma insertLe_pairwise {α : Type} (le : α → α → Bool)
    (htot : ∀ a b, le a b = true ∨ le b a = true)
    (htrans : ∀ a b c, le a b = true → le b c = true → le a c = true) (x : α) :
    ∀ (l : List α), l.Pairwise (fun a b => le a b = true) →
      (insertLe le x l).Pairwise (fun a b => le a b = true) := by
  intro l
  induction l with
  | nil => intro _; simp [insertLe]
  | cons y ys ih =>
    intro hp
    rcases List.pairwise_cons.mp hp with ⟨hy, hys⟩
    unfold insertLe
    by_cases hle : le y x
    · rw [if_pos hle]
      refine List.pairwise_cons.mpr ⟨?_, ih hys⟩
      intro z hz
      rcases mem_insertLe le x ys z hz with h | h
      · rw [h]; exact hle
      · exact hy z h
    · rw [if_neg hle]
      have hxy : le x y = true := by
        rcases htot x y with h | h
        · exact h
        · exact absurd h (by simpa using hle)
      refine List.pairwise_cons.mpr ⟨?_, hp⟩
      intro z hz
      rcases List.mem_cons.mp hz with h | h
      · rw [h]; exact hxy
      · exact htrans x y z hxy (hy z h)

lemma stableSortBy_pairwise {α : Type} (le : α → α → Bool)
    (htot : ∀ a b, le a b = true ∨ le b a = true)
    (htrans : ∀ a b c, le a b = true → le b c = true → le a c = true) :
    ∀ (l acc : List α), acc.Pairwise (fun a b => le a b = true) →
      (l.foldl (fun acc x => insertLe le x acc) acc).Pairwise (fun a b => le a b = true) := by
  intro l
  induction l with
  | nil => intro acc h; simpa using h
  | cons x xs ih =>
    intro acc h
    simpa using ih (insertLe le x acc) (insertLe_pairwise le htot htrans x acc h)

lemma stableSortBy_sorted {α : Type} (le : α → α → Bool)
    (htot : ∀ a b, le a b = true ∨ le b a = true)
    (htrans : ∀ a b c, le a b = true → le b c = true → le a c = true) (l : List α) :
    (stableSortBy le l).Pairwise (fun a b => le a b = true) :=
  stableSortBy_pairwise le htot htrans l [] (by simp)

lemma pySliceTo_sublist (xs : List PyVal) (n : Int) : (pySliceTo xs n).Sublist xs := by
  unfold pySliceTo
  split <;> exact List.take_sublist _ _

lemma mergedLogs_sorted (be : Backend) (a : GetLogsArgs) :
    (mergedLogs be a).Pairwise (fun x y => logSortKey y ≤ logSortKey x) := by
  have h := stableSortBy_sorted (descLe logSortKey)
    (by intro x y; unfold descLe; rcases le_total (logSortKey y) (logSortKey x) with h | h
        · exact Or.inl (by simpa using h)
        · exact Or.inr (by simpa using h))
    (by intro x y z hxy hyz
        unfold descLe at hxy hyz ⊢
        simp only [decide_eq_true_eq] at hxy hyz ⊢
        exact le_trans hyz hxy)
    (concatMap (fun ty => logTypeContrib be (mergedLogParams a) ty) LOG_TYPES)
  have h2 := List.Pairwise.sublist (pySliceTo_sublist _ a.limit) h
  unfold mergedLogs
  refine h2.imp ?_
  intro x y hxy
  simpa [descLe] using hxy

lemma stableSortBy_keyLe_sorted (kl : List (String × PyVal)) :
    (stableSortBy keyLe kl).Pairwise (fun p q => p.1 ≤ q.1) := by
  have h := stableSortBy_sorted keyLe
    (by intro x y; unfold keyLe; rcases le_total x.1 y.1 with h | h
        · exact Or.inl (by simpa using h)
        · exact Or.inr (by simpa using h))
    (by intro x y z hxy hyz
        unfold keyLe at hxy hyz ⊢
        simp only [decide_eq_true_eq] at hxy hyz ⊢
        exact le_trans hxy hyz) kl
  refine h.imp ?_
  intro x y hxy
  simpa [keyLe] using hxy


lemma get_logs_explicit_run (be : Backend) (t : String) (h : be.tok = .ok t)
    (a : GetLogsArgs) (ty : String) (hty : a.log_type = some ty) (st : St) :
    ∃ v st', get_logs be a st = (v, st') ∧
      st'.trace = st.trace ++ authTr st.token ++
        reqEntries be "GET" ("log/" ++ ty) (explicitLogParams a) := by
  unfold get_logs wrapTool getLogsBody
  simp only [hty, bind_def, ES.bind]
  rw [show logListParams a ++ [("page[limit]", PyVal.int (pyMinI a.limit 100)),
        ("page[offset]", PyVal.int a.offset)] = explicitLogParams a from rfl]
  rw [clientGet_run be ("log/" ++ ty) (explicitLogParams a) t h st]
  cases hout : httpOutcome be "GET" ("log/" ++ ty) (explicitLogParams a) with
  | error e => exact ⟨_, _, rfl, by simp⟩
  | ok body =>
    cases hd : pyGetD body "data" (.list []) with
    | error e => simp only [liftE, hd]; exact ⟨_, _, rfl, by simp⟩
    | ok d =>
      cases hi : pyIter d with
      | error e => simp only [liftE, hd, hi]; exact ⟨_, _, rfl, by simp⟩
      | ok rs =>
        cases hn : mapExc (fun r => normalizeLog r []) rs with
        | error e => simp only [liftE, hd, hi, hn]; exact ⟨_, _, rfl, by simp⟩
        | ok ns =>
          cases hm : pyGetD body "meta" (.dict []) with
          | error e => simp only [liftE, hd, hi, hn, hm]; exact ⟨_, _, rfl, by simp⟩
          | ok meta =>
            cases hc : pyGetD meta "count" (.int ns.length) with
            | error e => simp only [liftE, hd, hi, hn, hm, hc]; exact ⟨_, _, rfl, by simp⟩
            | ok total =>
              simp only [liftE, hd, hi, hn, hm, hc, ES.pure]
              exact ⟨_, _, rfl, by simp⟩


lemma get_assets_explicit_run (be : Backend) (t : String) (h : be.tok = .ok t)
    (a : GetAssetsArgs) (ty : String) (hty : a.asset_type = some ty) (st : St) :
    ∃ v st', get_assets be a st = (v, st') ∧
      st'.trace = st.trace ++ authTr st.token ++
        reqEntries be "GET" ("asset/" ++ ty) (explicitAssetParams a) := by
  unfold get_assets wrapTool getAssetsBody
  simp only [hty, bind_def, ES.bind]
  rw [show assetListParams a ++ [("page[limit]", PyVal.int (pyMinI a.limit 100)), ("page[offset]", PyVal.int a.offset)] = explicitAssetParams a from rfl]
  rw [clientGet_run be ("asset/" ++ ty) (explicitAssetParams a) t h st]
  cases hout : httpOutcome be "GET" ("asset/" ++ ty) (explicitAssetParams a) with
  | error e => exact ⟨_, _, rfl, by simp⟩
  | ok body =>
    cases hd : pyGetD body "data" (.list []) with
    | error e => simp only [liftE, hd]; exact ⟨_, _, rfl, by simp⟩
    | ok d =>
      cases hi : pyIter d with
      | error e => simp only [liftE, hd, hi]; exact ⟨_, _, rfl, by simp⟩
      | ok rs =>
        cases hn : mapExc (fun r => normalizeAsset r []) rs with
        | error e => simp only [liftE, hd, hi, hn]; exact ⟨_, _, rfl, by simp⟩
        | ok ns =>
          cases hm : pyGetD body "meta" (.dict []) with
          | error e => simp only [liftE, hd, hi, hn, hm]; exact ⟨_, _, rfl, by simp⟩
          | ok meta =>
            cases hc : pyGetD meta "count" (.int ns.length) with
            | error e => simp only [liftE, hd, hi, hn, hm, hc]; exact ⟨_, _, rfl, by simp⟩
            | ok total =>
              simp only [liftE, hd, hi, hn, hm, hc, ES.pure]
              exact ⟨_, _, rfl, by simp⟩


lemma get_plans_explicit_run (be : Backend) (t : String) (h : be.tok = .ok t)
    (a : GetPlansArgs) (ty : String) (hty : a.plan_type = some ty) (st : St) :
    ∃ v st', get_plans be a st = (v, st') ∧
      st'.trace = st.trace ++ authTr st.token ++
        reqEntries be "GET" ("plan/" ++ ty) (explicitPlanParams a) := by
  unfold get_plans wrapTool getPlansBody
  simp only [hty, bind_def, ES.bind]
  rw [show planListParams a ++ [("page[limit]", PyVal.int (pyMinI a.limit 100)), ("page[offset]", PyVal.int a.offset)] = explicitPlanParams a from rfl]
  rw [clientGet_run be ("plan/" ++ ty) (explicitPlanParams a) t h st]
  cases hout : httpOutcome be "GET" ("plan/" ++ ty) (explicitPlanParams a) with
  | error e => exact ⟨_, _, rfl, by simp⟩
  | ok body =>
    cases hd : pyGetD body "data" (.list []) with
    | error e => simp only [liftE, hd]; exact ⟨_, _, rfl, by simp⟩
    | ok d =>
      cases hi : pyIter d with
      | error e => simp only [liftE, hd, hi]; exact ⟨_, _, rfl, by simp⟩
      | ok rs =>
        cases hn : mapExc (normalizePlan) rs with
        | error e => simp only [liftE, hd, hi, hn]; exact ⟨_, _, rfl, by simp⟩
        | ok ns =>
          cases hm : pyGetD body "meta" (.dict []) with
          | error e => simp only [liftE, hd, hi, hn, hm]; exact ⟨_, _, rfl, by simp⟩
          | ok meta =>
            cases hc : pyGetD meta "count" (.int ns.length) with
            | error e => simp only [liftE, hd, hi, hn, hm, hc]; exact ⟨_, _, rfl, by simp⟩
            | ok total =>
              simp only [liftE, hd, hi, hn, hm, hc, ES.pure]
              exact ⟨_, _, rfl, by simp⟩


lemma get_quantities_explicit_run (be : Backend) (t : String) (h : be.tok = .ok t)
    (a : GetQuantitiesArgs) (ty : String) (hty : a.quantity_type = some ty) (st : St) :
    ∃ v st', get_quantities be a st = (v, st') ∧
      st'.trace = st.trace ++ authTr st.token ++
        reqEntries be "GET" ("quantity/" ++ ty) (explicitQuantityParams a) := by
  unfold get_quantities wrapTool getQuantitiesBody
  simp only [hty, bind_def, ES.bind]
  rw [show quantityListParams a ++ [("page[limit]", PyVal.int (pyMinI a.limit 100)), ("page[offset]", PyVal.int a.offset)] = explicitQuantityParams a from rfl]
  rw [clientGet_run be ("quantity/" ++ ty) (explicitQuantityParams a) t h st]
  cases hout : httpOutcome be "GET" ("quantity/" ++ ty) (explicitQuantityParams a) with
  | error e => exact ⟨_, _, rfl, by simp⟩
  | ok body =>
    cases hd : pyGetD body "data" (.list []) with
    | error e => simp only [liftE, hd]; exact ⟨_, _, rfl, by simp⟩
    | ok d =>
      cases hi : pyIter d with
      | error e => simp only [liftE, hd, hi]; exact ⟨_, _, rfl, by simp⟩
      | ok rs =>
        cases hn : mapExc (normalizeQuantityQ) rs with
        | error e => simp only [liftE, hd, hi, hn]; exact ⟨_, _, rfl, by simp⟩
        | ok ns =>
          cases hm : pyGetD body "meta" (.dict []) with
          | error e => simp only [liftE, hd, hi, hn, hm]; exact ⟨_, _, rfl, by simp⟩
          | ok meta =>
            cases hc : pyGetD meta "count" (.int ns.length) with
            | error e => simp only [liftE, hd, hi, hn, hm, hc]; exact ⟨_, _, rfl, by simp⟩
            | ok total =>
              simp only [liftE, hd, hi, hn, hm, hc, ES.pure]
              exact ⟨_, _, rfl, by simp⟩

lemma get_terms_run (be : Backend) (t : String) (h : be.tok = .ok t)
    (a : GetTermsArgs) (st : St) :
    ∃ v st', get_terms be a st = (v, st') ∧
      st'.trace = st.trace ++ authTr st.token ++
        reqEntries be "GET" ("taxonomy_term/" ++ a.vocabulary) (termParams a) := by
  unfold get_terms wrapTool getTermsBody
  simp only [bind_def, ES.bind]
  rw [clientGet_run be ("taxonomy_term/" ++ a.vocabulary) (termParams a) t h st]
  cases hout : httpOutcome be "GET" ("taxonomy_term/" ++ a.vocabulary) (termParams a) with
  | error e => exact ⟨_, _, rfl, by simp⟩
  | ok body =>
    cases hd : pyGetD body "data" (.list []) with
    | error e => simp only [liftE, hd]; exact ⟨_, _, rfl, by simp⟩
    | ok d =>
      cases hi : pyIter d with
      | error e => simp only [liftE, hd, hi]; exact ⟨_, _, rfl, by simp⟩
      | ok rs =>
        cases hn : mapExc normalizeTerm rs with
        | error e => simp only [liftE, hd, hi, hn]; exact ⟨_, _, rfl, by simp⟩
        | ok ns =>
          cases hm : pyGetD body "meta" (.dict []) with
          | error e => simp only [liftE, hd, hi, hn, hm]; exact ⟨_, _, rfl, by simp⟩
          | ok meta =>
            cases hc : pyGetD meta "count" (.int ns.length) with
            | error e => simp only [liftE, hd, hi, hn, hm, hc]; exact ⟨_, _, rfl, by simp⟩
            | ok total =>
              simp only [liftE, hd, hi, hn, hm, hc, ES.pure]
              exact ⟨_, _, rfl, by simp⟩

lemma get_users_run (be : Backend) (t : String) (h : be.tok = .ok t)
    (a : GetUsersArgs) (st : St) :
    ∃ v st', get_users be a st = (v, st') ∧
      st'.trace = st.trace ++ authTr st.token ++
        reqEntries be "GET" "user/user" (userParams a) := by
  unfold get_users wrapTool getUsersBody
  simp only [bind_def, ES.bind]
  rw [clientGet_run be "user/user" (userParams a) t h st]
  cases hout : httpOutcome be "GET" "user/user" (userParams a) with
  | error e => exact ⟨_, _, rfl, by simp⟩
  | ok body =>
    cases hd : pyGetD body "data" (.list []) with
    | error e => simp only [liftE, hd]; exact ⟨_, _, rfl, by simp⟩
    | ok d =>
      cases hi : pyIter d with
      | error e => simp only [liftE, hd, hi]; exact ⟨_, _, rfl, by simp⟩
      | ok rs =>
        cases hn : mapExc normalizeUser rs with
        | error e => simp only [liftE, hd, hi, hn]; exact ⟨_, _, rfl, by simp⟩
        | ok ns =>
          cases hm : pyGetD body "meta" (.dict []) with
          | error e => simp only [liftE, hd, hi, hn, hm]; exact ⟨_, _, rfl, by simp⟩
          | ok meta =>
            cases hc : pyGetD meta "count" (.int ns.length) with
            | error e => simp only [liftE, hd, hi, hn, hm, hc]; exact ⟨_, _, rfl, by simp⟩
            | ok total =>
              simp only [liftE, hd, hi, hn, hm, hc, ES.pure]
              exact ⟨_, _, rfl, by simp⟩


/-- Claim C4: on a 401 first response the cached token is discarded,
exactly one re-authentication runs, and the request is reissued exactly
once; the retry's status decides the outcome with no further retry, and
a non-2xx first response other than 401 fails immediately with its
status and body after exactly one issuance. -/
theorem claim_C4_retry_once_on_401 (tr : Transport) (tok0 : Option String)
    (b : PyVal) (s2 : Nat) (b2 : PyVal) (t1 t2 : String)
    (htok0 : tr.tok 0 = .ok t1) (htok1 : tr.tok 1 = .ok t2) :
    (tr.resp 0 = .resp ⟨401, b⟩ → tr.resp 1 = .resp ⟨s2, b2⟩ →
      (clientRequest tr ⟨tok0, 0, 0⟩).2.nreq = 2 ∧
      (clientRequest tr ⟨tok0, 0, 0⟩).2.nfetch = (if tok0.isSome then 0 else 1) + 1 ∧
      (clientRequest tr ⟨tok0, 0, 0⟩).2.token =
        some (if tok0.isSome then t1 else t2) ∧
      (clientRequest tr ⟨tok0, 0, 0⟩).1 =
        (if 200 ≤ s2 ∧ s2 < 300 then Except.ok ⟨s2, b2⟩
         else Except.error (.httpStatusError s2 b2)))
  ∧ (∀ s1 b1, tr.resp 0 = .resp ⟨s1, b1⟩ → s1 ≠ 401 → ¬ (200 ≤ s1 ∧ s1 < 300) →
      (clientRequest tr ⟨tok0, 0, 0⟩).2.nreq = 1 ∧
      (clientRequest tr ⟨tok0, 0, 0⟩).1 = Except.error (.httpStatusError s1 b1)) := by
  constructor
  · intro h0 h1
    cases tok0 with
    | none =>
      simp [clientRequest, authHdrs, fetchTok, issueReq, raiseForStatus, htok0, htok1, h0, h1]
    | some tk =>
      simp [clientRequest, authHdrs, fetchTok, issueReq, raiseForStatus, htok0, htok1, h0, h1]
  · intro s1 b1 h0 hne h2xx
    cases tok0 with
    | none =>
      simp [clientRequest, authHdrs, fetchTok, issueReq, raiseForStatus, htok0, h0, hne, h2xx]
    | some tk =>
      simp [clientRequest, authHdrs, fetchTok, issueReq, raiseForStatus, htok0, h0, hne, h2xx]

/-- Witness for C4: a concrete transport answering 401 then 200, and one
answering 500; the state and outcomes evaluate as the theorem states. -/
theorem claim_C4_retry_once_on_401_witness :
    ((fun (tr : Transport) =>
      (clientRequest tr ⟨Option.none, 0, 0⟩).2.nreq = 2 ∧
      (clientRequest tr ⟨Option.none, 0, 0⟩).2.nfetch = (if (Option.none : Option String).isSome then 0 else 1) + 1 ∧
      (clientRequest tr ⟨Option.none, 0, 0⟩).2.token =
        some (if (Option.none : Option String).isSome then "T1" else "T2") ∧
      (clientRequest tr ⟨Option.none, 0, 0⟩).1 =
        (if 200 ≤ 200 ∧ 200 < 300 then Except.ok ⟨200, PyVal.str "ok"⟩
         else Except.error (.httpStatusError 200 (PyVal.str "ok"))))
      ⟨fun n => if n = 0 then .resp ⟨401, .str "denied"⟩ else .resp ⟨200, .str "ok"⟩,
       fun n => if n = 0 then .ok "T1" else .ok "T2"⟩) := by
  exact (claim_C4_retry_once_on_401
    ⟨fun n => if n = 0 then .resp ⟨401, .str "denied"⟩ else .resp ⟨200, .str "ok"⟩,
     fun n => if n = 0 then .ok "T1" else .ok "T2"⟩
    Option.none (.str "denied") 200 (.str "ok") "T1" "T2" rfl rfl).1 rfl rfl


lemma lookup_ne_nil {kvs : PyDict} {k : String} {v : PyVal}
    (h : kvs.lookup k = some v) : kvs.isEmpty = false := by
  cases kvs with
  | nil => simp [List.lookup] at h
  | cons p rest => simp [List.isEmpty]

/-- Counterexample to claim C5 as stated: `_parse_qty_value` does raise
on some inputs — a truthy non-dict value (here the bare string "5")
raises `AttributeError` from `.get`, so the result is an exception, not
a number or null. -/
theorem claim_C5_counterexample :
    parseQtyValue (PyVal.str "5")
      = .error (.attributeError "object has no attribute 'get' (key decimal)") := rfl

/-- Claim C5 (amended): falsy values and dicts normalize without raising:
a parseable decimal string yields its value, otherwise an integer
numerator with nonzero integer denominator yields their exact quotient
(characterized by `q * den = num`), otherwise null; truthy non-dict
inputs raise `AttributeError` (see the counterexample) and
non-`int()`-convertible fraction operands raise `TypeError`. -/
theorem claim_C5_qty_value_amended :
    (∀ v, truthy v = false → parseQtyValue v = .ok Option.none)
  ∧ (∀ (kvs : PyDict) (s : String) (q : Rat), kvs.lookup "decimal" = some (.str s) →
      pyFloatOfStr s = some q → parseQtyValue (.dict kvs) = .ok (some q))
  ∧ (∀ (kvs : PyDict) (num den : Int), kvs.lookup "decimal" = Option.none →
      kvs.lookup "numerator" = some (.int num) → kvs.lookup "denominator" = some (.int den) →
      den ≠ 0 → ∃ q : Rat, parseQtyValue (.dict kvs) = .ok (some q) ∧
        q * (den : Rat) = (num : Rat))
  ∧ (∀ (kvs : PyDict), kvs.lookup "decimal" = Option.none →
      kvs.lookup "numerator" = Option.none → parseQtyValue (.dict kvs) = .ok Option.none)
  ∧ (parseQtyValue (.dict [("numerator", .list [.int 1]), ("denominator", .int 2)])
      = .error (.typeError "int() argument must be a string or a number")) := by
  refine ⟨?_, ?_, ?_, ?_, ?_⟩
  · intro v hv
    unfold parseQtyValue
    rw [hv]
    simp
  · intro kvs s q hdec hq
    have hne := lookup_ne_nil hdec
    unfold parseQtyValue
    simp [truthy, hne, pyGet, pyGetD, pySub, hdec, isNone, pyFloat, hq]
  · intro kvs num den hdec hnum hden hdz
    refine ⟨mkRat (if den < 0 then -num else num) den.natAbs, ?_, ?_⟩
    · have hne := lookup_ne_nil hnum
      unfold parseQtyValue
      simp [truthy, hne, pyGet, pyGetD, pySub, hdec, hnum, hden, isNone, pyInt,
        pyDivInt, hdz]
    · rw [Rat.mkRat_eq_div]
      have hden0 : (den : Rat) ≠ 0 := Int.cast_ne_zero.mpr hdz
      rcases lt_trichotomy den 0 with hlt | heq | hgt
      · rw [if_pos hlt]
        have habs : ((den.natAbs : Nat) : Rat) = -(den : Rat) := by
          rw [Int.cast_natAbs, abs_of_neg hlt]
          push_cast
          ring
        rw [habs]
        push_cast
        field_simp
      · exact absurd heq hdz
      · rw [if_neg (by omega)]
        have habs : ((den.natAbs : Nat) : Rat) = (den : Rat) := by
          rw [Int.cast_natAbs, abs_of_pos hgt]
        rw [habs]
        field_simp
  · intro kvs hdec hnum
    unfold parseQtyValue
    by_cases ht : truthy (.dict kvs) = false
    · rw [ht]
      simp
    · have ht2 : truthy (.dict kvs) = true := by
        cases h2 : truthy (.dict kvs) with
        | false => exact absurd h2 ht
        | true => rfl
      simp [ht2, pyGet, pyGetD, hdec, hnum, isNone]
  · rfl

/-- Witness for C5: concrete evaluations of each amended conjunct — a
falsy input, a decimal-string dict, an exact fraction, and a dict with
neither form. -/
theorem claim_C5_qty_value_amended_witness :
    parseQtyValue (PyVal.int 0) = .ok Option.none
  ∧ parseQtyValue (.dict [("decimal", .str "12.5")]) = .ok (some (mkRat 25 2))
  ∧ (∃ q : Rat, parseQtyValue (.dict [("numerator", .int 5), ("denominator", .int 2)])
      = .ok (some q) ∧ q * ((2 : Int) : Rat) = ((5 : Int) : Rat))
  ∧ parseQtyValue (.dict [("label", .str "x")]) = .ok Option.none := by
  refine ⟨?_, ?_, ?_, ?_⟩
  · exact claim_C5_qty_value_amended.1 (PyVal.int 0) rfl
  · exact claim_C5_qty_value_amended.2.1 [("decimal", .str "12.5")] "12.5" (mkRat 25 2) rfl rfl
  · exact claim_C5_qty_value_amended.2.2.1 [("numerator", .int 5), ("denominator", .int 2)]
      5 2 rfl rfl rfl (by decide)
  · exact claim_C5_qty_value_amended.2.2.2.1 [("label", .str "x")] rfl rfl

/-- Claim C10: the process is read-only by default and fails closed —
`is_read_only` is off exactly when the stripped, lowercased environment
value is `"false"`; whenever it is on (including unset, `"0"`, `"no"`
and garbage values) the registered tools are exactly the ten read tools
and no write tool is registered. -/
theorem claim_C10_read_only_default (env : Option String) :
    (is_read_only env = false ↔ pyLower (pyStrip (env.getD "true")) = "false")
  ∧ (is_read_only env = true →
      registeredTools env = READ_TOOL_NAMES ∧
      ∀ w ∈ WRITE_TOOL_NAMES, w ∉ registeredTools env)
  ∧ is_read_only Option.none = true
  ∧ is_read_only (some "0") = true
  ∧ is_read_only (some "no") = true
  ∧ is_read_only (some "garbage") = true := by
  refine ⟨?_, ?_, by decide, by decide, by decide, by decide⟩
  · simp [is_read_only]
  · intro h
    constructor
    · simp [registeredTools, h]
    · intro w hw
      simp only [registeredTools, h, if_pos, List.append_nil]
      simp only [WRITE_TOOL_NAMES, List.mem_cons, List.not_mem_nil, or_false] at hw
      rcases hw with rfl | rfl | rfl | rfl | rfl | rfl | rfl | rfl <;> decide

/-- Witness for C10: with the environment set to `" True "` the gate is
on, only the read tools are registered and `create_log` is absent; with
`"false"` the gate is off. -/
theorem claim_C10_read_only_default_witness :
    is_read_only (some " True ") = true
  ∧ registeredTools (some " True ") = READ_TOOL_NAMES
  ∧ "create_log" ∉ registeredTools (some " True ")
  ∧ is_read_only (some "false") = false := by
  have h := claim_C10_read_only_default (some " True ")
  have hro : is_read_only (some " True ") = true := by decide
  exact ⟨hro, (h.2.1 hro).1, (h.2.1 hro).2 "create_log" (by decide),
    (claim_C10_read_only_default (some "false")).1.mpr (by decide)⟩

/-- Claim C1: every tool entrypoint wraps its body uniformly — whenever
the body raises any exception, the registered tool returns the
`{"error": message}` object instead of propagating it, and whenever the
body succeeds its value is returned unchanged; this holds for all
eighteen tools, all inputs and all backends. -/
theorem claim_C1_uniform_error_boundary (be : Backend) (c : ToolCall) (st : St) :
    (∀ e st', toolBody be c st = (.error e, st') →
      runTool be c st = (.dict [("error", .str (msgOf e))], st'))
  ∧ (∀ v st', toolBody be c st = (.ok v, st') → runTool be c st = (v, st')) := by
  have hrw : runTool be c = wrapTool (toolBody be c) := by cases c <;> rfl
  constructor
  · intro e st' h
    rw [hrw]
    simp [wrapTool, h]
  · intro v st' h
    rw [hrw]
    simp [wrapTool, h]

/-- Witness for C1: against a backend with failing credentials,
`get_users` returns the error object carrying the raised message. -/
theorem claim_C1_uniform_error_boundary_witness :
    runTool ⟨fun _ _ _ => .err "boom", .error "no credentials", 0, 0⟩
        (.getUsers ⟨Option.none, 50, 0⟩) ⟨Option.none, []⟩
      = (.dict [("error", .str "no credentials")], ⟨Option.none, [.token]⟩) := by
  exact (claim_C1_uniform_error_boundary ⟨fun _ _ _ => .err "boom", .error "no credentials", 0, 0⟩
    (.getUsers ⟨Option.none, 50, 0⟩) ⟨Option.none, []⟩).1
    (.runtimeError "no credentials") ⟨Option.none, [.token]⟩ rfl

lemma nok_throwE {α : Type} (e : PyExc) : neverOk (throwE e : ES α) := fun _ => rfl

lemma nok_bind_left {α β : Type} (f : α → ES β) {x : ES α} (h : neverOk x) :
    neverOk (ES.bind x f) := by
  intro st
  have hx := h st
  unfold ES.bind
  rcases hxs : x st with ⟨r, st2⟩
  rw [hxs] at hx
  cases r with
  | ok a => exact Bool.noConfusion hx
  | error e => rfl

lemma nok_bind_right {α β : Type} (x : ES α) {f : α → ES β} (h : ∀ a, neverOk (f a)) :
    neverOk (ES.bind x f) := by
  intro st
  unfold ES.bind
  rcases hxs : x st with ⟨r, st2⟩
  cases r with
  | ok a => exact h a st2
  | error e => rfl

lemma nok_clientPost (be : Backend) (p : String) (v : PyVal) :
    neverOk (clientPost be p v) := by
  unfold clientPost
  simp only [bind_def]
  exact nok_bind_right _ (fun _ => nok_throwE _)

lemma nok_clientPatch (be : Backend) (p : String) (v : PyVal) :
    neverOk (clientPatch be p v) := by
  unfold clientPatch
  simp only [bind_def]
  exact nok_bind_right _ (fun _ => nok_throwE _)

set_option maxRecDepth 16000 in
set_option maxHeartbeats 2000000 in
lemma nok_createLogBody (be : Backend) (a : CreateLogArgs) : neverOk (createLogBody be a) := by
  unfold createLogBody
  simp only [bind_def]
  repeat
    first
      | exact nok_bind_left _ (nok_clientPost _ _ _)
      | refine nok_bind_right _ (fun x => ?_)
      | split

set_option maxRecDepth 16000 in
set_option maxHeartbeats 2000000 in
lemma nok_updateLogBody (be : Backend) (a : UpdateLogArgs) : neverOk (updateLogBody be a) := by
  unfold updateLogBody
  simp only [bind_def]
  repeat
    first
      | exact nok_bind_left _ (nok_clientPatch _ _ _)
      | refine nok_bind_right _ (fun x => ?_)
      | split

set_option maxRecDepth 16000 in
set_option maxHeartbeats 2000000 in
lemma nok_createAssetBody (be : Backend) (a : CreateAssetArgs) :
    neverOk (createAssetBody be a) := by
  unfold createAssetBody
  simp only [bind_def]
  repeat
    first
      | exact nok_bind_left _ (nok_clientPost _ _ _)
      | refine nok_bind_right _ (fun x => ?_)
      | split

set_option maxRecDepth 16000 in
set_option maxHeartbeats 2000000 in
lemma nok_updateAssetBody (be : Backend) (a : UpdateAssetArgs) :
    neverOk (updateAssetBody be a) := by
  unfold updateAssetBody
  simp only [bind_def]
  repeat
    first
      | exact nok_bind_left _ (nok_clientPatch _ _ _)
      | refine nok_bind_right _ (fun x => ?_)
      | split

lemma nok_createTermBody (be : Backend) (a : CreateTermArgs) :
    neverOk (createTermBody be a) := by
  unfold createTermBody
  simp only [bind_def]
  exact nok_bind_left _ (nok_clientPost _ _ _)

lemma nok_updateTermBody (be : Backend) (a : UpdateTermArgs) :
    neverOk (updateTermBody be a) := by
  unfold updateTermBody
  simp only [bind_def]
  exact nok_bind_left _ (nok_clientPatch _ _ _)

lemma nok_createPlanBody (be : Backend) (a : CreatePlanArgs) :
    neverOk (createPlanBody be a) := by
  unfold createPlanBody
  simp only [bind_def]
  exact nok_bind_left _ (nok_clientPost _ _ _)

lemma nok_updatePlanBody (be : Backend) (a : UpdatePlanArgs) :
    neverOk (updatePlanBody be a) := by
  unfold updatePlanBody
  simp only [bind_def]
  exact nok_bind_left _ (nok_clientPatch _ _ _)

lemma mem_tok_append {tr : List ReqEntry} {e : ReqEntry}
    (h : e ∈ tr ++ [ReqEntry.token]) : e ∈ tr ∨ isWriteEntry e = false := by
  rcases List.mem_append.mp h with h2 | h2
  · exact Or.inl h2
  · right
    rw [List.mem_singleton.mp h2]
    rfl

lemma mem_get_append {tr : List ReqEntry} {e : ReqEntry} {p : String} {ps : PyDict}
    (h : e ∈ tr ++ [ReqEntry.api "GET" p ps]) : e ∈ tr ∨ isWriteEntry e = false := by
  rcases List.mem_append.mp h with h2 | h2
  · exact Or.inl h2
  · right
    rw [List.mem_singleton.mp h2]
    rfl

lemma nw_pure {α : Type} (a : α) : noWrites (ES.pure a) := fun _ _ he => Or.inl he

lemma nw_liftE {α : Type} (r : Except PyExc α) : noWrites (liftE r) := fun _ _ he => Or.inl he

lemma nw_throwE {α : Type} (e : PyExc) : noWrites (throwE e : ES α) := fun _ _ he => Or.inl he

lemma nw_clearTok : noWrites clearTok := fun _ _ he => Or.inl he

lemma nw_bind {α β : Type} {x : ES α} {f : α → ES β}
    (hx : noWrites x) (hf : ∀ a, noWrites (f a)) : noWrites (ES.bind x f) := by
  intro st e he
  unfold ES.bind at he
  rcases hxs : x st with ⟨r, st2⟩
  rw [hxs] at he
  cases r with
  | ok a =>
    rcases hf a st2 e he with h | h
    · exact hx st e (by rw [hxs]; exact h)
    · exact Or.inr h
  | error e2 => exact hx st e (by rw [hxs]; exact he)

lemma nw_attempt {α : Type} {x : ES α} (h : noWrites x) : noWrites (ES.attempt x) := by
  intro st e he
  unfold ES.attempt at he
  rcases hxs : x st with ⟨r, st2⟩
  rw [hxs] at he
  cases r with
  | ok a => exact h st e (by rw [hxs]; exact he)
  | error e2 => exact h st e (by rw [hxs]; exact he)

lemma nw_authES (be : Backend) : noWrites (authES be) := by
  intro st e he
  unfold authES at he
  split at he
  · exact Or.inl he
  · split at he
    · exact mem_tok_append he
    · exact mem_tok_append he

lemma nw_issueES_get (be : Backend) (p : String) (ps : PyDict) :
    noWrites (issueES be "GET" p ps) := by
  intro st e he
  unfold issueES at he
  split at he
  · exact mem_get_append he
  · exact mem_get_append he

set_option maxRecDepth 16000 in
set_option maxHeartbeats 2000000 in
lemma nw_requestES_get (be : Backend) (p : String) (ps : PyDict) :
    noWrites (requestES be "GET" p ps) := by
  unfold requestES
  simp only [bind_def]
  repeat
    first
      | exact nw_authES be
      | exact nw_issueES_get be p ps
      | exact nw_clearTok
      | exact nw_liftE _
      | refine nw_bind ?_ (fun x => ?_)
      | split

lemma nw_clientGet (be : Backend) (p : String) (ps : PyDict) :
    noWrites (clientGet be p ps) := by
  unfold clientGet
  simp only [bind_def]
  exact nw_bind (nw_requestES_get be p ps) (fun r => nw_pure _)

lemma nw_clientPost (be : Backend) (p : String) (v : PyVal) :
    noWrites (clientPost be p v) := by
  unfold clientPost
  simp only [bind_def]
  exact nw_bind (nw_authES be) (fun u => nw_throwE _)

lemma nw_clientPatch (be : Backend) (p : String) (v : PyVal) :
    noWrites (clientPatch be p v) := by
  unfold clientPatch
  simp only [bind_def]
  exact nw_bind (nw_authES be) (fun u => nw_throwE _)

set_option maxRecDepth 16000 in
set_option maxHeartbeats 2000000 in
lemma nw_lookupAssetTypeLoop (be : Backend) (aid : String) :
    ∀ ts, noWrites (lookupAssetTypeLoop be aid ts) := by
  intro ts
  induction ts with
  | nil => exact nw_throwE _
  | cons t ts ih =>
    simp only [lookupAssetTypeLoop, bind_def]
    repeat
      first
        | exact ih
        | exact nw_pure _
        | exact nw_liftE _
        | exact nw_clientGet _ _ _
        | refine nw_attempt ?_
        | refine nw_bind ?_ (fun x => ?_)
        | split

set_option maxRecDepth 16000 in
set_option maxHeartbeats 2000000 in
lemma nw_buildAssetRels (be : Backend) : ∀ ids, noWrites (buildAssetRels be ids) := by
  intro ids
  induction ids with
  | nil => exact nw_pure _
  | cons aid rest ih =>
    simp only [buildAssetRels, bind_def]
    repeat
      first
        | exact ih
        | exact nw_pure _
        | exact nw_lookupAssetTypeLoop be aid _
        | refine nw_bind ?_ (fun x => ?_)
        | split

set_option maxRecDepth 16000 in
set_option maxHeartbeats 2000000 in
lemma nw_createQuantityFn (be : Backend) (qty : PyVal) : noWrites (createQuantityFn be qty) := by
  unfold createQuantityFn
  simp only [bind_def]
  repeat
    first
      | exact nw_pure _
      | exact nw_liftE _
      | exact nw_clientPost _ _ _
      | exact nw_clientGet _ _ _
      | refine nw_attempt ?_
      | refine nw_bind ?_ (fun x => ?_)
      | split

set_option maxRecDepth 16000 in
set_option maxHeartbeats 2000000 in
lemma nw_buildQtyRels (be : Backend) : ∀ qs, noWrites (buildQtyRels be qs) := by
  intro qs
  induction qs with
  | nil => exact nw_pure _
  | cons qty rest ih =>
    simp only [buildQtyRels, bind_def]
    repeat
      first
        | exact ih
        | exact nw_pure _
        | exact nw_liftE _
        | exact nw_createQuantityFn be qty
        | refine nw_bind ?_ (fun x => ?_)
        | split

set_option maxRecDepth 16000 in
set_option maxHeartbeats 2000000 in
lemma nw_fetchLogLoop (be : Backend) (lt id : String) :
    ∀ is, noWrites (fetchLogLoop be lt id is) := by
  intro is
  induction is with
  | nil => exact nw_throwE _
  | cons i is ih =>
    simp only [fetchLogLoop, bind_def]
    repeat
      first
        | exact ih
        | exact nw_pure _
        | exact nw_liftE _
        | exact nw_throwE _
        | exact nw_clientGet _ _ _
        | refine nw_attempt ?_
        | refine nw_bind ?_ (fun x => ?_)
        | split

set_option maxRecDepth 16000 in
set_option maxHeartbeats 2000000 in
lemma nw_resolveParentOne (be : Backend) (pid : String) :
    ∀ ts, noWrites (resolveParentOne be pid ts) := by
  intro ts
  induction ts with
  | nil => exact nw_pure _
  | cons t ts ih =>
    simp only [resolveParentOne, bind_def]
    repeat
      first
        | exact ih
        | exact nw_pure _
        | exact nw_liftE _
        | exact nw_clientGet _ _ _
        | refine nw_attempt ?_
        | refine nw_bind ?_ (fun x => ?_)
        | split

set_option maxRecDepth 16000 in
set_option maxHeartbeats 2000000 in
lemma nw_resolveParentRels (be : Backend) : ∀ ids, noWrites (resolveParentRels be ids) := by
  intro ids
  induction ids with
  | nil => exact nw_pure _
  | cons pid rest ih =>
    simp only [resolveParentRels, bind_def]
    repeat
      first
        | exact ih
        | exact nw_pure _
        | exact nw_resolveParentOne be pid _
        | refine nw_bind ?_ (fun x => ?_)
        | split

set_option maxRecDepth 16000 in
set_option maxHeartbeats 2000000 in
lemma nw_createLogBody (be : Backend) (a : CreateLogArgs) : noWrites (createLogBody be a) := by
  unfold createLogBody
  simp only [bind_def]
  repeat
    first
      | exact nw_pure _
      | exact nw_liftE _
      | exact nw_clientPost _ _ _
      | exact nw_buildAssetRels be _
      | exact nw_buildQtyRels be _
      | exact nw_fetchLogLoop be _ _ _
      | refine nw_bind ?_ (fun x => ?_)
      | split

set_option maxRecDepth 16000 in
set_option maxHeartbeats 2000000 in
lemma nw_updateLogBody (be : Backend) (a : UpdateLogArgs) : noWrites (updateLogBody be a) := by
  unfold updateLogBody
  simp only [bind_def]
  repeat
    first
      | exact nw_pure _
      | exact nw_liftE _
      | exact nw_clientPatch _ _ _
      | exact nw_buildAssetRels be _
      | exact nw_buildQtyRels be _
      | exact nw_fetchLogLoop be _ _ _
      | refine nw_bind ?_ (fun x => ?_)
      | split

set_option maxRecDepth 16000 in
set_option maxHeartbeats 2000000 in
lemma nw_createAssetBody (be : Backend) (a : CreateAssetArgs) :
    noWrites (createAssetBody be a) := by
  unfold createAssetBody
  simp only [bind_def]
  repeat
    first
      | exact nw_pure _
      | exact nw_liftE _
      | exact nw_clientPost _ _ _
      | exact nw_resolveParentRels be _
      | refine nw_bind ?_ (fun x => ?_)
      | split

set_option maxRecDepth 16000 in
set_option maxHeartbeats 2000000 in
lemma nw_updateAssetBody (be : Backend) (a : UpdateAssetArgs) :
    noWrites (updateAssetBody be a) := by
  unfold updateAssetBody
  simp only [bind_def]
  repeat
    first
      | exact nw_pure _
      | exact nw_liftE _
      | exact nw_clientPatch _ _ _
      | exact nw_resolveParentRels be _
      | refine nw_bind ?_ (fun x => ?_)
      | split

lemma nw_createTermBody (be : Backend) (a : CreateTermArgs) :
    noWrites (createTermBody be a) := by
  unfold createTermBody
  simp only [bind_def]
  refine nw_bind (nw_clientPost _ _ _) (fun result => ?_)
  refine nw_bind (nw_liftE _) (fun data => ?_)
  exact nw_bind (nw_liftE _) (fun n => nw_pure _)

lemma nw_updateTermBody (be : Backend) (a : UpdateTermArgs) :
    noWrites (updateTermBody be a) := by
  unfold updateTermBody
  simp only [bind_def]
  refine nw_bind (nw_clientPatch _ _ _) (fun result => ?_)
  refine nw_bind (nw_liftE _) (fun data => ?_)
  exact nw_bind (nw_liftE _) (fun n => nw_pure _)

lemma nw_createPlanBody (be : Backend) (a : CreatePlanArgs) :
    noWrites (createPlanBody be a) := by
  unfold createPlanBody
  simp only [bind_def]
  refine nw_bind (nw_clientPost _ _ _) (fun result => ?_)
  refine nw_bind (nw_liftE _) (fun data => ?_)
  exact nw_bind (nw_liftE _) (fun n => nw_pure _)

lemma nw_updatePlanBody (be : Backend) (a : UpdatePlanArgs) :
    noWrites (updatePlanBody be a) := by
  unfold updatePlanBody
  simp only [bind_def]
  refine nw_bind (nw_clientPatch _ _ _) (fun result => ?_)
  refine nw_bind (nw_liftE _) (fun data => ?_)
  exact nw_bind (nw_liftE _) (fun n => nw_pure _)

/-- Claim C7: every invocation of every write tool returns an `error`
object and never sends a POST or PATCH to the backend — `post`/`patch`
forward a duplicate `headers` keyword into the HTTP call, raising
`TypeError` before any write traffic, for all inputs and backend
states. -/
theorem claim_C7_write_tools_never_write (be : Backend) (c : ToolCall)
    (h : isWriteCall c = true) (st : St) :
    (∃ m, (runTool be c st).1 = .dict [("error", .str m)])
  ∧ (∀ e ∈ (runTool be c st).2.trace, e ∈ st.trace ∨ isWriteEntry e = false) := by
  have hrw : runTool be c = wrapTool (toolBody be c) := by cases c <;> rfl
  have hnok : neverOk (toolBody be c) := by
    cases c with
    | createLog a => exact nok_createLogBody be a
    | updateLog a => exact nok_updateLogBody be a
    | createAsset a => exact nok_createAssetBody be a
    | updateAsset a => exact nok_updateAssetBody be a
    | createTerm a => exact nok_createTermBody be a
    | updateTerm a => exact nok_updateTermBody be a
    | createPlan a => exact nok_createPlanBody be a
    | updatePlan a => exact nok_updatePlanBody be a
    | getLogs a => simp [isWriteCall] at h
    | getLog id lt => simp [isWriteCall] at h
    | getAssets a => simp [isWriteCall] at h
    | getAsset id at0 => simp [isWriteCall] at h
    | getTerms a => simp [isWriteCall] at h
    | getPlans a => simp [isWriteCall] at h
    | getPlan id pt => simp [isWriteCall] at h
    | getUsers a => simp [isWriteCall] at h
    | getFarmInfo => simp [isWriteCall] at h
    | getQuantities a => simp [isWriteCall] at h
  have hnw : noWrites (toolBody be c) := by
    cases c with
    | createLog a => exact nw_createLogBody be a
    | updateLog a => exact nw_updateLogBody be a
    | createAsset a => exact nw_createAssetBody be a
    | updateAsset a => exact nw_updateAssetBody be a
    | createTerm a => exact nw_createTermBody be a
    | updateTerm a => exact nw_updateTermBody be a
    | createPlan a => exact nw_createPlanBody be a
    | updatePlan a => exact nw_updatePlanBody be a
    | getLogs a => simp [isWriteCall] at h
    | getLog id lt => simp [isWriteCall] at h
    | getAssets a => simp [isWriteCall] at h
    | getAsset id at0 => simp [isWriteCall] at h
    | getTerms a => simp [isWriteCall] at h
    | getPlans a => simp [isWriteCall] at h
    | getPlan id pt => simp [isWriteCall] at h
    | getUsers a => simp [isWriteCall] at h
    | getFarmInfo => simp [isWriteCall] at h
    | getQuantities a => simp [isWriteCall] at h
  rcases hcase : toolBody be c st with ⟨r, st2⟩
  cases r with
  | ok v =>
    have hno := hnok st
    rw [hcase] at hno
    exact Bool.noConfusion hno
  | error ex =>
    constructor
    · refine ⟨msgOf ex, ?_⟩
      rw [hrw]
      simp [wrapTool, hcase]
    · intro en hen
      rw [hrw] at hen
      simp only [wrapTool, hcase] at hen
      exact hnw st en (by rw [hcase]; exact hen)

/-- Witness for C7: a concrete `create_term` call against a healthy
backend fails and leaves only the token fetch in the trace. -/
theorem claim_C7_write_tools_never_write_witness :
    (∃ m, (runTool ⟨fun _ _ _ => .resp ⟨200, .dict []⟩, .ok "T", 0, 0⟩
        (.createTerm ⟨"plant_type", "Basil", Option.none⟩) ⟨Option.none, []⟩).1
      = .dict [("error", .str m)])
  ∧ (∀ e ∈ (runTool ⟨fun _ _ _ => .resp ⟨200, .dict []⟩, .ok "T", 0, 0⟩
        (.createTerm ⟨"plant_type", "Basil", Option.none⟩) ⟨Option.none, []⟩).2.trace,
      e ∈ (⟨Option.none, []⟩ : St).trace ∨ isWriteEntry e = false) :=
  claim_C7_write_tools_never_write ⟨fun _ _ _ => .resp ⟨200, .dict []⟩, .ok "T", 0, 0⟩
    (.createTerm ⟨"plant_type", "Basil", Option.none⟩) rfl ⟨Option.none, []⟩

lemma lookup_cons_ne {k2 k : String} {v : PyVal} {rest : PyDict} (h : (k == k2) = false) :
    (((k2, v) :: rest).lookup k) = rest.lookup k := by
  simp [List.lookup, h]

lemma lookup_append_of_none (l1 l2 : PyDict) (k : String)
    (h1 : l1.lookup k = Option.none) :
    ((l1 ++ l2).lookup k) = l2.lookup k := by
  induction l1 with
  | nil => rfl
  | cons p rest ih =>
    rcases p with ⟨k2, v⟩
    cases hbe : k == k2
    · rw [List.cons_append, lookup_cons_ne hbe]
      rw [lookup_cons_ne hbe] at h1
      exact ih h1
    · simp [List.lookup, hbe] at h1

lemma lookup_none_append (l1 l2 : PyDict) (k : String)
    (h1 : l1.lookup k = Option.none) (h2 : l2.lookup k = Option.none) :
    ((l1 ++ l2).lookup k) = Option.none := by
  rw [lookup_append_of_none l1 l2 k h1]
  exact h2

lemma lookup_offset_logListParams (a : GetLogsArgs) :
    ((logListParams a).lookup "page[offset]") = Option.none := by
  unfold logListParams buildDateParams
  repeat' split
  all_goals simp [List.lookup]

lemma lookup_offset_assetListParams (a : GetAssetsArgs) :
    ((assetListParams a).lookup "page[offset]") = Option.none := by
  unfold assetListParams
  repeat' split
  all_goals simp [List.lookup]

lemma lookup_offset_planListParams (a : GetPlansArgs) :
    ((planListParams a).lookup "page[offset]") = Option.none := by
  unfold planListParams
  repeat' split
  all_goals simp [List.lookup]

lemma lookup_offset_quantityListParams (a : GetQuantitiesArgs) :
    ((quantityListParams a).lookup "page[offset]") = Option.none := by
  unfold quantityListParams
  repeat' split
  all_goals simp [List.lookup]

lemma lookup_offset_mergedLogParams (a : GetLogsArgs) :
    ((mergedLogParams a).lookup "page[offset]") = Option.none := by
  unfold mergedLogParams
  exact lookup_none_append _ _ _ (lookup_offset_logListParams a) (by simp [List.lookup])

lemma lookup_offset_mergedAssetParams (a : GetAssetsArgs) :
    ((mergedAssetParams a).lookup "page[offset]") = Option.none := by
  unfold mergedAssetParams
  exact lookup_none_append _ _ _ (lookup_offset_assetListParams a) (by simp [List.lookup])

lemma lookup_offset_mergedQuantityParams (a : GetQuantitiesArgs) :
    ((mergedQuantityParams a).lookup "page[offset]") = Option.none := by
  unfold mergedQuantityParams
  exact lookup_none_append _ _ _ (lookup_offset_quantityListParams a) (by simp [List.lookup])

lemma lookup_offset_explicitLogParams (a : GetLogsArgs) :
    ((explicitLogParams a).lookup "page[offset]") = some (.int a.offset) := by
  unfold explicitLogParams
  rw [lookup_append_of_none _ _ _ (lookup_offset_logListParams a)]
  simp [List.lookup]

lemma lookup_offset_explicitAssetParams (a : GetAssetsArgs) :
    ((explicitAssetParams a).lookup "page[offset]") = some (.int a.offset) := by
  unfold explicitAssetParams
  rw [lookup_append_of_none _ _ _ (lookup_offset_assetListParams a)]
  simp [List.lookup]

lemma lookup_offset_explicitPlanParams (a : GetPlansArgs) :
    ((explicitPlanParams a).lookup "page[offset]") = some (.int a.offset) := by
  unfold explicitPlanParams
  rw [lookup_append_of_none _ _ _ (lookup_offset_planListParams a)]
  simp [List.lookup]

lemma lookup_offset_explicitQuantityParams (a : GetQuantitiesArgs) :
    ((explicitQuantityParams a).lookup "page[offset]") = some (.int a.offset) := by
  unfold explicitQuantityParams
  rw [lookup_append_of_none _ _ _ (lookup_offset_quantityListParams a)]
  simp [List.lookup]

lemma mem_reqEntries {be : Backend} {m p : String} {ps : PyDict} {e : ReqEntry}
    (h : e ∈ reqEntries be m p ps) : e = .api m p ps ∨ e = .token := by
  unfold reqEntries at h
  split at h
  · simp at h
    exact Or.inl h
  · split at h
    · simp at h
      rcases h with h | h | h
      · exact Or.inl h
      · exact Or.inr h
      · exact Or.inl h
    · simp at h
      exact Or.inl h

lemma mem_concatMap {α β : Type} (f : α → List β) :
    ∀ (l : List α) (z : β), z ∈ concatMap f l → ∃ x, x ∈ l ∧ z ∈ f x := by
  intro l
  induction l with
  | nil =>
    intro z hz
    simp [concatMap] at hz
  | cons x xs ih =>
    intro z hz
    unfold concatMap at hz
    rcases List.mem_append.mp hz with h | h
    · exact ⟨x, by simp, h⟩
    · obtain ⟨y, hy, hz2⟩ := ih z h
      exact ⟨y, by simp [hy], hz2⟩

/-- Claim C9: a `page[offset]` query parameter reaches the backend exactly
when an explicit sub-type is given — merged fan-out requests carry no
offset (and the merged parameters ignore the caller's offset entirely),
while explicit-sub-type requests carry `page[offset] = offset`. -/
theorem claim_C9_offset_only_with_subtype (be : Backend) (t : String)
    (htok : be.tok = .ok t) (st : St) (tk : String) (hst : st.token = some tk) :
    ((∀ a : GetLogsArgs, a.log_type = Option.none →
        ∀ e ∈ (get_logs be a st).2.trace, e ∈ st.trace ∨ hasOffsetParam e = false)
   ∧ (∀ a : GetAssetsArgs, a.asset_type = Option.none →
        ∀ e ∈ (get_assets be a st).2.trace, e ∈ st.trace ∨ hasOffsetParam e = false)
   ∧ (∀ a : GetQuantitiesArgs, a.quantity_type = Option.none →
        ∀ e ∈ (get_quantities be a st).2.trace, e ∈ st.trace ∨ hasOffsetParam e = false)
   ∧ (∀ a : GetPlansArgs, a.plan_type = Option.none → (get_plans be a st).2.trace = st.trace)
   ∧ (∀ (a : GetLogsArgs) (o : Int), mergedLogParams { a with offset := o } = mergedLogParams a)
   ∧ (∀ (a : GetAssetsArgs) (o : Int),
        mergedAssetParams { a with offset := o } = mergedAssetParams a)
   ∧ (∀ (a : GetQuantitiesArgs) (o : Int),
        mergedQuantityParams { a with offset := o } = mergedQuantityParams a))
  ∧ ((∀ (a : GetLogsArgs) (ty : String), a.log_type = some ty →
        ((explicitLogParams a).lookup "page[offset]") = some (.int a.offset) ∧
        ∃ v st', get_logs be a st = (v, st') ∧
          st'.trace = st.trace ++ authTr st.token ++
            reqEntries be "GET" ("log/" ++ ty) (explicitLogParams a))
   ∧ (∀ (a : GetAssetsArgs) (ty : String), a.asset_type = some ty →
        ((explicitAssetParams a).lookup "page[offset]") = some (.int a.offset) ∧
        ∃ v st', get_assets be a st = (v, st') ∧
          st'.trace = st.trace ++ authTr st.token ++
            reqEntries be "GET" ("asset/" ++ ty) (explicitAssetParams a))
   ∧ (∀ (a : GetPlansArgs) (ty : String), a.plan_type = some ty →
        ((explicitPlanParams a).lookup "page[offset]") = some (.int a.offset) ∧
        ∃ v st', get_plans be a st = (v, st') ∧
          st'.trace = st.trace ++ authTr st.token ++
            reqEntries be "GET" ("plan/" ++ ty) (explicitPlanParams a))
   ∧ (∀ (a : GetQuantitiesArgs) (ty : String), a.quantity_type = some ty →
        ((explicitQuantityParams a).lookup "page[offset]") = some (.int a.offset) ∧
        ∃ v st', get_quantities be a st = (v, st') ∧
          st'.trace = st.trace ++ authTr st.token ++
            reqEntries be "GET" ("quantity/" ++ ty) (explicitQuantityParams a))) := by
  constructor
  · refine ⟨?_, ?_, ?_, ?_, fun a o => rfl, fun a o => rfl, fun a o => rfl⟩
    · intro a hn e he
      obtain ⟨tk', hrun⟩ := get_logs_merged_run be t htok a hn st tk hst
      rw [hrun] at he
      rcases List.mem_append.mp he with h2 | h2
      · exact Or.inl h2
      · right
        obtain ⟨ty, hty, hein⟩ := mem_concatMap _ LOG_TYPES e h2
        rcases mem_reqEntries hein with h3 | h3
        · rw [h3]
          simp [hasOffsetParam, lookup_offset_mergedLogParams]
        · rw [h3]
          rfl
    · intro a hn e he
      obtain ⟨tk', hrun⟩ := get_assets_merged_run be t htok a hn st tk hst
      rw [hrun] at he
      rcases List.mem_append.mp he with h2 | h2
      · exact Or.inl h2
      · right
        obtain ⟨ty, hty, hein⟩ := mem_concatMap _ ASSET_TYPES e h2
        rcases mem_reqEntries hein with h3 | h3
        · rw [h3]
          simp [hasOffsetParam, lookup_offset_mergedAssetParams]
        · rw [h3]
          rfl
    · intro a hn e he
      obtain ⟨tk', hrun⟩ := get_quantities_merged_run be t htok a hn st tk hst
      rw [hrun] at he
      rcases List.mem_append.mp he with h2 | h2
      · exact Or.inl h2
      · right
        obtain ⟨ty, hty, hein⟩ := mem_concatMap _ QUANTITY_TYPES e h2
        rcases mem_reqEntries hein with h3 | h3
        · rw [h3]
          simp [hasOffsetParam, lookup_offset_mergedQuantityParams]
        · rw [h3]
          rfl
    · intro a hn
      rw [get_plans_merged_run be a hn st]
  · refine ⟨?_, ?_, ?_, ?_⟩
    · intro a ty hty
      exact ⟨lookup_offset_explicitLogParams a, get_logs_explicit_run be t htok a ty hty st⟩
    · intro a ty hty
      exact ⟨lookup_offset_explicitAssetParams a, get_assets_explicit_run be t htok a ty hty st⟩
    · intro a ty hty
      exact ⟨lookup_offset_explicitPlanParams a, get_plans_explicit_run be t htok a ty hty st⟩
    · intro a ty hty
      exact ⟨lookup_offset_explicitQuantityParams a,
        get_quantities_explicit_run be t htok a ty hty st⟩

/-- Witness for C9: against a healthy empty backend, a merged `get_logs`
run issues no offset-bearing request, and an explicit-sub-type call's
parameters carry `page[offset] = 5`. -/
theorem claim_C9_offset_only_with_subtype_witness :
    (∀ e ∈ (get_logs ⟨fun _ _ _ => .resp ⟨200, .dict [("data", .list [])]⟩, .ok "T", 0, 0⟩
        ⟨Option.none, Option.none, Option.none, Option.none, Option.none, 20, 0⟩
        ⟨some "T", []⟩).2.trace,
      e ∈ (⟨some "T", []⟩ : St).trace ∨ hasOffsetParam e = false)
  ∧ ((explicitLogParams
        ⟨some "activity", Option.none, Option.none, Option.none, Option.none, 20, 5⟩).lookup
      "page[offset]") = some (.int 5) := by
  have h := claim_C9_offset_only_with_subtype
    ⟨fun _ _ _ => .resp ⟨200, .dict [("data", .list [])]⟩, .ok "T", 0, 0⟩ "T" rfl
    ⟨some "T", []⟩ "T" rfl
  exact ⟨h.1.1 ⟨Option.none, Option.none, Option.none, Option.none, Option.none, 20, 0⟩ rfl,
    (h.2.1 ⟨some "activity", Option.none, Option.none, Option.none, Option.none, 20, 5⟩
      "activity" rfl).1⟩

/-- Counterexample to claim C2 as stated: against a backend where every
per-sub-type asset request succeeds, but one returned asset carries the
integer `5` as its `name`, the merged `get_assets` does not return the
sorted concatenation — the sort key `(x.get("name") or "").lower()`
raises `AttributeError`, and the tool returns an error dict although no
sub-type failed. -/
theorem claim_C2_counterexample :
    ASSET_TYPES.all (fun ty =>
      (listFetchOutcome ⟨fun _ p _ => if p = "asset/animal"
          then .resp ⟨200, .dict [("data", .list [.dict [("id", .str "a1"),
            ("type", .str "asset--animal"), ("attributes", .dict [("name", .int 5)]),
            ("relationships", .dict [])]])]⟩
          else .resp ⟨200, .dict [("data", .list [])]⟩, .ok "T", 0, 0⟩
        ("asset/" ++ ty)
        (mergedAssetParams ⟨Option.none, Option.none, Option.none, 20, 0⟩)).isOk) = true
  ∧ (get_assets ⟨fun _ p _ => if p = "asset/animal"
        then .resp ⟨200, .dict [("data", .list [.dict [("id", .str "a1"),
          ("type", .str "asset--animal"), ("attributes", .dict [("name", .int 5)]),
          ("relationships", .dict [])]])]⟩
        else .resp ⟨200, .dict [("data", .list [])]⟩, .ok "T", 0, 0⟩
      ⟨Option.none, Option.none, Option.none, 20, 0⟩ ⟨some "T", []⟩).1
      = .dict [("error", .str "'int' object has no attribute 'lower'")] :=
  ⟨rfl, rfl⟩

/-- Claim C2 (amended): a merged list call issues one request per known
sub-type and drops failing sub-types silently (their contribution is
empty).  Logs are returned sorted newest-first and truncated, quantities
unsorted and truncated, and plans answer with the no-types note.  Merged
assets diverge from the claim: when the name sort key of every
contributed asset computes, the sorted truncated concatenation is
returned, but a truthy non-string `name` makes the key raise
`AttributeError`, and the tool then returns an error dict even though no
sub-type failed. -/
theorem claim_C2_merged_skips_failures_amended (be : Backend) (t : String)
    (htok : be.tok = .ok t) (st : St) (tk : String) (hst : st.token = some tk) :
    ((∀ a : GetLogsArgs, a.log_type = Option.none → ∃ tk',
        get_logs be a st =
          (.dict [("returned", .int (mergedLogs be a).length), ("logs", .list (mergedLogs be a))],
           ⟨some tk', st.trace ++ concatMap
             (fun ty => reqEntries be "GET" ("log/" ++ ty) (mergedLogParams a)) LOG_TYPES⟩) ∧
        mergedLogs be a = pySliceTo (stableSortBy (descLe logSortKey)
          (concatMap (fun ty => logTypeContrib be (mergedLogParams a) ty) LOG_TYPES)) a.limit ∧
        (mergedLogs be a).Pairwise (fun x y => logSortKey y ≤ logSortKey x))
   ∧ (∀ a : GetAssetsArgs, a.asset_type = Option.none → ∃ tk',
        get_assets be a st =
          (mergedAssetsOut be a,
           ⟨some tk', st.trace ++ concatMap
             (fun ty => reqEntries be "GET" ("asset/" ++ ty) (mergedAssetParams a)) ASSET_TYPES⟩) ∧
        (∀ kl, assetKeyed (concatMap (fun ty => assetTypeContrib be (mergedAssetParams a) ty)
            ASSET_TYPES) = .ok kl →
          mergedAssetsE be a = .ok (pySliceTo ((stableSortBy keyLe kl).map Prod.snd) a.limit) ∧
          (stableSortBy keyLe kl).Pairwise (fun p q => p.1 ≤ q.1) ∧
          mergedAssetsOut be a = .dict
            [("returned", .int (pySliceTo ((stableSortBy keyLe kl).map Prod.snd) a.limit).length),
             ("assets", .list (pySliceTo ((stableSortBy keyLe kl).map Prod.snd) a.limit))]) ∧
        (∀ e, assetKeyed (concatMap (fun ty => assetTypeContrib be (mergedAssetParams a) ty)
            ASSET_TYPES) = .error e →
          mergedAssetsOut be a = .dict [("error", .str (msgOf e))]))
   ∧ (∀ a : GetQuantitiesArgs, a.quantity_type = Option.none → ∃ tk',
        get_quantities be a st =
          (.dict [("returned", .int (mergedQuantities be a).length),
                  ("quantities", .list (mergedQuantities be a))],
           ⟨some tk', st.trace ++ concatMap
             (fun ty => reqEntries be "GET" ("quantity/" ++ ty) (mergedQuantityParams a))
             QUANTITY_TYPES⟩) ∧
        mergedQuantities be a = pySliceTo
          (concatMap (fun ty => quantityTypeContrib be (mergedQuantityParams a) ty)
            QUANTITY_TYPES) a.limit)
   ∧ (∀ a : GetPlansArgs, a.plan_type = Option.none →
        get_plans be a st =
          (.dict [("returned", .int 0), ("plans", .list []),
            ("note", .str "No plan types configured. Specify plan_type explicitly if you know the bundle name.")],
           st)))
  ∧ ((∀ (path : String) (params : PyDict) (e : PyExc) (norm : PyVal → Except PyExc PyVal),
        listFetchOutcome be path params = .error e → typeContrib be norm path params = [])
   ∧ (∀ (path : String) (params : PyDict) (rs ns : List PyVal)
        (norm : PyVal → Except PyExc PyVal),
        listFetchOutcome be path params = .ok rs → mapExc norm rs = .ok ns →
        typeContrib be norm path params = ns)) := by
  constructor
  · refine ⟨?_, ?_, ?_, ?_⟩
    · intro a hn
      obtain ⟨tk', hrun⟩ := get_logs_merged_run be t htok a hn st tk hst
      exact ⟨tk', hrun, rfl, mergedLogs_sorted be a⟩
    · intro a hn
      obtain ⟨tk', hrun⟩ := get_assets_merged_run be t htok a hn st tk hst
      refine ⟨tk', hrun, ?_, ?_⟩
      · intro kl hk
        refine ⟨by simp [mergedAssetsE, hk], stableSortBy_keyLe_sorted kl,
          by simp [mergedAssetsOut, mergedAssetsE, hk]⟩
      · intro e hk
        simp [mergedAssetsOut, mergedAssetsE, hk]
    · intro a hn
      obtain ⟨tk', hrun⟩ := get_quantities_merged_run be t htok a hn st tk hst
      exact ⟨tk', hrun, rfl⟩
    · intro a hn
      exact get_plans_merged_run be a hn st
  · exact ⟨fun path params e norm hf => typeContrib_fail be norm path params e hf,
      fun path params rs ns norm hf hn => typeContrib_ok be norm path params rs ns hf hn⟩

/-- Witness for C2 (amended): against a backend where `log/activity`
answers 500 and every other endpoint answers 200 with empty data, the
failing sub-type contributes nothing, a succeeding sub-type contributes
its (empty) normalized list, and the merged `get_assets` — all of whose
sort keys compute — returns the (empty) sorted assets dict. -/
theorem claim_C2_merged_skips_failures_amended_witness :
    typeContrib ⟨fun _ p _ => if p = "log/activity" then .resp ⟨500, .str "boom"⟩
        else .resp ⟨200, .dict [("data", .list [])]⟩, .ok "T", 0, 0⟩
      (fun r => normalizeLog r []) "log/activity" [] = []
  ∧ typeContrib ⟨fun _ p _ => if p = "log/activity" then .resp ⟨500, .str "boom"⟩
        else .resp ⟨200, .dict [("data", .list [])]⟩, .ok "T", 0, 0⟩
      (fun r => normalizeLog r []) "log/observation" [] = []
  ∧ ∃ st2 : St, get_assets ⟨fun _ p _ => if p = "log/activity" then .resp ⟨500, .str "boom"⟩
        else .resp ⟨200, .dict [("data", .list [])]⟩, .ok "T", 0, 0⟩
      ⟨Option.none, Option.none, Option.none, 20, 0⟩ ⟨some "T", []⟩
      = (.dict [("returned", .int 0), ("assets", .list [])], st2) := by
  have h := claim_C2_merged_skips_failures_amended
    ⟨fun _ p _ => if p = "log/activity" then .resp ⟨500, .str "boom"⟩
        else .resp ⟨200, .dict [("data", .list [])]⟩, .ok "T", 0, 0⟩ "T" rfl
    ⟨some "T", []⟩ "T" rfl
  obtain ⟨tk', hrun, hok, herr⟩ :=
    h.1.2.1 ⟨Option.none, Option.none, Option.none, 20, 0⟩ rfl
  exact ⟨h.2.1 "log/activity" [] (.httpStatusError 500 (.str "boom"))
      (fun r => normalizeLog r []) rfl,
    h.2.2 "log/observation" [] [] [] (fun r => normalizeLog r []) rfl rfl,
    _, hrun⟩

lemma data_mk (l : List Char) : (String.mk l).data = l := rfl

lemma digit_props : ∀ r < 10,
    isDigitC (Char.ofNat (48 + r)) = true ∧ digitVal (Char.ofNat (48 + r)) = r ∧
    ((Char.ofNat (48 + r)) == 'T') = false ∧ Char.ofNat (48 + r) ≠ 'Z' := by decide

lemma digitChar_isDigit (x : Nat) : isDigitC (Char.ofNat (48 + x % 10)) = true :=
  (digit_props (x % 10) (Nat.mod_lt x (by norm_num))).1

lemma digitChar_val (x : Nat) : digitVal (Char.ofNat (48 + x % 10)) = x % 10 :=
  (digit_props (x % 10) (Nat.mod_lt x (by norm_num))).2.1

lemma digitChar_ne_T (x : Nat) : ((Char.ofNat (48 + x % 10)) == 'T') = false :=
  (digit_props (x % 10) (Nat.mod_lt x (by norm_num))).2.2.1

lemma digitChar_ne_Z (x : Nat) : Char.ofNat (48 + x % 10) ≠ 'Z' :=
  (digit_props (x % 10) (Nat.mod_lt x (by norm_num))).2.2.2

lemma replaceZchars_append (l1 l2 : List Char) :
    replaceZchars (l1 ++ l2) = replaceZchars l1 ++ replaceZchars l2 := by
  induction l1 with
  | nil => rfl
  | cons c rest ih =>
    simp only [List.cons_append, replaceZchars, List.append_eq]
    by_cases h : c = 'Z'
    · rw [if_pos h, if_pos h, ih]
      simp
    · rw [if_neg h, if_neg h, ih]
      rfl

lemma replaceZchars_of_noZ (l : List Char) (h : ∀ c ∈ l, c ≠ 'Z') :
    replaceZchars l = l := by
  induction l with
  | nil => rfl
  | cons c rest ih =>
    unfold replaceZchars
    rw [if_neg (h c (by simp))]
    rw [ih (fun c2 hc2 => h c2 (by simp [hc2]))]

lemma renderDate_noT (y m d : Nat) :
    ((renderDate y m d).data.any (fun c => c == 'T')) = false := by
  have hdash : (('-' : Char) == 'T') = false := by decide
  simp [renderDate, pad4, pad2, digitChar_ne_T, hdash]

lemma renderDate_noZ (y m d : Nat) : ∀ c ∈ (renderDate y m d).data, c ≠ 'Z' := by
  intro c hc
  simp [renderDate, pad4, pad2] at hc
  rcases hc with rfl | rfl | rfl | rfl | rfl | rfl | rfl | rfl | rfl | rfl
  all_goals first | exact digitChar_ne_Z _ | decide

lemma timeZ_noZ_head (a b c2 : Nat) :
    ∀ c ∈ 'T' :: (pad2 a ++ ':' :: (pad2 b ++ ':' :: pad2 c2)), c ≠ 'Z' := by
  intro c hc
  simp [pad2] at hc
  rcases hc with rfl | rfl | rfl | rfl | rfl | rfl | rfl | rfl | rfl
  all_goals first | exact digitChar_ne_Z _ | decide

lemma replaceZ_timeZ (secs : Nat) :
    replaceZchars (renderTimeZ secs).data =
      'T' :: (pad2 (secs / 3600) ++ ':' :: (pad2 (secs / 60 % 60) ++ ':' ::
        (pad2 (secs % 60) ++ ['+', '0', '0', ':', '0', '0']))) := by
  have e1 : (renderTimeZ secs).data =
      ('T' :: (pad2 (secs / 3600) ++ ':' :: (pad2 (secs / 60 % 60) ++ ':' ::
        pad2 (secs % 60)))) ++ ['Z'] := by
    simp [renderTimeZ, pad2]
  rw [e1, replaceZchars_append,
    replaceZchars_of_noZ _ (timeZ_noZ_head (secs / 3600) (secs / 60 % 60) (secs % 60))]
  simp [replaceZchars]

lemma digitsVal4 (a b c d : Nat) :
    digitsVal [Char.ofNat (48 + a % 10), Char.ofNat (48 + b % 10),
      Char.ofNat (48 + c % 10), Char.ofNat (48 + d % 10)]
      = ((a % 10 * 10 + b % 10) * 10 + c % 10) * 10 + d % 10 := by
  simp [digitsVal, List.foldl, digitChar_val]

lemma digitsVal2 (a b : Nat) :
    digitsVal [Char.ofNat (48 + a % 10), Char.ofNat (48 + b % 10)] = a % 10 * 10 + b % 10 := by
  simp [digitsVal, List.foldl, digitChar_val]

set_option maxHeartbeats 2000000 in
lemma parseIso_render_dt (y m d hh mi ss : Nat) (h : ValidDate y m d)
    (hhh : hh < 24) (hmi : mi < 60) (hss : ss < 60) :
    parseIsoChars ((renderDate y m d).data ++
        'T' :: (pad2 hh ++ ':' :: (pad2 mi ++ ':' :: (pad2 ss ++ ['+', '0', '0', ':', '0', '0']))))
      = some ⟨y, m, d, some ⟨hh * 3600 + mi * 60 + ss, some 0⟩⟩ := by
  obtain ⟨h1, h2, h3, h4, h5, h6⟩ := h
  have hyv : ((y / 1000 % 10 * 10 + y / 100 % 10) * 10 + y / 10 % 10) * 10 + y % 10 = y := by
    omega
  have hmv : m / 10 % 10 * 10 + m % 10 = m := by omega
  have hd31 : d ≤ 31 := le_trans h6 (monthLen_le31 (isLeap y) m (by omega))
  have hdv : d / 10 % 10 * 10 + d % 10 = d := by omega
  have hhv : hh / 10 % 10 * 10 + hh % 10 = hh := by omega
  have hmiv : mi / 10 % 10 * 10 + mi % 10 = mi := by omega
  have hssv : ss / 10 % 10 * 10 + ss % 10 = ss := by omega
  have hdig0 : isDigitC '0' = true := by decide
  have hdv0 : digitsVal ['0', '0'] = 0 := by decide
  simp only [renderDate, pad4, pad2, data_mk, List.cons_append, List.nil_append,
    List.append_assoc]
  simp [parseIsoChars, digitsVal4, digitsVal2, digitChar_isDigit, parseOffset,
    h1, h3, h4, h5, h6, hhh, hmi, hss, hyv, hmv, hdv, hhv, hmiv, hssv, hdig0, hdv0]

lemma daysBeforeYear_10000 : daysBeforeYear 10000 = 3652059 := by norm_num [daysBeforeYear]

lemma toRD_lt (y m d : Nat) (h : ValidDate y m d) : toRD y m d < 3652059 := by
  obtain ⟨h1, h2, h3, h4, h5, h6⟩ := h
  have hdoy : daysBeforeMonth (isLeap y) m + (d - 1) < yearLen y := by
    have := doy_lt (isLeap y) m (by omega) d
      (by have := monthLen_le31 (isLeap y) m (by omega); omega) ⟨h3, h6⟩
    unfold yearLen
    exact this
  have hsucc : daysBeforeYear (y + 1) = daysBeforeYear y + yearLen y :=
    daysBeforeYear_succ y h1
  have hup : daysBeforeYear (y + 1) ≤ daysBeforeYear 10000 :=
    daysBeforeYear_le _ _ (by omega) (by omega)
  rw [daysBeforeYear_10000] at hup
  unfold toRD
  omega

lemma parse_of_replaceZ (y m d secs : Nat) (h : ValidDate y m d) (hs : secs < 86400) :
    parseIsoChars (replaceZchars ((renderDate y m d).data ++ (renderTimeZ secs).data))
      = some ⟨y, m, d,
          some ⟨secs / 3600 * 3600 + secs / 60 % 60 * 60 + secs % 60, some 0⟩⟩ := by
  rw [replaceZchars_append, replaceZchars_of_noZ _ (renderDate_noZ y m d), replaceZ_timeZ]
  exact parseIso_render_dt y m d (secs / 3600) (secs / 60 % 60) (secs % 60) h
    (by omega) (by omega) (by omega)

/-- Claim C8: the create-side date parser and the normalization-side
renderer are calendar inverses — a rendered date (defaulting to midnight
UTC) or an explicit `Z` datetime converts to the epoch seconds of that
UTC civil time, for every process-local offset, and converting any
in-range epoch second of that civil day back yields an ISO string
carrying the same calendar date. -/
theorem claim_C8_timestamp_roundtrip (y m d : Nat) (h : ValidDate y m d) (loc : Int) :
    pyIsoToTs loc (renderDate y m d) = .ok (dateEpoch y m d)
  ∧ (∀ secs : Nat, secs < 86400 →
      pyIsoToTs loc (renderDate y m d ++ renderTimeZ secs) = .ok (dateEpoch y m d + secs))
  ∧ (∀ secs : Nat, secs < 86400 →
      pyTsToIso (.int (dateEpoch y m d + secs)) =
        .str (renderDate y m d ++ "T" ++ String.mk (pad2 (secs / 3600)) ++ ":" ++
          String.mk (pad2 (secs / 60 % 60)) ++ ":" ++ String.mk (pad2 (secs % 60)) ++
          "+00:00")) := by
  have hvd : ValidDate y m d := h
  refine ⟨?_, ?_, ?_⟩
  · unfold pyIsoToTs
    rw [renderDate_noT y m d]
    have hTZ : ("T00:00:00Z" : String) = renderTimeZ 0 := rfl
    simp only [Bool.false_eq_true, if_false, hTZ, data_mk, String.data_append]
    rw [parse_of_replaceZ y m d 0 hvd (by omega)]
    simp [tsOfCivil, dateEpoch]
  · intro secs hs
    unfold pyIsoToTs
    have hTT : (('T' : Char) == 'T') = true := by decide
    have hany : (((renderDate y m d).data ++ (renderTimeZ secs).data).any
        (fun c => c == 'T')) = true := by
      simp [renderTimeZ, data_mk, hTT]
    have hsplit : secs / 3600 * 3600 + secs / 60 % 60 * 60 + secs % 60 = secs := by omega
    simp only [hany, if_true, data_mk, String.data_append]
    rw [parse_of_replaceZ y m d secs hvd hs]
    simp [tsOfCivil, dateEpoch, hsplit]
  · intro secs hs
    have hrdlt := toRD_lt y m d hvd
    have hrange : tsMin ≤ dateEpoch y m d + (secs : Int) ∧
        dateEpoch y m d + (secs : Int) ≤ tsMax := by
      unfold dateEpoch tsMin tsMax epochRD
      omega
    have hdays : (dateEpoch y m d + (secs : Int)) / 86400 = (toRD y m d : Int) - 719162 := by
      unfold dateEpoch epochRD
      omega
    have hmod : (dateEpoch y m d + (secs : Int)) % 86400 = (secs : Int) := by
      unfold dateEpoch epochRD
      omega
    have hrd : ((toRD y m d : Int) - 719162 + (epochRD : Int)).toNat = toRD y m d := by
      unfold epochRD
      omega
    have hsecsN : ((secs : Int)).toNat = secs := by omega
    unfold pyTsToIso
    simp only [isNone, pyInt, if_pos hrange, hdays, hmod, hrd, hsecsN,
      fromRD_toRD y m d hvd]
    rfl

/-- Witness for C8: the leap date 2024-02-29, with a nonzero local offset
and the time 01:01:01Z, round-trips through parse and render. -/
theorem claim_C8_timestamp_roundtrip_witness :
    pyIsoToTs 7200 (renderDate 2024 2 29) = .ok (dateEpoch 2024 2 29)
  ∧ pyIsoToTs 7200 (renderDate 2024 2 29 ++ renderTimeZ 3661)
      = .ok (dateEpoch 2024 2 29 + 3661)
  ∧ pyTsToIso (.int (dateEpoch 2024 2 29 + 3661)) =
      .str (renderDate 2024 2 29 ++ "T" ++ String.mk (pad2 (3661 / 3600)) ++ ":" ++
        String.mk (pad2 (3661 / 60 % 60)) ++ ":" ++ String.mk (pad2 (3661 % 60)) ++
        "+00:00") := by
  have h := claim_C8_timestamp_roundtrip 2024 2 29 (by decide) 7200
  exact ⟨h.1, h.2.1 3661 (by decide), h.2.2 3661 (by decide)⟩

lemma getAssetAttempt_run (be : Backend) (tok : String) (h : be.tok = .ok tok)
    (id t : String) (u : Bool) (st : St) (tk : String) (hst : st.token = some tk) :
    ES.attempt (getAssetAttempt be id t u) st =
      (.ok (assetAttemptOutcome be id t u),
       ⟨some (tokAfter be "GET" ("asset/" ++ t ++ "/" ++ id)
          (if u then [("include", .str ASSET_INCLUDE)] else []) st.token tok),
        st.trace ++ assetAttemptEntries be id t u⟩) := by
  unfold ES.attempt getAssetAttempt
  simp only [bind_def, ES.bind]
  cases u
  · simp only [Bool.false_eq_true, if_false]
    rw [clientGet_run be ("asset/" ++ t ++ "/" ++ id) [] tok h st]
    cases hout : httpOutcome be "GET" ("asset/" ++ t ++ "/" ++ id) [] with
    | error e =>
      simp [assetAttemptOutcome, assetAttemptEntries, hout, hst, authTr, liftE, ES.pure, ES.bind]
    | ok body =>
      simp [assetAttemptOutcome, assetAttemptEntries, hout, hst, authTr, liftE, ES.pure, ES.bind]
  · simp only [eq_self_iff_true, if_true]
    rw [clientGet_run be ("asset/" ++ t ++ "/" ++ id) [("include", .str ASSET_INCLUDE)] tok h st]
    cases hout : httpOutcome be "GET" ("asset/" ++ t ++ "/" ++ id)
        [("include", .str ASSET_INCLUDE)] with
    | error e =>
      simp [assetAttemptOutcome, assetAttemptEntries, hout, hst, authTr, liftE, ES.pure, ES.bind]
    | ok body =>
      cases hinc : buildIncluded body with
      | error e =>
        simp [assetAttemptOutcome, assetAttemptEntries, hout, hinc, hst, authTr, liftE, ES.pure, ES.bind]
      | ok inc =>
        simp [assetAttemptOutcome, assetAttemptEntries, hout, hinc, hst, authTr, liftE, ES.pure, ES.bind]

lemma getAssetIncludeLoop_run (be : Backend) (tok : String) (h : be.tok = .ok tok)
    (id t : String) (st : St) (tk : String) (hst : st.token = some tk) :
    ∃ (r : Except PyExc (Option (PyVal × PyDict) × List String)) (st2 : St),
      getAssetIncludeLoop be id t [true, false] [] st = (r, st2)
      ∧ r = .ok (assetProbe be id t)
      ∧ st2.trace = st.trace ++ assetProbeEntries be id t
      ∧ ∃ tk2, st2.token = some tk2 := by
  simp only [getAssetIncludeLoop, bind_def, ES.bind]
  rw [getAssetAttempt_run be tok h id t true st tk hst]
  cases hout : assetAttemptOutcome be id t true with
  | ok pr =>
    dsimp only [ES.pure]
    exact ⟨_, _, rfl, by simp [assetProbe, hout],
      by simp [assetProbeEntries, hout], _, rfl⟩
  | error e1 =>
    dsimp only
    simp only [ES.bind, if_true]
    rw [getAssetAttempt_run be tok h id t false
      ⟨some (tokAfter be "GET" ("asset/" ++ t ++ "/" ++ id)
          [("include", PyVal.str ASSET_INCLUDE)] st.token tok),
        st.trace ++ assetAttemptEntries be id t true⟩
      (tokAfter be "GET" ("asset/" ++ t ++ "/" ++ id)
          [("include", PyVal.str ASSET_INCLUDE)] st.token tok) rfl]
    cases hout2 : assetAttemptOutcome be id t false with
    | ok pr =>
      dsimp only [ES.pure]
      exact ⟨_, _, rfl, by simp [assetProbe, hout, hout2],
        by simp [assetProbeEntries, hout, hout2, List.append_assoc], _, rfl⟩
    | error e2 =>
      dsimp only [ES.pure]
      exact ⟨_, _, rfl, by simp [assetProbe, hout, hout2],
        by simp [assetProbeEntries, hout, hout2, List.append_assoc], _, rfl⟩

lemma getAssetTypeLoop_hit (be : Backend) (tok : String) (h : be.tok = .ok tok)
    (id t : String) (ts errors : List String) (st : St) (tk : String) (hst : st.token = some tk)
    (result : PyVal) (included : PyDict) (errs : List String) (data n : PyVal)
    (hprobe : assetProbe be id t = (some (result, included), errs))
    (hdata : pyGet result "data" = .ok data) (htr : truthy data = true)
    (hnorm : normalizeAsset data included = .ok n) :
    ∃ st2 : St, getAssetTypeLoop be id (t :: ts) errors st = (.ok n, st2)
      ∧ st2.trace = st.trace ++ assetProbeEntries be id t := by
  obtain ⟨r, st2, hrun, hr, htrace, tk2, htk2⟩ :=
    getAssetIncludeLoop_run be tok h id t st tk hst
  rw [hr] at hrun
  refine ⟨st2, ?_, htrace⟩
  simp only [getAssetTypeLoop, bind_def, ES.bind]
  rw [hrun]
  simp [hprobe, liftE, hdata, htr, hnorm, ES.pure, ES.bind]

lemma getAssetTypeLoop_miss (be : Backend) (tok : String) (h : be.tok = .ok tok)
    (id t : String) (ts errors : List String) (st : St) (tk : String) (hst : st.token = some tk)
    (errs : List String)
    (hprobe : assetProbe be id t = (Option.none, errs)) :
    ∃ st2 : St, getAssetTypeLoop be id (t :: ts) errors st
        = getAssetTypeLoop be id ts (errors ++ errs) st2
      ∧ st2.trace = st.trace ++ assetProbeEntries be id t
      ∧ ∃ tk2, st2.token = some tk2 := by
  obtain ⟨r, st2, hrun, hr, htrace, tk2, htk2⟩ :=
    getAssetIncludeLoop_run be tok h id t st tk hst
  rw [hr] at hrun
  refine ⟨st2, ?_, htrace, tk2, htk2⟩
  simp only [getAssetTypeLoop, bind_def, ES.bind]
  rw [hrun]
  simp [hprobe, ES.pure]

lemma getLogAttempt_run (be : Backend) (tok : String) (h : be.tok = .ok tok)
    (id t : String) (i : Option String) (st : St) (tk : String) (hst : st.token = some tk) :
    ES.attempt (getLogAttempt be id t i) st =
      (.ok (logAttemptOutcome be id t i),
       ⟨some (tokAfter be "GET" ("log/" ++ t ++ "/" ++ id)
          (match i with | some s => [("include", .str s)] | Option.none => []) st.token tok),
        st.trace ++ logAttemptEntries be id t i⟩) := by
  unfold ES.attempt getLogAttempt
  simp only [bind_def, ES.bind]
  cases i with
  | none =>
    rw [clientGet_run be ("log/" ++ t ++ "/" ++ id) [] tok h st]
    cases hout : httpOutcome be "GET" ("log/" ++ t ++ "/" ++ id) [] with
    | error e =>
      simp [logAttemptOutcome, logAttemptEntries, hout, hst, authTr, liftE, ES.pure, ES.bind]
    | ok body =>
      simp [logAttemptOutcome, logAttemptEntries, hout, hst, authTr, liftE, ES.pure, ES.bind]
  | some s =>
    rw [clientGet_run be ("log/" ++ t ++ "/" ++ id) [("include", .str s)] tok h st]
    cases hout : httpOutcome be "GET" ("log/" ++ t ++ "/" ++ id) [("include", .str s)] with
    | error e =>
      simp [logAttemptOutcome, logAttemptEntries, hout, hst, authTr, liftE, ES.pure, ES.bind]
    | ok body =>
      cases hinc : buildIncluded body with
      | error e =>
        simp [logAttemptOutcome, logAttemptEntries, hout, hinc, hst, authTr, liftE,
          ES.pure, ES.bind]
      | ok inc =>
        simp [logAttemptOutcome, logAttemptEntries, hout, hinc, hst, authTr, liftE,
          ES.pure, ES.bind]

lemma getLogIncludeLoop_run (be : Backend) (tok : String) (h : be.tok = .ok tok)
    (id t : String) :
    ∀ (is : List (Option String)) (incErrs : List String) (st : St) (tk : String),
      st.token = some tk →
      ∃ (r : Except PyExc (Option (PyVal × PyDict × Option String) × List String)) (st2 : St),
        getLogIncludeLoop be id t is incErrs st = (r, st2)
        ∧ r = .ok ((logProbe be id t is).1, incErrs ++ (logProbe be id t is).2)
        ∧ st2.trace = st.trace ++ logProbeEntries be id t is
        ∧ ∃ tk2, st2.token = some tk2 := by
  intro is
  induction is with
  | nil =>
    intro incErrs st tk hst
    exact ⟨_, st, rfl, by simp [logProbe, ES.pure],
      by simp [logProbeEntries], tk, hst⟩
  | cons i is ih =>
    intro incErrs st tk hst
    simp only [getLogIncludeLoop, bind_def, ES.bind]
    rw [getLogAttempt_run be tok h id t i st tk hst]
    set S : St := ⟨some (tokAfter be "GET" ("log/" ++ t ++ "/" ++ id)
        (match i with | some s => [("include", PyVal.str s)] | Option.none => []) st.token tok),
      st.trace ++ logAttemptEntries be id t i⟩ with hS
    cases hout : logAttemptOutcome be id t i with
    | ok pr =>
      dsimp only [ES.pure]
      exact ⟨_, _, rfl, by simp [logProbe, hout],
        by simp [logProbeEntries, hout, hS], _, rfl⟩
    | error e =>
      dsimp only
      have hStok : ∃ tk2, S.token = some tk2 := ⟨_, rfl⟩
      obtain ⟨tkS, htkS⟩ := hStok
      obtain ⟨r2, st2, hrec, hr2, htr2, tk2, htk2⟩ :=
        ih (incErrs ++ [t ++ "(include=" ++ reprOptStr i ++ "): " ++ msgOf e]) S tkS htkS
      refine ⟨r2, st2, hrec, ?_, ?_, tk2, htk2⟩
      · rw [hr2]
        simp [logProbe, hout, List.append_assoc]
      · rw [htr2]
        simp [logProbeEntries, hout, hS, List.append_assoc]

lemma getLogTypeLoop_hit (be : Backend) (tok : String) (h : be.tok = .ok tok)
    (id t : String) (ts errors : List String) (st : St) (tk : String) (hst : st.token = some tk)
    (result : PyVal) (included : PyDict) (incUsed : Option String) (data n : PyVal)
    (hprobe : logProbe be id t logLevels = (some (result, included, incUsed), []))
    (hdata : pyGet result "data" = .ok data) (htr : truthy data = true)
    (hnorm : normalizeLog data included = .ok n) :
    ∃ st2 : St, getLogTypeLoop be id (t :: ts) errors st = (.ok n, st2)
      ∧ st2.trace = st.trace ++ logProbeEntries be id t logLevels := by
  obtain ⟨r, st2, hrun, hr, htrace, tk2, htk2⟩ :=
    getLogIncludeLoop_run be tok h id t logLevels [] st tk hst
  rw [hr] at hrun
  refine ⟨st2, ?_, htrace⟩
  simp only [getLogTypeLoop, bind_def, ES.bind]
  rw [show LOG_INCLUDE_LEVELS.map some ++ [Option.none] = logLevels from rfl]
  rw [hrun]
  simp [hprobe, liftE, hdata, htr, hnorm, ES.pure, ES.bind]

lemma getLogTypeLoop_miss (be : Backend) (tok : String) (h : be.tok = .ok tok)
    (id t : String) (ts errors : List String) (st : St) (tk : String) (hst : st.token = some tk)
    (errs : List String)
    (hprobe : logProbe be id t logLevels = (Option.none, errs)) :
    ∃ st2 : St, getLogTypeLoop be id (t :: ts) errors st
        = getLogTypeLoop be id ts (errors ++ errs) st2
      ∧ st2.trace = st.trace ++ logProbeEntries be id t logLevels
      ∧ ∃ tk2, st2.token = some tk2 := by
  obtain ⟨r, st2, hrun, hr, htrace, tk2, htk2⟩ :=
    getLogIncludeLoop_run be tok h id t logLevels [] st tk hst
  rw [hr] at hrun
  refine ⟨st2, ?_, htrace, tk2, htk2⟩
  simp only [getLogTypeLoop, bind_def, ES.bind]
  rw [show LOG_INCLUDE_LEVELS.map some ++ [Option.none] = logLevels from rfl]
  rw [hrun]
  simp [hprobe, ES.pure]


lemma getAssetTypeLoop_skip (be : Backend) (tok : String) (h : be.tok = .ok tok)
    (id t : String) (ts errors : List String) (st : St) (tk : String) (hst : st.token = some tk)
    (result : PyVal) (included : PyDict) (errs : List String) (data : PyVal)
    (hprobe : assetProbe be id t = (some (result, included), errs))
    (hdata : pyGet result "data" = .ok data) (htr : truthy data = false) :
    ∃ st2 : St, getAssetTypeLoop be id (t :: ts) errors st
        = getAssetTypeLoop be id ts (errors ++ errs) st2
      ∧ st2.trace = st.trace ++ assetProbeEntries be id t
      ∧ ∃ tk2, st2.token = some tk2 := by
  obtain ⟨r, st2, hrun, hr, htrace, tk2, htk2⟩ :=
    getAssetIncludeLoop_run be tok h id t st tk hst
  rw [hr] at hrun
  refine ⟨st2, ?_, htrace, tk2, htk2⟩
  simp only [getAssetTypeLoop, bind_def, ES.bind]
  rw [hrun]
  simp [hprobe, liftE, hdata, htr, ES.pure, ES.bind]

lemma getLogTypeLoop_skip (be : Backend) (tok : String) (h : be.tok = .ok tok)
    (id t : String) (ts errors : List String) (st : St) (tk : String) (hst : st.token = some tk)
    (result : PyVal) (included : PyDict) (incUsed : Option String) (incErrs : List String)
    (data : PyVal)
    (hprobe : logProbe be id t logLevels = (some (result, included, incUsed), incErrs))
    (hdata : pyGet result "data" = .ok data) (htr : truthy data = false) :
    ∃ st2 : St, getLogTypeLoop be id (t :: ts) errors st
        = getLogTypeLoop be id ts (errors ++ incErrs) st2
      ∧ st2.trace = st.trace ++ logProbeEntries be id t logLevels
      ∧ ∃ tk2, st2.token = some tk2 := by
  obtain ⟨r, st2, hrun, hr, htrace, tk2, htk2⟩ :=
    getLogIncludeLoop_run be tok h id t logLevels [] st tk hst
  rw [hr] at hrun
  refine ⟨st2, ?_, htrace, tk2, htk2⟩
  simp only [getLogTypeLoop, bind_def, ES.bind]
  rw [show LOG_INCLUDE_LEVELS.map some ++ [Option.none] = logLevels from rfl]
  rw [hrun]
  simp [hprobe, liftE, hdata, htr, ES.pure, ES.bind]

lemma getLogTypeLoop_hit_fallback (be : Backend) (tok : String) (h : be.tok = .ok tok)
    (id t : String) (ts errors : List String) (st : St) (tk : String) (hst : st.token = some tk)
    (result : PyVal) (included : PyDict) (incUsed : Option String)
    (e0 : String) (erest : List String) (data n n1 n2 : PyVal)
    (hprobe : logProbe be id t logLevels = (some (result, included, incUsed), e0 :: erest))
    (hdata : pyGet result "data" = .ok data) (htr : truthy data = true)
    (hnorm : normalizeLog data included = .ok n)
    (hw : dictSetVal n "_include_warnings" (.list ((e0 :: erest).map PyVal.str)) = .ok n1)
    (hu : dictSetVal n1 "_include_used" (optStrVal incUsed) = .ok n2) :
    ∃ st2 : St, getLogTypeLoop be id (t :: ts) errors st = (.ok n2, st2)
      ∧ st2.trace = st.trace ++ logProbeEntries be id t logLevels := by
  obtain ⟨r, st2, hrun, hr, htrace, tk2, htk2⟩ :=
    getLogIncludeLoop_run be tok h id t logLevels [] st tk hst
  rw [hr] at hrun
  refine ⟨st2, ?_, htrace⟩
  simp only [getLogTypeLoop, bind_def, ES.bind]
  rw [show LOG_INCLUDE_LEVELS.map some ++ [Option.none] = logLevels from rfl]
  rw [hrun]
  simp only [List.map_cons] at hw
  simp [hprobe, liftE, hdata, htr, hnorm, hw, hu, ES.pure, ES.bind]


/-- Counterexample to claim C3 as stated: with no plan types configured,
`get_plan` without an explicit sub-type issues no probe at all — even
against a backend that holds the plan it returns a configuration error
with an untouched trace, instead of probing sub-types and reporting a
detailed not-found. -/
theorem claim_C3_counterexample :
    get_plan ⟨fun _ _ _ => .resp ⟨200, .dict [("data", .dict [("id", .str "p1")])]⟩,
        .ok "T", 0, 0⟩ "p1" Option.none ⟨some "T", []⟩
      = (.dict [("error", .str "plan_type is required when no plan types are configured")],
         ⟨some "T", []⟩) := rfl


/-- Claim C3 (amended): `get_log` and `get_asset` probe sub-types in the
family's fixed order.  For each sub-type the include fallback is tried
(two levels for assets, the progressive include levels then none for
logs); a sub-type whose first successful response holds truthy data is
normalized and returned — annotated with `_include_warnings` and
`_include_used` when `get_log` dropped include levels — with no requests
to later sub-types; a sub-type whose successful response holds falsy
data, or all of whose attempts fail, adds its per-attempt details and
the probe moves on; exhaustion yields a not-found error carrying the
collected details.  `get_plan` diverges: with no plan types configured
it returns a configuration error without probing, and its not-found
error carries no details. -/
theorem claim_C3_single_lookup_amended (be : Backend) (tok : String)
    (htok : be.tok = .ok tok) (st : St) (tk : String) (hst : st.token = some tk) :
    ((∀ (id t : String) (ts errors : List String) (result : PyVal) (included : PyDict)
        (errs : List String) (data n : PyVal),
        assetProbe be id t = (some (result, included), errs) →
        pyGet result "data" = .ok data → truthy data = true →
        normalizeAsset data included = .ok n →
        ∃ st2 : St, getAssetTypeLoop be id (t :: ts) errors st = (.ok n, st2)
          ∧ st2.trace = st.trace ++ assetProbeEntries be id t)
   ∧ (∀ (id t : String) (ts errors : List String) (result : PyVal) (included : PyDict)
        (errs : List String) (data : PyVal),
        assetProbe be id t = (some (result, included), errs) →
        pyGet result "data" = .ok data → truthy data = false →
        ∃ st2 : St, getAssetTypeLoop be id (t :: ts) errors st
            = getAssetTypeLoop be id ts (errors ++ errs) st2
          ∧ st2.trace = st.trace ++ assetProbeEntries be id t
          ∧ ∃ tk2, st2.token = some tk2)
   ∧ (∀ (id t : String) (ts errors errs : List String),
        assetProbe be id t = (Option.none, errs) →
        ∃ st2 : St, getAssetTypeLoop be id (t :: ts) errors st
            = getAssetTypeLoop be id ts (errors ++ errs) st2
          ∧ st2.trace = st.trace ++ assetProbeEntries be id t
          ∧ ∃ tk2, st2.token = some tk2)
   ∧ (∀ (id : String) (errors : List String),
        getAssetTypeLoop be id [] errors st
          = (.ok (.dict [("error", .str ("Asset " ++ id ++ " not found")),
              ("details", .list (errors.map PyVal.str))]), st))
   ∧ (∀ id : String, getAssetBody be id Option.none = getAssetTypeLoop be id ASSET_TYPES []))
  ∧ ((∀ (id t : String) (ts errors : List String) (result : PyVal) (included : PyDict)
        (incUsed : Option String) (data n : PyVal),
        logProbe be id t logLevels = (some (result, included, incUsed), []) →
        pyGet result "data" = .ok data → truthy data = true →
        normalizeLog data included = .ok n →
        ∃ st2 : St, getLogTypeLoop be id (t :: ts) errors st = (.ok n, st2)
          ∧ st2.trace = st.trace ++ logProbeEntries be id t logLevels)
   ∧ (∀ (id t : String) (ts errors : List String) (result : PyVal) (included : PyDict)
        (incUsed : Option String) (e0 : String) (erest : List String) (data n n1 n2 : PyVal),
        logProbe be id t logLevels = (some (result, included, incUsed), e0 :: erest) →
        pyGet result "data" = .ok data → truthy data = true →
        normalizeLog data included = .ok n →
        dictSetVal n "_include_warnings" (.list ((e0 :: erest).map PyVal.str)) = .ok n1 →
        dictSetVal n1 "_include_used" (optStrVal incUsed) = .ok n2 →
        ∃ st2 : St, getLogTypeLoop be id (t :: ts) errors st = (.ok n2, st2)
          ∧ st2.trace = st.trace ++ logProbeEntries be id t logLevels)
   ∧ (∀ (id t : String) (ts errors : List String) (result : PyVal) (included : PyDict)
        (incUsed : Option String) (incErrs : List String) (data : PyVal),
        logProbe be id t logLevels = (some (result, included, incUsed), incErrs) →
        pyGet result "data" = .ok data → truthy data = false →
        ∃ st2 : St, getLogTypeLoop be id (t :: ts) errors st
            = getLogTypeLoop be id ts (errors ++ incErrs) st2
          ∧ st2.trace = st.trace ++ logProbeEntries be id t logLevels
          ∧ ∃ tk2, st2.token = some tk2)
   ∧ (∀ (id t : String) (ts errors errs : List String),
        logProbe be id t logLevels = (Option.none, errs) →
        ∃ st2 : St, getLogTypeLoop be id (t :: ts) errors st
            = getLogTypeLoop be id ts (errors ++ errs) st2
          ∧ st2.trace = st.trace ++ logProbeEntries be id t logLevels
          ∧ ∃ tk2, st2.token = some tk2)
   ∧ (∀ (id : String) (errors : List String),
        getLogTypeLoop be id [] errors st
          = (.ok (.dict [("error", .str ("Log " ++ id ++ " not found")),
              ("details", .list (errors.map PyVal.str))]), st))
   ∧ (∀ id : String, getLogBody be id Option.none = getLogTypeLoop be id LOG_TYPES []))
  ∧ ((∀ id : String, get_plan be id Option.none st
        = (.dict [("error", .str "plan_type is required when no plan types are configured")],
           st))
   ∧ (∀ id : String, getPlanTypeLoop be id [] st
        = (.ok (.dict [("error", .str ("Plan " ++ id ++ " not found"))]), st))) := by
  refine ⟨⟨?_, ?_, ?_, ?_, ?_⟩, ⟨?_, ?_, ?_, ?_, ?_, ?_⟩, ?_, ?_⟩
  · intro id t ts errors result included errs data n hprobe hdata htr hnorm
    exact getAssetTypeLoop_hit be tok htok id t ts errors st tk hst
      result included errs data n hprobe hdata htr hnorm
  · intro id t ts errors result included errs data hprobe hdata htr
    exact getAssetTypeLoop_skip be tok htok id t ts errors st tk hst
      result included errs data hprobe hdata htr
  · intro id t ts errors errs hprobe
    exact getAssetTypeLoop_miss be tok htok id t ts errors st tk hst errs hprobe
  · intro id errors
    rfl
  · intro id
    rfl
  · intro id t ts errors result included incUsed data n hprobe hdata htr hnorm
    exact getLogTypeLoop_hit be tok htok id t ts errors st tk hst
      result included incUsed data n hprobe hdata htr hnorm
  · intro id t ts errors result included incUsed e0 erest data n n1 n2
      hprobe hdata htr hnorm hw hu
    exact getLogTypeLoop_hit_fallback be tok htok id t ts errors st tk hst
      result included incUsed e0 erest data n n1 n2 hprobe hdata htr hnorm hw hu
  · intro id t ts errors result included incUsed incErrs data hprobe hdata htr
    exact getLogTypeLoop_skip be tok htok id t ts errors st tk hst
      result included incUsed incErrs data hprobe hdata htr
  · intro id t ts errors errs hprobe
    exact getLogTypeLoop_miss be tok htok id t ts errors st tk hst errs hprobe
  · intro id errors
    rfl
  · intro id
    rfl
  · intro id
    rfl
  · intro id
    rfl

/-- Witness for C3 (amended): against a backend that answers every GET
with an `asset--land` resource, the probe stops at the first sub-type
with only its own requests issued; against a backend that rejects every
`include` with 422 but serves the plain GET, `get_log` stops at the
first sub-type through the no-include fallback, annotated with the four
include warnings; a sub-type answering `"data": null` is skipped; and
`get_plan` without a sub-type returns the configuration error
untouched. -/
theorem claim_C3_single_lookup_amended_witness :
    (∃ (n : PyVal) (st2 : St),
      getAssetTypeLoop ⟨fun _ _ _ => .resp ⟨200, .dict [("data", .dict [("id", .str "a1"),
          ("type", .str "asset--land"), ("attributes", .dict []),
          ("relationships", .dict [])])]⟩, .ok "T", 0, 0⟩ "a1" ["land", "plant"] []
        ⟨some "T", []⟩ = (.ok n, st2)
      ∧ st2.trace = (⟨some "T", []⟩ : St).trace ++
          assetProbeEntries ⟨fun _ _ _ => .resp ⟨200, .dict [("data", .dict [("id", .str "a1"),
            ("type", .str "asset--land"), ("attributes", .dict []),
            ("relationships", .dict [])])]⟩, .ok "T", 0, 0⟩ "a1" "land")
  ∧ (∃ (n2 : PyVal) (st2 : St),
      getLogTypeLoop ⟨fun _ _ ps => if (ps.lookup "include").isSome
          then .resp ⟨422, .str "bad include"⟩
          else .resp ⟨200, .dict [("data", .dict [("id", .str "l1"),
            ("type", .str "log--activity"), ("attributes", .dict []),
            ("relationships", .dict [])])]⟩, .ok "T", 0, 0⟩ "l1" ["activity", "harvest"] []
        ⟨some "T", []⟩ = (.ok n2, st2)
      ∧ st2.trace = (⟨some "T", []⟩ : St).trace ++
          logProbeEntries ⟨fun _ _ ps => if (ps.lookup "include").isSome
            then .resp ⟨422, .str "bad include"⟩
            else .resp ⟨200, .dict [("data", .dict [("id", .str "l1"),
              ("type", .str "log--activity"), ("attributes", .dict []),
              ("relationships", .dict [])])]⟩, .ok "T", 0, 0⟩ "l1" "activity" logLevels)
  ∧ (∃ st2 : St,
      getAssetTypeLoop ⟨fun _ _ _ => .resp ⟨200, .dict [("data", PyVal.none)]⟩,
          .ok "T", 0, 0⟩ "a2" ["land", "plant"] [] ⟨some "T", []⟩
        = getAssetTypeLoop ⟨fun _ _ _ => .resp ⟨200, .dict [("data", PyVal.none)]⟩,
          .ok "T", 0, 0⟩ "a2" ["plant"] [] st2)
  ∧ get_plan ⟨fun _ _ _ => .resp ⟨200, .dict [("data", .dict [("id", .str "a1"),
        ("type", .str "asset--land"), ("attributes", .dict []),
        ("relationships", .dict [])])]⟩, .ok "T", 0, 0⟩ "a1" Option.none ⟨some "T", []⟩
      = (.dict [("error", .str "plan_type is required when no plan types are configured")],
         ⟨some "T", []⟩) := by
  have h := claim_C3_single_lookup_amended
    ⟨fun _ _ _ => .resp ⟨200, .dict [("data", .dict [("id", .str "a1"),
        ("type", .str "asset--land"), ("attributes", .dict []),
        ("relationships", .dict [])])]⟩, .ok "T", 0, 0⟩ "T" rfl ⟨some "T", []⟩ "T" rfl
  have h2 := claim_C3_single_lookup_amended
    ⟨fun _ _ ps => if (ps.lookup "include").isSome
        then .resp ⟨422, .str "bad include"⟩
        else .resp ⟨200, .dict [("data", .dict [("id", .str "l1"),
          ("type", .str "log--activity"), ("attributes", .dict []),
          ("relationships", .dict [])])]⟩, .ok "T", 0, 0⟩ "T" rfl ⟨some "T", []⟩ "T" rfl
  have h3 := claim_C3_single_lookup_amended
    ⟨fun _ _ _ => .resp ⟨200, .dict [("data", PyVal.none)]⟩, .ok "T", 0, 0⟩
    "T" rfl ⟨some "T", []⟩ "T" rfl
  obtain ⟨st2, hrun, htr, tk2, htk2⟩ :=
    h3.1.2.1 "a2" "land" ["plant"] [] _ _ _ _ rfl rfl rfl
  exact ⟨⟨_, h.1.1 "a1" "land" ["plant"] [] _ _ _ _ _ rfl rfl rfl rfl⟩,
    ⟨_, h2.2.1.2.1 "l1" "activity" ["harvest"] [] _ _ _ _ _ _ _ _ _
      rfl rfl rfl rfl rfl rfl⟩,
    ⟨st2, hrun⟩, h.2.2.1 "a1"⟩

/-- Claim C6 names a code bug: the documented two-step quantity write
never happens.  On the claim's own example —
`create_log(log_type="harvest", name="Tomato harvest",
quantities=[{"measure": "weight", "value": 12.5}])` — the first quantity
POST raises the duplicate-`headers` `TypeError` inside
`FarmOSClient.post` before any HTTP traffic, so the tool returns the
error object, no quantity resource is created, no revision read happens
and no log POST is issued (the trace stays empty). -/
theorem claim_C6_quantity_write_never_posts :
    create_log ⟨fun _ _ _ => .resp ⟨200, .dict [("data", .dict [("id", .str "q1")])]⟩,
        .ok "T", 1700000000, 0⟩
      { log_type := "harvest", name := "Tomato harvest",
        quantities := some [.dict [("measure", .str "weight"),
          ("value", .float (mkRat 25 2))]] }
      ⟨some "T", []⟩
      = (.dict [("error", .str dupHeadersMsg)], ⟨some "T", []⟩) := by
  rfl

end FarmOS
